import Mathlib

/-!
# Project-Star firmware: persistence queue, sensor producers and the Resilience Supervisor

A shallow embedding of the parts of the firmware the specification talks about.

* C strings are lists of characters (`CStr`); a pointer that may be `NULL` is an `Option`.
* File-scope statics become fields of an explicit state record that every function
  takes and returns.
* Calls into FreeRTOS, the I2C helpers, libc and the Wi-Fi driver are environment
  inputs: their return values are arguments of the embedded function, and the calls a
  function makes are recorded in an event trace where a claim needs to count them.
* `esp_err_t` is `Int` with the ESP-IDF numeric values.
* What happens asynchronously while a task is blocked (an event delivered to the event
  handler, the connect timer expiring) is a list of occurrences handed to the blocking call;
  a status of `none` means the call is still blocked when the list is used up.
* A `float` is a rational. The lux value of the BH1750 is the quotient the code forms,
  rounded to binary32 as the target does. The MPU6050 readings are kept as exact
  quotients: only their range comparisons are used, the divisors and thresholds are exact
  in binary32 and rounding is monotone, so the comparisons decide as in the code.
-/

namespace ProjectStar

/-! ## ESP-IDF and FreeRTOS primitives -/

abbrev esp_err_t := Int

abbrev CStr := List Char

def ESP_OK : esp_err_t := 0
def ESP_FAIL : esp_err_t := -1
def ESP_ERR_NO_MEM : esp_err_t := 0x101
def ESP_ERR_INVALID_ARG : esp_err_t := 0x102
def ESP_ERR_INVALID_STATE : esp_err_t := 0x103
def ESP_ERR_WIFI_NOT_INIT : esp_err_t := 0x3001
def ESP_ERR_WIFI_NOT_CONNECT : esp_err_t := 0x3007

/-- The tick type is `uint32_t`. -/
def TICK_MOD : Nat := 2 ^ 32

/-- FreeRTOS `pdMS_TO_TICKS(ms)` for a tick rate of `configTICK_RATE_HZ` (a build-time
setting of the project, taken as a parameter): `(ms * rate) / 1000` in `TickType_t`. -/
def pdMS_TO_TICKS (configTICK_RATE_HZ : Nat) (ms : Nat) : Nat :=
  ((ms % TICK_MOD) * (configTICK_RATE_HZ % TICK_MOD)) % TICK_MOD / 1000

/-- A FreeRTOS queue: the capacity fixed by `xQueueCreate` and the items it holds, oldest
first. -/
structure QueueHandle_t (α : Type) where
  uxLength : Nat
  items : List α

/-- FreeRTOS `xQueueCreate(uxQueueLength, itemSize)` when the allocation succeeds. -/
def xQueueCreate {α : Type} (uxQueueLength : Nat) : QueueHandle_t α :=
  { uxLength := uxQueueLength, items := [] }

/-- Outcome of `xQueueSend`: `pdTRUE`/`pdFALSE`, the queue afterwards and the number of ticks
the caller spent blocked. -/
structure QueueSendResult (α : Type) where
  ok : Bool
  queue : QueueHandle_t α
  ticks_blocked : Nat

/-- FreeRTOS `xQueueSend(queue, item, xTicksToWait)` in a run where no receiver is scheduled
during the call: with room the item is copied to the tail at once; when full the caller
blocks for the whole `xTicksToWait` and then gets `pdFALSE`. -/
def xQueueSend {α : Type} (q : QueueHandle_t α) (item : α) (xTicksToWait : Nat) :
    QueueSendResult α :=
  if q.items.length < q.uxLength then
    { ok := true, queue := { q with items := q.items ++ [item] }, ticks_blocked := 0 }
  else
    { ok := false, queue := q, ticks_blocked := xTicksToWait }

/-- C `snprintf(buf, n, ...)`: the formatted text cut to `n - 1` characters (the last byte
of the buffer holds the terminator). -/
def snprintf (n : Nat) (formatted : CStr) : CStr :=
  formatted.take (n - 1)

/-! ## file_write_manager.c -/

def max_pending_writes : Nat := 10

structure file_writer_config_t where
  priority : Nat
  stack_depth : Nat
  enabled : Bool
deriving DecidableEq, Repr

/-- The `file_write_request_t` value copied into the queue. -/
structure file_write_request_t where
  file_path : CStr
  data : CStr
deriving DecidableEq, Repr

/-- What `file_write_manager.h` and `sd_card_hal.h` declare and this file uses: the two
buffer sizes of a request and the storage mount root. -/
structure file_write_consts where
  MAX_FILE_PATH_LENGTH : Nat
  MAX_DATA_LENGTH : Nat
  sd_card_mount_path : CStr

/-- The file-scope statics of `file_write_manager.c`; a `NULL` handle is `none`. -/
structure file_write_manager_t where
  s_file_write_queue : Option (QueueHandle_t file_write_request_t)
  s_file_write_task_handle : Option Unit
  s_file_writer_config : file_writer_config_t

/-- The initial values of the statics: `NULL`, `NULL`, `{ 3, 4096, false }`. -/
def file_write_manager_statics : file_write_manager_t :=
  { s_file_write_queue := none
    s_file_write_task_handle := none
    s_file_writer_config := { priority := 3, stack_depth := 4096, enabled := false } }

/-- The request built by the two `snprintf` calls of `file_write_enqueue`. -/
def file_write_request (K : file_write_consts) (timestamp file_path data : CStr) :
    file_write_request_t :=
  { file_path := snprintf K.MAX_FILE_PATH_LENGTH (K.sd_card_mount_path ++ ['/'] ++ file_path)
    data := snprintf K.MAX_DATA_LENGTH (timestamp ++ [' '] ++ data ++ ['\n']) }

/-- Result of `file_write_enqueue`: the status, the statics afterwards and the ticks the
caller was blocked in the queue send. -/
structure file_write_enqueue_result where
  ret : esp_err_t
  state : file_write_manager_t
  ticks_blocked : Nat

/-- `file_write_enqueue(file_path, data)`; `timestamp` is what `priv_get_timestamp` wrote. -/
def file_write_enqueue (K : file_write_consts) (s : file_write_manager_t) (timestamp : CStr)
    (file_path data : Option CStr) : file_write_enqueue_result :=
  if !s.s_file_writer_config.enabled then
    { ret := ESP_FAIL, state := s, ticks_blocked := 0 }
  else
    match file_path, data with
    | some p, some d =>
      match s.s_file_write_queue with
      | none => { ret := ESP_FAIL, state := s, ticks_blocked := 0 }
      | some q =>
        let request := file_write_request K timestamp p d
        let sent := xQueueSend q request 0
        if sent.ok != true then
          { ret := ESP_FAIL, state := { s with s_file_write_queue := some sent.queue },
            ticks_blocked := sent.ticks_blocked }
        else
          { ret := ESP_OK, state := { s with s_file_write_queue := some sent.queue },
            ticks_blocked := sent.ticks_blocked }
    | _, _ => { ret := ESP_ERR_INVALID_ARG, state := s, ticks_blocked := 0 }

/-- The pending requests of the writer, oldest first (none while the queue is `NULL`). -/
def pending_requests (s : file_write_manager_t) : List file_write_request_t :=
  match s.s_file_write_queue with
  | none => []
  | some q => q.items

/-- What one pass of the consumer loop reports through its log statements. -/
inductive file_write_event where
  | open_failed (file_path : CStr)
  | write_incomplete (bytes_written total : Nat) (file_path : CStr)
  | write_successful (bytes_written : Nat) (file_path : CStr)
deriving DecidableEq, Repr

/-- The writer statics together with the storage behind `fopen`/`fwrite`: the contents of
every file by path (a file that does not exist yet is empty, mode `"a"` creates it). -/
structure storage_t where
  writer : file_write_manager_t
  files : CStr → CStr

/-- One pass of the `while (1)` loop of `priv_file_write_task` that receives a request.
`fopen_ok` says whether `fopen(path, "a")` returned a stream and `fwrite_shortfall` is the
number of bytes of `strlen(request.data)` that `fwrite` fails to write (0 for a complete
write). With nothing pending the task stays blocked in `xQueueReceive(..., portMAX_DELAY)`. -/
def priv_file_write_task_pass (fopen_ok : Bool) (fwrite_shortfall : Nat) (s : storage_t) :
    storage_t × Option file_write_event :=
  match s.writer.s_file_write_queue with
  | none => (s, none)
  | some q =>
    match q.items with
    | [] => (s, none)
    | request :: rest =>
      let writer := { s.writer with s_file_write_queue := some { q with items := rest } }
      if !fopen_ok then
        ({ s with writer := writer }, some (.open_failed request.file_path))
      else
        let bytes_written := request.data.length - fwrite_shortfall
        let files := fun p =>
          if p = request.file_path then s.files p ++ request.data.take bytes_written
          else s.files p
        if bytes_written != request.data.length then
          ({ writer := writer, files := files },
            some (.write_incomplete bytes_written request.data.length request.file_path))
        else
          ({ writer := writer, files := files },
            some (.write_successful bytes_written request.file_path))

/-- A step of the persistence subsystem as seen from outside: a producer calls
`file_write_enqueue`, or the consumer task is scheduled for one pass. -/
inductive storage_action where
  | enqueue (timestamp : CStr) (file_path data : Option CStr)
  | consume (fopen_ok : Bool) (fwrite_shortfall : Nat)

/-- State of a run: the storage, the requests accepted so far (those for which
`file_write_enqueue` returned `ESP_OK`, in call order) and the consumer's reports. -/
structure storage_run_t where
  storage : storage_t
  accepted : List file_write_request_t
  events : List file_write_event

def storage_step (K : file_write_consts) (r : storage_run_t) : storage_action → storage_run_t
  | .enqueue timestamp file_path data =>
    let res := file_write_enqueue K r.storage.writer timestamp file_path data
    { storage := { r.storage with writer := res.state }
      accepted :=
        if res.ret = ESP_OK then
          match file_path, data with
          | some p, some d => r.accepted ++ [file_write_request K timestamp p d]
          | _, _ => r.accepted
        else r.accepted
      events := r.events }
  | .consume fopen_ok fwrite_shortfall =>
    let res := priv_file_write_task_pass fopen_ok fwrite_shortfall r.storage
    { storage := res.1
      accepted := r.accepted
      events := match res.2 with
        | some e => r.events ++ [e]
        | none => r.events }

def storage_run (K : file_write_consts) (r : storage_run_t) (acts : List storage_action) :
    storage_run_t :=
  acts.foldl (storage_step K) r

/-- The consumer's report is a complete write. -/
def file_write_event.complete : file_write_event → Bool
  | .write_successful _ _ => true
  | _ => false

/-- The text the requests of `reqs` addressed to `file_path` contribute, in list order. -/
def payload_for (file_path : CStr) (reqs : List file_write_request_t) : CStr :=
  (reqs.filter (fun r => r.file_path = file_path)).flatMap (fun r => r.data)

/-- The consumer left alone for `n` passes, every `fopen` succeeding and every `fwrite`
complete. -/
def drain_actions (n : Nat) : List storage_action :=
  List.replicate n (.consume true 0)

/-- Outcome of `file_write_manager_init`. -/
structure file_write_manager_init_result where
  ret : esp_err_t
  state : file_write_manager_t

/-- `file_write_manager_init()`. `queue_created` and `task_created` say whether
`xQueueCreate` and `xTaskCreate` succeeded, `sd_card_ret` is what `sd_card_init` returns. -/
def file_write_manager_init (s : file_write_manager_t) (queue_created task_created : Bool)
    (sd_card_ret : esp_err_t) : file_write_manager_init_result :=
  if !s.s_file_writer_config.enabled then
    { ret := ESP_OK, state := s }
  else
    let s1 := { s with s_file_write_queue :=
      if queue_created then some (xQueueCreate max_pending_writes) else none }
    if s1.s_file_write_queue.isNone then
      { ret := ESP_FAIL, state := s1 }
    else if !task_created then
      { ret := ESP_FAIL, state := s1 }
    else
      let s2 := { s1 with s_file_write_task_handle := some () }
      if sd_card_ret != ESP_OK then
        { ret := ESP_FAIL, state := s2 }
      else
        { ret := ESP_OK, state := s2 }

/-! ## error_handler (Resilience Supervisor)

`error_handler.c` and `error_handler.h` are not among the sources; the sensor and Wi-Fi code
only calls into them. -/

/-- Modelled from the spec: the Supervisor instance `error_handler_t` of the missing
`error_handler.h` (spec section 3); the reset callback and its context are passed to
`error_handler_record_error` by the owner instead of being stored. Intervals and times are
in ticks. -/
structure error_handler_t where
  tag : CStr
  failure_count : Nat
  max_retries : Nat
  retry_interval : Nat
  initial_retry_interval : Nat
  max_retry_interval : Nat
  backoff_interval : Nat
  initial_backoff_interval : Nat
  max_backoff_interval : Nat
  last_attempt_time : Nat
deriving DecidableEq, Repr

/-- Modelled from the spec: `error_handler_init` of the missing `error_handler.c`, with the
argument order of its call sites (tag, max_retries, initial_retry_interval,
max_retry_interval, [reset callback, context], initial_backoff_interval,
max_backoff_interval). The counter starts at 0 and both intervals at their initial values;
the spec does not say what `last_attempt_time` starts as and it is taken to be tick 0;
the counterexamples that depend on the time of the last attempt are stated for every
starting value. -/
def error_handler_init (tag : CStr) (max_retries initial_retry_interval max_retry_interval
    initial_backoff_interval max_backoff_interval : Nat) : error_handler_t :=
  { tag := tag
    failure_count := 0
    max_retries := max_retries
    retry_interval := initial_retry_interval
    initial_retry_interval := initial_retry_interval
    max_retry_interval := max_retry_interval
    backoff_interval := initial_backoff_interval
    initial_backoff_interval := initial_backoff_interval
    max_backoff_interval := max_backoff_interval
    last_attempt_time := 0 }

/-- Result of `error_handler_record_error`: the Supervisor and the callback context
afterwards, and whether the reset callback was invoked by this call. -/
structure record_error_result (σ : Type) where
  handler : error_handler_t
  context : σ
  reset_invoked : Bool

/-- Modelled from the spec: `error_handler_record_error` of the missing `error_handler.c`
(spec section 4.1, `record_error`). `now` is the tick count the call reads and
`reset_callback` the recovery action given at construction, run on `context`. -/
def error_handler_record_error {σ : Type} (reset_callback : σ → esp_err_t × σ)
    (h : error_handler_t) (context : σ) (_err : esp_err_t) (now : Nat) :
    record_error_result σ :=
  let h1 := { h with failure_count := h.failure_count + 1 }
  if h1.failure_count < h1.max_retries then
    { handler := h1, context := context, reset_invoked := false }
  else if now - h1.last_attempt_time ≥ h1.backoff_interval then
    let h2 := { h1 with last_attempt_time := now }
    let r := reset_callback context
    if r.1 = ESP_OK then
      { handler := { h2 with failure_count := 0, backoff_interval := h2.initial_retry_interval }
        context := r.2
        reset_invoked := true }
    else
      { handler := { h2 with
          backoff_interval := min (h2.backoff_interval * 2) h2.max_backoff_interval }
        context := r.2
        reset_invoked := true }
  else
    { handler := h1, context := context, reset_invoked := false }

/-- Modelled from the spec: the three answers of `record_status` in the missing
`error_handler.c` (spec section 4.1): "healthy", "wait" and "proceed". -/
inductive status_verdict where
  | healthy
  | wait
  | proceed
deriving DecidableEq, Repr

/-- Modelled from the spec: the `esp_err_t` a verdict is returned as. The callers in
`wifi_tasks.c` act on `ESP_OK` as "proceed" and on every other value as "wait". -/
def status_verdict.code : status_verdict → esp_err_t
  | .healthy => ESP_OK
  | .proceed => ESP_OK
  | .wait => ESP_FAIL

/-- Modelled from the spec: `error_handler_record_status` of the missing `error_handler.c`
(spec section 4.1, `record_status`); `now` is the tick count the call reads. -/
def error_handler_record_status (h : error_handler_t) (err : esp_err_t) (now : Nat) :
    error_handler_t × status_verdict :=
  if err = ESP_OK then
    ({ h with failure_count := 0, retry_interval := h.initial_retry_interval }, .healthy)
  else
    let h1 := { h with failure_count := h.failure_count + 1 }
    if now - h1.last_attempt_time ≥ h1.retry_interval then
      ({ h1 with
          last_attempt_time := now
          retry_interval := min (h1.retry_interval * 2) h1.max_retry_interval }, .proceed)
    else
      (h1, .wait)

/-- A call on a Supervisor: `record_error` or `record_status`, with the status passed and the
tick at which it is made. -/
inductive supervisor_call where
  | record_error (err : esp_err_t) (now : Nat)
  | record_status (err : esp_err_t) (now : Nat)
deriving DecidableEq, Repr

def supervisor_call.now : supervisor_call → Nat
  | .record_error _ now => now
  | .record_status _ now => now

/-- A Supervisor with its callback context during a sequence of calls; `resets` lists, per
call so far, whether that call invoked the reset callback. -/
structure supervisor_run_t (σ : Type) where
  handler : error_handler_t
  context : σ
  resets : List Bool

def supervisor_step {σ : Type} (reset_callback : σ → esp_err_t × σ)
    (r : supervisor_run_t σ) : supervisor_call → supervisor_run_t σ
  | .record_error err now =>
    let res := error_handler_record_error reset_callback r.handler r.context err now
    { handler := res.handler, context := res.context, resets := r.resets ++ [res.reset_invoked] }
  | .record_status err now =>
    { handler := (error_handler_record_status r.handler err now).1
      context := r.context
      resets := r.resets ++ [false] }

def supervisor_run {σ : Type} (reset_callback : σ → esp_err_t × σ)
    (r : supervisor_run_t σ) (calls : List supervisor_call) : supervisor_run_t σ :=
  calls.foldl (supervisor_step reset_callback) r

/-! ## C `float` arithmetic

The target stores a `float` as an IEEE 754 binary32 number and rounds the result of a
division to the nearest such number, ties to even. The quotients formed here are positive
and far inside the normal range, so a value is a 24-bit significand times a power of two. -/

/-- The number of binary digits of `n`, found in at most `fuel` halvings. -/
def bit_length_aux : Nat → Nat → Nat
  | 0, _ => 0
  | fuel + 1, n => if n = 0 then 0 else bit_length_aux fuel (n / 2) + 1

/-- The number of binary digits of `n` (0 for 0). -/
def bit_length (n : Nat) : Nat := bit_length_aux n n

/-- The binary exponent `e` of a positive quotient: `2^e ≤ num / den < 2^(e+1)`. -/
def binary32_exponent (num den : Nat) : Int :=
  let d : Int := (bit_length num : Int) - (bit_length den : Int)
  if den * 2 ^ d.toNat ≤ num * 2 ^ (-d).toNat then d else d - 1

/-- The 24-bit significand of the binary32 number nearest to `num / den`: the quotient
scaled by `2^(23 - e)` and rounded to the nearest integer, ties to even. -/
def binary32_significand (num den : Nat) : Nat :=
  let k : Int := 23 - binary32_exponent num den
  let n := num * 2 ^ k.toNat
  let m := den * 2 ^ (-k).toNat
  if 2 * (n % m) < m then n / m
  else if m < 2 * (n % m) then n / m + 1
  else if (n / m) % 2 = 0 then n / m
  else n / m + 1

/-- The value of the C expression `x / y` on non-negative `float` operands whose exact
quotient is `num / den`: that quotient rounded to binary32. -/
def binary32_div (num den : Nat) : ℚ :=
  if num = 0 then 0
  else (binary32_significand num den : ℚ) * (2 : ℚ) ^ (binary32_exponent num den - 23)

/-! ## bh1750_hal.c: constants -/

def bh1750_tag : CStr := "BH1750".toList
def bh1750_i2c_address : Nat := 0x23
def bh1750_max_retries : Nat := 4
def bh1750_measurement_bytes : Nat := 2
def bh1750_high_byte_shift : Nat := 8

def bh1750_polling_rate_ticks (configTICK_RATE_HZ : Nat) : Nat :=
  pdMS_TO_TICKS configTICK_RATE_HZ (5 * 1000)

def bh1750_initial_retry_interval (configTICK_RATE_HZ : Nat) : Nat :=
  pdMS_TO_TICKS configTICK_RATE_HZ 15

def bh1750_max_backoff_interval (configTICK_RATE_HZ : Nat) : Nat :=
  pdMS_TO_TICKS configTICK_RATE_HZ (8 * 60)

/-- The Supervisor as `bh1750_init` constructs it. -/
def bh1750_error_handler (configTICK_RATE_HZ : Nat) : error_handler_t :=
  error_handler_init bh1750_tag bh1750_max_retries
    (bh1750_initial_retry_interval configTICK_RATE_HZ)
    (bh1750_max_backoff_interval configTICK_RATE_HZ)
    (bh1750_initial_retry_interval configTICK_RATE_HZ)
    (bh1750_max_backoff_interval configTICK_RATE_HZ)

/-! ## Producer tasks: calls observed -/

/-- The Supervisor instances of the firmware. -/
inductive supervisor_id where
  | bh1750_data_error_handler
  | s_mpu6050_error_handler
  | s_wifi_error_handler
deriving DecidableEq, Repr

/-- The calls a sensor task makes to its collaborators, in the order made. -/
inductive task_call where
  | priv_i2c_write_byte (cmd : Nat)
  | priv_i2c_read_bytes (len : Nat)
  | priv_i2c_read_reg_bytes (reg : Nat) (len : Nat)
  | vTaskDelay (ticks : Nat)
  | send_sensor_data_to_webserver (json : Option CStr)
  | file_write_enqueue (file_path : CStr) (data : Option CStr)
  | error_handler_record_error (handler : supervisor_id) (err : esp_err_t)
  | free (json : Option CStr)
  | xSemaphoreTake (ticks : Nat)
deriving DecidableEq, Repr

/-- The call feeds a Supervisor. -/
def task_call.is_record_error : task_call → Bool
  | .error_handler_record_error _ _ => true
  | _ => false

/-- The call hands a reading to one of the two sinks. -/
def task_call.is_sink : task_call → Bool
  | .send_sensor_data_to_webserver _ => true
  | .file_write_enqueue _ _ => true
  | _ => false

/-- The command byte of a `priv_i2c_write_byte` call. -/
def task_call.written_byte : task_call → Option Nat
  | .priv_i2c_write_byte cmd => some cmd
  | _ => none

/-! ## bh1750_hal.c -/

/-- The state and command values that `bh1750_hal.h` defines. -/
structure bh1750_enum_t where
  k_bh1750_ready : Nat
  k_bh1750_data_updated : Nat
  k_bh1750_uninitialized : Nat
  k_bh1750_error : Nat
  k_bh1750_power_on_error : Nat
  k_bh1750_reset_error : Nat
  k_bh1750_cont_low_res_error : Nat
  k_bh1750_power_on_cmd : Nat
  k_bh1750_reset_cmd : Nat
  k_bh1750_cont_low_res_mode_cmd : Nat

/-- The sensor record `bh1750_data_t`; `state` is a `uint8_t`. -/
structure bh1750_data_t where
  i2c_address : Nat
  i2c_bus : Nat
  lux : ℚ
  state : Nat
  error_handler : error_handler_t
deriving DecidableEq, Repr

/-- Numerator of `bh1750_raw_to_lux_factor = 1.2f`: the binary32 number nearest to 1.2 is
`10066330 / 2^23` (bit pattern `0x3F99999A`). -/
def bh1750_raw_to_lux_factor_num : Nat := 10066330

/-- Denominator of `bh1750_raw_to_lux_factor = 1.2f`, `2^23`. -/
def bh1750_raw_to_lux_factor_den : Nat := 8388608

/-- `bh1750_raw_to_lux_factor = 1.2f`, the value the `float` constant holds. -/
def bh1750_raw_to_lux_factor : ℚ :=
  (bh1750_raw_to_lux_factor_num : ℚ) / (bh1750_raw_to_lux_factor_den : ℚ)

/-- What the three `priv_i2c_write_byte` calls of one reset return. -/
structure bh1750_reset_env where
  power_on_ret : esp_err_t
  reset_ret : esp_err_t
  cont_low_res_ret : esp_err_t

/-- `priv_bh1750_reset(context)`: the status, the record afterwards and the calls made. -/
def priv_bh1750_reset (C : bh1750_enum_t) (configTICK_RATE_HZ : Nat) (env : bh1750_reset_env)
    (bh1750_data : bh1750_data_t) : esp_err_t × bh1750_data_t × List task_call :=
  if env.power_on_ret ≠ ESP_OK then
    (env.power_on_ret, { bh1750_data with state := C.k_bh1750_power_on_error % 256 },
      [.priv_i2c_write_byte C.k_bh1750_power_on_cmd])
  else if env.reset_ret ≠ ESP_OK then
    (env.reset_ret, { bh1750_data with state := C.k_bh1750_reset_error % 256 },
      [.priv_i2c_write_byte C.k_bh1750_power_on_cmd,
        .vTaskDelay (pdMS_TO_TICKS configTICK_RATE_HZ 10),
        .priv_i2c_write_byte C.k_bh1750_reset_cmd])
  else if env.cont_low_res_ret ≠ ESP_OK then
    (env.cont_low_res_ret, { bh1750_data with state := C.k_bh1750_cont_low_res_error % 256 },
      [.priv_i2c_write_byte C.k_bh1750_power_on_cmd,
        .vTaskDelay (pdMS_TO_TICKS configTICK_RATE_HZ 10),
        .priv_i2c_write_byte C.k_bh1750_reset_cmd,
        .vTaskDelay (pdMS_TO_TICKS configTICK_RATE_HZ 10),
        .priv_i2c_write_byte C.k_bh1750_cont_low_res_mode_cmd])
  else
    (ESP_OK, { bh1750_data with state := C.k_bh1750_ready % 256 },
      [.priv_i2c_write_byte C.k_bh1750_power_on_cmd,
        .vTaskDelay (pdMS_TO_TICKS configTICK_RATE_HZ 10),
        .priv_i2c_write_byte C.k_bh1750_reset_cmd,
        .vTaskDelay (pdMS_TO_TICKS configTICK_RATE_HZ 10),
        .priv_i2c_write_byte C.k_bh1750_cont_low_res_mode_cmd,
        .vTaskDelay (pdMS_TO_TICKS configTICK_RATE_HZ 10)])

/-- `bh1750_read(sensor_data)`; `read_ret` is what `priv_i2c_read_bytes` returns and
`data0`, `data1` are the two bytes it stored. The division
`raw_light_intensity / bh1750_raw_to_lux_factor` is a `float` division: its exact quotient
is `raw * 2^23 / 10066330` and the value stored is that quotient rounded to binary32. -/
def bh1750_read (C : bh1750_enum_t) (read_ret : esp_err_t) (data0 data1 : Nat)
    (sensor_data : bh1750_data_t) : esp_err_t × bh1750_data_t :=
  if read_ret ≠ ESP_OK then
    (ESP_FAIL, { sensor_data with lux := -1, state := C.k_bh1750_error % 256 })
  else
    let raw_light_intensity : Nat :=
      (((data0 % 256) <<< bh1750_high_byte_shift) ||| (data1 % 256)) % 65536
    (ESP_OK, { sensor_data with
      lux := binary32_div (raw_light_intensity * bh1750_raw_to_lux_factor_den)
        bh1750_raw_to_lux_factor_num
      state := C.k_bh1750_data_updated % 256 })

/-- What the environment answers during one pass of the loop of `bh1750_tasks`: the bus
read, the text `bh1750_data_to_json` produces (`none` for `NULL`), the return value of
`send_sensor_data_to_webserver`, the timestamp and tick count read, and the bus writes of a
reset. -/
structure bh1750_tasks_env where
  read_ret : esp_err_t
  data0 : Nat
  data1 : Nat
  json : Option CStr
  webserver_ret : esp_err_t
  timestamp : CStr
  now : Nat
  reset : bh1750_reset_env

/-- State after one pass of a sensor task: the sensor record, the file writer statics and
the calls made during the pass. -/
structure bh1750_tasks_result where
  sensor : bh1750_data_t
  writer : file_write_manager_t
  calls : List task_call

/-- The reset callback as the Supervisor sees it: `priv_bh1750_reset` on the sensor record,
with the calls it makes appended to those collected so far. -/
def bh1750_reset_callback (C : bh1750_enum_t) (configTICK_RATE_HZ : Nat)
    (env : bh1750_reset_env) (context : bh1750_data_t × List task_call) :
    esp_err_t × (bh1750_data_t × List task_call) :=
  let r := priv_bh1750_reset C configTICK_RATE_HZ env context.1
  (r.1, (r.2.1, context.2 ++ r.2.2))

/-- One pass of the `while (1)` loop of `bh1750_tasks` (with a non-null sensor record). -/
def bh1750_tasks_pass (C : bh1750_enum_t) (K : file_write_consts) (configTICK_RATE_HZ : Nat)
    (env : bh1750_tasks_env) (bh1750_data : bh1750_data_t) (writer : file_write_manager_t) :
    bh1750_tasks_result :=
  let r := bh1750_read C env.read_ret env.data0 env.data1 bh1750_data
  if r.1 = ESP_OK then
    match env.json with
    | some json =>
      { sensor := r.2
        writer := (file_write_enqueue K writer env.timestamp (some "bh1750.txt".toList)
          (some json)).state
        calls := [.priv_i2c_read_bytes bh1750_measurement_bytes,
          .send_sensor_data_to_webserver (some json),
          .file_write_enqueue "bh1750.txt".toList (some json),
          .free (some json),
          .vTaskDelay (bh1750_polling_rate_ticks configTICK_RATE_HZ)] }
    | none =>
      { sensor := r.2
        writer := writer
        calls := [.priv_i2c_read_bytes bh1750_measurement_bytes,
          .vTaskDelay (bh1750_polling_rate_ticks configTICK_RATE_HZ)] }
  else if r.2.state &&& C.k_bh1750_error ≠ 0 then
    let res := error_handler_record_error
      (bh1750_reset_callback C configTICK_RATE_HZ env.reset)
      r.2.error_handler (r.2, []) ESP_FAIL env.now
    { sensor := { res.context.1 with error_handler := res.handler }
      writer := writer
      calls := [.priv_i2c_read_bytes bh1750_measurement_bytes,
          .error_handler_record_error .bh1750_data_error_handler ESP_FAIL]
        ++ res.context.2 ++ [.vTaskDelay (bh1750_polling_rate_ticks configTICK_RATE_HZ)] }
  else
    { sensor := r.2
      writer := writer
      calls := [.priv_i2c_read_bytes bh1750_measurement_bytes,
        .vTaskDelay (bh1750_polling_rate_ticks configTICK_RATE_HZ)] }

/-! ## mpu6050_hal.c -/

/-- The state and register values that `mpu6050_hal.h` defines and the read path uses. -/
structure mpu6050_enum_t where
  k_mpu6050_ready : Nat
  k_mpu6050_data_updated : Nat
  k_mpu6050_uninitialized : Nat
  k_mpu6050_error : Nat
  k_mpu6050_power_on_error : Nat
  k_mpu6050_reset_error : Nat
  k_mpu6050_accel_xout_h_cmd : Nat
  k_mpu6050_gyro_xout_h_cmd : Nat
  MPU6050_ACCEL_DATA_SIZE : Nat
  MPU6050_GYRO_DATA_SIZE : Nat

/-- The sensor record `mpu6050_data_t`; `state` is a `uint8_t`, the semaphore handle is
`none` while `NULL`. -/
structure mpu6050_data_t where
  i2c_address : Nat
  i2c_bus : Nat
  accel_x : ℚ
  accel_y : ℚ
  accel_z : ℚ
  gyro_x : ℚ
  gyro_y : ℚ
  gyro_z : ℚ
  state : Nat
  data_ready_sem : Option Unit
deriving DecidableEq, Repr

/-- The `accel_scale` column of `mpu6050_accel_configs` (LSB/g). -/
def mpu6050_accel_scales : List ℚ := [16384, 8192, 4096, 2048]

/-- The `gyro_scale` column of `mpu6050_gyro_configs` (LSB per degree/s). -/
def mpu6050_gyro_scales : List ℚ := [131, 131 / 2, 164 / 5, 82 / 5]

def mpu6050_gyro_config_idx : Nat := 1
def mpu6050_accel_config_idx : Nat := 1

def mpu6050_polling_rate_ticks (configTICK_RATE_HZ : Nat) : Nat :=
  pdMS_TO_TICKS configTICK_RATE_HZ 20

/-- `(int16_t)((hi << 8) | lo)` for two bytes. -/
def int16_of_bytes (hi lo : Nat) : Int :=
  let v : Nat := (((hi % 256) <<< 8) ||| (lo % 256)) % 65536
  if v < 32768 then (v : Int) else (v : Int) - 65536

/-- What the two `priv_i2c_read_reg_bytes` calls of one `mpu6050_read` return and store. -/
structure mpu6050_read_env where
  accel_ret : esp_err_t
  accel_data : List Nat
  gyro_ret : esp_err_t
  gyro_data : List Nat

/-- `mpu6050_read(sensor_data)` for a non-null record. The six readings are kept as the
exact quotients of the raw values by the sensitivities, where the code stores them rounded
to `float`; the two range checks decide alike on both, since 8192, 65.5, 4 and 500 are exact
in binary32 and rounding is monotone. -/
def mpu6050_read_record (C : mpu6050_enum_t) (env : mpu6050_read_env)
    (sensor_data : mpu6050_data_t) : esp_err_t × mpu6050_data_t :=
  if env.accel_ret ≠ ESP_OK then
    (ESP_FAIL, { sensor_data with state := C.k_mpu6050_error % 256 })
  else if env.gyro_ret ≠ ESP_OK then
    (ESP_FAIL, { sensor_data with state := C.k_mpu6050_error % 256 })
  else
    let accel_x_raw := int16_of_bytes (env.accel_data.getD 0 0) (env.accel_data.getD 1 0)
    let accel_y_raw := int16_of_bytes (env.accel_data.getD 2 0) (env.accel_data.getD 3 0)
    let accel_z_raw := int16_of_bytes (env.accel_data.getD 4 0) (env.accel_data.getD 5 0)
    let gyro_x_raw := int16_of_bytes (env.gyro_data.getD 0 0) (env.gyro_data.getD 1 0)
    let gyro_y_raw := int16_of_bytes (env.gyro_data.getD 2 0) (env.gyro_data.getD 3 0)
    let gyro_z_raw := int16_of_bytes (env.gyro_data.getD 4 0) (env.gyro_data.getD 5 0)
    let accel_sensitivity : ℚ := mpu6050_accel_scales.getD mpu6050_accel_config_idx 0
    let gyro_sensitivity : ℚ := mpu6050_gyro_scales.getD mpu6050_gyro_config_idx 0
    let new_accel_x : ℚ := accel_x_raw / accel_sensitivity
    let new_accel_y : ℚ := accel_y_raw / accel_sensitivity
    let new_accel_z : ℚ := accel_z_raw / accel_sensitivity
    let new_gyro_x : ℚ := gyro_x_raw / gyro_sensitivity
    let new_gyro_y : ℚ := gyro_y_raw / gyro_sensitivity
    let new_gyro_z : ℚ := gyro_z_raw / gyro_sensitivity
    if |new_accel_x| > 4 ∨ |new_accel_y| > 4 ∨ |new_accel_z| > 4 then
      (ESP_FAIL, { sensor_data with state := C.k_mpu6050_error % 256 })
    else if |new_gyro_x| > 500 ∨ |new_gyro_y| > 500 ∨ |new_gyro_z| > 500 then
      (ESP_FAIL, { sensor_data with state := C.k_mpu6050_error % 256 })
    else
      (ESP_OK, { sensor_data with
        accel_x := new_accel_x
        accel_y := new_accel_y
        accel_z := new_accel_z
        gyro_x := new_gyro_x
        gyro_y := new_gyro_y
        gyro_z := new_gyro_z
        state := C.k_mpu6050_data_updated % 256 })

/-- `mpu6050_read(sensor_data)`; a `NULL` record is `none`. -/
def mpu6050_read (C : mpu6050_enum_t) (env : mpu6050_read_env)
    (sensor_data : Option mpu6050_data_t) : esp_err_t × Option mpu6050_data_t :=
  match sensor_data with
  | none => (ESP_FAIL, none)
  | some d => ((mpu6050_read_record C env d).1, some (mpu6050_read_record C env d).2)

/-- `mpu6050_reset_on_error(sensor_data)`: the body of its only branch is a comment, so the
Supervisor `s_mpu6050_error_handler` comes back as it went in and no call is made. -/
def mpu6050_reset_on_error (C : mpu6050_enum_t) (sensor_data : mpu6050_data_t)
    (s_mpu6050_error_handler : error_handler_t) : error_handler_t × List task_call :=
  if sensor_data.state &&& C.k_mpu6050_error ≠ 0 then
    (s_mpu6050_error_handler, [])
  else
    (s_mpu6050_error_handler, [])

/-- The file-scope static `s_mpu6050_error_handler = { 0 }`. -/
def s_mpu6050_error_handler_static : error_handler_t :=
  { tag := []
    failure_count := 0
    max_retries := 0
    retry_interval := 0
    initial_retry_interval := 0
    max_retry_interval := 0
    backoff_interval := 0
    initial_backoff_interval := 0
    max_backoff_interval := 0
    last_attempt_time := 0 }

/-- What the environment answers during one pass of the loop of `mpu6050_tasks`. -/
structure mpu6050_tasks_env where
  read : mpu6050_read_env
  json : Option CStr
  webserver_ret : esp_err_t
  timestamp : CStr

/-- State after one pass of the loop of `mpu6050_tasks`. -/
structure mpu6050_tasks_result where
  sensor : mpu6050_data_t
  writer : file_write_manager_t
  s_mpu6050_error_handler : error_handler_t
  calls : List task_call

/-- One pass of the `while (1)` loop of `mpu6050_tasks` on a non-null sensor record. -/
def mpu6050_tasks_pass (C : mpu6050_enum_t) (K : file_write_consts) (configTICK_RATE_HZ : Nat)
    (env : mpu6050_tasks_env) (mpu6050_data : mpu6050_data_t) (writer : file_write_manager_t)
    (s_mpu6050_error_handler : error_handler_t) : mpu6050_tasks_result :=
  let r := mpu6050_read_record C env.read mpu6050_data
  let reads : List task_call :=
    if env.read.accel_ret ≠ ESP_OK then
      [.priv_i2c_read_reg_bytes C.k_mpu6050_accel_xout_h_cmd C.MPU6050_ACCEL_DATA_SIZE]
    else
      [.priv_i2c_read_reg_bytes C.k_mpu6050_accel_xout_h_cmd C.MPU6050_ACCEL_DATA_SIZE,
        .priv_i2c_read_reg_bytes C.k_mpu6050_gyro_xout_h_cmd C.MPU6050_GYRO_DATA_SIZE]
  if r.1 = ESP_OK then
    { sensor := r.2
      writer := (file_write_enqueue K writer env.timestamp (some "mpu6050.txt".toList)
        env.json).state
      s_mpu6050_error_handler := s_mpu6050_error_handler
      calls := reads ++ [.send_sensor_data_to_webserver env.json,
        .file_write_enqueue "mpu6050.txt".toList env.json,
        .free env.json,
        .vTaskDelay (mpu6050_polling_rate_ticks configTICK_RATE_HZ)] }
  else
    let e := mpu6050_reset_on_error C r.2 s_mpu6050_error_handler
    { sensor := r.2
      writer := writer
      s_mpu6050_error_handler := e.1
      calls := reads ++ e.2 ++ [.vTaskDelay (mpu6050_polling_rate_ticks configTICK_RATE_HZ)] }

/-! ## mpu6050_hal.c: interrupt handler -/

/-- What an interrupt handler can be seen to do: the two FreeRTOS calls that
`priv_mpu6050_interrupt_handler` makes, together with logging, allocating and blocking
calls, so that their absence from a trace can be stated. -/
inductive isr_call where
  | xSemaphoreGiveFromISR
  | portYIELD_FROM_ISR
  | log_error
  | log_info
  | malloc
  | xSemaphoreTake (ticks : Nat)
  | vTaskDelay (ticks : Nat)
deriving DecidableEq, Repr

/-- The call touches only the semaphore primitive or the scheduler hand-over that
follows it. -/
def isr_call.is_semaphore_op : isr_call → Bool
  | .xSemaphoreGiveFromISR => true
  | .portYIELD_FROM_ISR => true
  | _ => false

/-- `priv_mpu6050_interrupt_handler(arg)` with `arg` the sensor record.
`xHigherPriorityTaskWoken` is the value of the local of that name after
`xSemaphoreGiveFromISR` returned (it starts as `pdFALSE`). The record comes back as the
handler leaves it. -/
def priv_mpu6050_interrupt_handler (xHigherPriorityTaskWoken : Bool)
    (sensor_data : mpu6050_data_t) : mpu6050_data_t × List isr_call :=
  if xHigherPriorityTaskWoken = true then
    (sensor_data, [.xSemaphoreGiveFromISR, .portYIELD_FROM_ISR])
  else
    (sensor_data, [.xSemaphoreGiveFromISR])

/-- The handler invoked once per interrupt, `wakes` giving the value of
`xHigherPriorityTaskWoken` of each invocation. -/
def mpu6050_interrupts (wakes : List Bool) (sensor_data : mpu6050_data_t) :
    mpu6050_data_t × List isr_call :=
  wakes.foldl
    (fun acc w =>
      ((priv_mpu6050_interrupt_handler w acc.1).1,
        acc.2 ++ (priv_mpu6050_interrupt_handler w acc.1).2))
    (sensor_data, [])

/-! ## mpu6050_hal.c: `mpu6050_init` -/

def mpu6050_i2c_address : Nat := 0x68

/-- `mpu6050_i2c_bus = I2C_NUM_0`. -/
def mpu6050_i2c_bus : Nat := 0

def mpu6050_sample_rate_div : Nat := 4

/-- `mpu6050_int_io = GPIO_NUM_26`. -/
def mpu6050_int_io : Nat := 26

/-- The register addresses, command values and the identity that `mpu6050_hal.h` defines
and `mpu6050_init` uses. -/
structure mpu6050_reg_t where
  k_mpu6050_pwr_mgmt_1_cmd : Nat
  k_mpu6050_power_on_cmd : Nat
  k_mpu6050_reset_cmd : Nat
  k_mpu6050_smplrt_div_cmd : Nat
  k_mpu6050_config_cmd : Nat
  k_mpu6050_config_dlpf_94hz : Nat
  k_mpu6050_gyro_config_cmd : Nat
  k_mpu6050_gyro_fs_250dps : Nat
  k_mpu6050_gyro_fs_500dps : Nat
  k_mpu6050_gyro_fs_1000dps : Nat
  k_mpu6050_gyro_fs_2000dps : Nat
  k_mpu6050_accel_config_cmd : Nat
  k_mpu6050_accel_fs_2g : Nat
  k_mpu6050_accel_fs_4g : Nat
  k_mpu6050_accel_fs_8g : Nat
  k_mpu6050_accel_fs_16g : Nat
  k_mpu6050_who_am_i_cmd : Nat
  k_mpu6050_who_am_i_response : Nat
  k_mpu6050_int_enable_cmd : Nat
  k_mpu6050_int_enable_data_rdy : Nat

/-- `mpu6050_config_dlpf = k_mpu6050_config_dlpf_94hz`. -/
def mpu6050_config_dlpf (R : mpu6050_reg_t) : Nat := R.k_mpu6050_config_dlpf_94hz

/-- The `accel_config` column of `mpu6050_accel_configs`. -/
def mpu6050_accel_config_values (R : mpu6050_reg_t) : List Nat :=
  [R.k_mpu6050_accel_fs_2g, R.k_mpu6050_accel_fs_4g, R.k_mpu6050_accel_fs_8g,
    R.k_mpu6050_accel_fs_16g]

/-- The `gyro_config` column of `mpu6050_gyro_configs`. -/
def mpu6050_gyro_config_values (R : mpu6050_reg_t) : List Nat :=
  [R.k_mpu6050_gyro_fs_250dps, R.k_mpu6050_gyro_fs_500dps, R.k_mpu6050_gyro_fs_1000dps,
    R.k_mpu6050_gyro_fs_2000dps]

/-- The bus, kernel and GPIO driver calls of `mpu6050_init`. -/
inductive mpu6050_init_call where
  | priv_i2c_init (bus : Nat)
  | priv_i2c_write_reg_byte (reg value : Nat)
  | priv_i2c_read_reg_bytes (reg len : Nat)
  | vTaskDelay (ticks : Nat)
  | xSemaphoreCreateBinary
  | gpio_config (pin_bit_mask : Nat)
  | gpio_install_isr_service
  | gpio_isr_handler_add (gpio_num : Nat)
deriving DecidableEq, Repr

/-- What the environment answers to the calls of one `mpu6050_init`, in call order:
`who_am_i` is the byte the identity read stored and `sem_created` says whether
`xSemaphoreCreateBinary` returned a handle. -/
structure mpu6050_init_env where
  i2c_init_ret : esp_err_t
  power_on_ret : esp_err_t
  reset_ret : esp_err_t
  wake_ret : esp_err_t
  smplrt_div_ret : esp_err_t
  config_ret : esp_err_t
  gyro_config_ret : esp_err_t
  accel_config_ret : esp_err_t
  who_am_i_ret : esp_err_t
  who_am_i : Nat
  sem_created : Bool
  int_enable_ret : esp_err_t
  gpio_config_ret : esp_err_t
  isr_service_ret : esp_err_t
  isr_handler_add_ret : esp_err_t

/-- `mpu6050_init(sensor_data)`: the status, the record afterwards and the calls made. -/
def mpu6050_init (C : mpu6050_enum_t) (R : mpu6050_reg_t) (configTICK_RATE_HZ : Nat)
    (env : mpu6050_init_env) (sensor_data : mpu6050_data_t) :
    esp_err_t × mpu6050_data_t × List mpu6050_init_call :=
  let d0 : mpu6050_data_t :=
    { sensor_data with
      i2c_address := mpu6050_i2c_address
      i2c_bus := mpu6050_i2c_bus
      gyro_x := 0
      gyro_y := 0
      gyro_z := 0
      accel_x := 0
      accel_y := 0
      accel_z := 0
      state := C.k_mpu6050_uninitialized % 256 }
  let c1 : List mpu6050_init_call := [.priv_i2c_init mpu6050_i2c_bus]
  if env.i2c_init_ret ≠ ESP_OK then (env.i2c_init_ret, d0, c1)
  else
    let c2 := c1 ++
      [.priv_i2c_write_reg_byte R.k_mpu6050_pwr_mgmt_1_cmd R.k_mpu6050_power_on_cmd]
    if env.power_on_ret ≠ ESP_OK then
      (env.power_on_ret, { d0 with state := C.k_mpu6050_power_on_error % 256 }, c2)
    else
      let c3 := c2 ++ [.vTaskDelay (pdMS_TO_TICKS configTICK_RATE_HZ 10),
        .priv_i2c_write_reg_byte R.k_mpu6050_pwr_mgmt_1_cmd R.k_mpu6050_reset_cmd]
      if env.reset_ret ≠ ESP_OK then
        (env.reset_ret, { d0 with state := C.k_mpu6050_reset_error % 256 }, c3)
      else
        let c4 := c3 ++ [.vTaskDelay (pdMS_TO_TICKS configTICK_RATE_HZ 10),
          .priv_i2c_write_reg_byte R.k_mpu6050_pwr_mgmt_1_cmd R.k_mpu6050_power_on_cmd]
        if env.wake_ret ≠ ESP_OK then
          (env.wake_ret, { d0 with state := C.k_mpu6050_power_on_error % 256 }, c4)
        else
          let c5 := c4 ++ [.vTaskDelay (pdMS_TO_TICKS configTICK_RATE_HZ 10),
            .priv_i2c_write_reg_byte R.k_mpu6050_smplrt_div_cmd mpu6050_sample_rate_div]
          if env.smplrt_div_ret ≠ ESP_OK then (env.smplrt_div_ret, d0, c5)
          else
            let c6 := c5 ++
              [.priv_i2c_write_reg_byte R.k_mpu6050_config_cmd (mpu6050_config_dlpf R)]
            if env.config_ret ≠ ESP_OK then (env.config_ret, d0, c6)
            else
              let c7 := c6 ++ [.priv_i2c_write_reg_byte R.k_mpu6050_gyro_config_cmd
                ((mpu6050_gyro_config_values R).getD mpu6050_gyro_config_idx 0)]
              if env.gyro_config_ret ≠ ESP_OK then (env.gyro_config_ret, d0, c7)
              else
                let c8 := c7 ++ [.priv_i2c_write_reg_byte R.k_mpu6050_accel_config_cmd
                  ((mpu6050_accel_config_values R).getD mpu6050_accel_config_idx 0)]
                if env.accel_config_ret ≠ ESP_OK then (env.accel_config_ret, d0, c8)
                else
                  let c9 := c8 ++ [.priv_i2c_read_reg_bytes R.k_mpu6050_who_am_i_cmd 1]
                  if env.who_am_i_ret ≠ ESP_OK ∨
                      env.who_am_i % 256 ≠ R.k_mpu6050_who_am_i_response then
                    (env.who_am_i_ret, d0, c9)
                  else
                    let c10 := c9 ++ [.xSemaphoreCreateBinary]
                    let d1 : mpu6050_data_t :=
                      { d0 with data_ready_sem := if env.sem_created then some () else none }
                    if d1.data_ready_sem.isNone then (ESP_FAIL, d1, c10)
                    else
                      let c11 := c10 ++ [.priv_i2c_write_reg_byte R.k_mpu6050_int_enable_cmd
                        R.k_mpu6050_int_enable_data_rdy]
                      if env.int_enable_ret ≠ ESP_OK then (env.int_enable_ret, d1, c11)
                      else
                        let c12 := c11 ++ [.gpio_config (1 <<< mpu6050_int_io)]
                        if env.gpio_config_ret ≠ ESP_OK then (env.gpio_config_ret, d1, c12)
                        else
                          let c13 := c12 ++ [.gpio_install_isr_service]
                          if env.isr_service_ret ≠ ESP_OK ∧
                              env.isr_service_ret ≠ ESP_ERR_INVALID_STATE then
                            (env.isr_service_ret, d1, c13)
                          else
                            let c14 := c13 ++ [.gpio_isr_handler_add mpu6050_int_io]
                            if env.isr_handler_add_ret ≠ ESP_OK then
                              (env.isr_handler_add_ret, d1, c14)
                            else
                              (ESP_OK, { d1 with state := C.k_mpu6050_ready % 256 }, c14)

/-! ## wifi_tasks.c: constants -/

def wifi_tag : CStr := "WiFi".toList
def wifi_max_retry : Nat := 10
def wifi_connect_timeout_ms : Nat := 30000

def wifi_initial_retry_interval (configTICK_RATE_HZ : Nat) : Nat :=
  pdMS_TO_TICKS configTICK_RATE_HZ 1000

def wifi_max_retry_interval (configTICK_RATE_HZ : Nat) : Nat :=
  pdMS_TO_TICKS configTICK_RATE_HZ 30000

def wifi_backoff_interval (configTICK_RATE_HZ : Nat) : Nat :=
  pdMS_TO_TICKS configTICK_RATE_HZ 60000

def wifi_max_backoff_interval (configTICK_RATE_HZ : Nat) : Nat :=
  pdMS_TO_TICKS configTICK_RATE_HZ 300000

/-- The Supervisor as `wifi_init_sta` constructs it. -/
def wifi_error_handler (configTICK_RATE_HZ : Nat) : error_handler_t :=
  error_handler_init wifi_tag wifi_max_retry
    (wifi_initial_retry_interval configTICK_RATE_HZ)
    (wifi_max_retry_interval configTICK_RATE_HZ)
    (wifi_backoff_interval configTICK_RATE_HZ)
    (wifi_max_backoff_interval configTICK_RATE_HZ)

/-! ## wifi_tasks.c: event handler -/

/-- The event bases the handler distinguishes. -/
inductive esp_event_base_t where
  | WIFI_EVENT
  | IP_EVENT
  | OTHER_EVENT
deriving DecidableEq, Repr

def WIFI_EVENT_STA_START : Int := 2
def WIFI_EVENT_STA_DISCONNECTED : Int := 5
def IP_EVENT_STA_GOT_IP : Int := 0
def WIFI_MODE_STA : Nat := 1

/-- The two event-group bits that `wifi_tasks.h` defines. -/
structure wifi_consts where
  WIFI_CONNECTED_BIT : Nat
  WIFI_FAIL_BIT : Nat

/-- The file-scope statics of `wifi_tasks.c` and the function-local statics `connecting`
(of `priv_event_handler`), `reset_in_progress` (of `priv_wifi_reset`) and
`netif_initialized`. The event group is its bit pattern and the timer is whether it is
running; a `NULL` handle is `none`. -/
structure wifi_statics_t where
  s_wifi_event_group : Option Nat
  s_wifi_connect_timer : Option Bool
  s_wifi_error_handler : error_handler_t
  s_wifi_task_handle : Option Unit
  connecting : Bool
  reset_in_progress : Bool
  netif_initialized : Bool
deriving DecidableEq, Repr

/-- The calls into the Wi-Fi driver, FreeRTOS and the Supervisor that the Wi-Fi code makes,
in the order made. -/
inductive wifi_call where
  | esp_wifi_get_mode
  | esp_wifi_connect
  | esp_wifi_stop
  | esp_wifi_start
  | xTimerStop
  | xTimerStart
  | error_handler_record_status (err : esp_err_t)
  | error_handler_record_error (err : esp_err_t)
  | xEventGroupSetBits (bits : Nat)
  | xEventGroupClearBits (bits : Nat)
  | vTaskDelay (ticks : Nat)
  | error_handler_init
  | xEventGroupCreate
  | vEventGroupDelete
  | esp_wifi_init
  | esp_event_handler_instance_register (event_base : esp_event_base_t)
  | esp_wifi_set_mode (mode : Nat)
  | esp_wifi_set_config
  | xTimerCreate (period : Nat)
  | xEventGroupWaitBits (bits : Nat) (ticks : Nat)
  | esp_wifi_sta_get_ap_info
  | time_manager_init
deriving DecidableEq, Repr

/-- What the environment answers during one call of `priv_event_handler`: the result of
`esp_wifi_get_mode` and the tick count. -/
structure wifi_event_env where
  get_mode_ret : esp_err_t
  mode : Nat
  now : Nat
deriving DecidableEq, Repr

/-- `priv_event_handler(arg, event_base, event_id, event_data)`. Setting bits of an event
group or stopping a timer whose handle is `NULL` leaves the handle `NULL`. -/
def priv_event_handler (K : wifi_consts) (env : wifi_event_env)
    (event_base : esp_event_base_t) (event_id : Int) (s : wifi_statics_t) :
    wifi_statics_t × List wifi_call :=
  let r1 : wifi_statics_t × List wifi_call :=
    if event_base = .WIFI_EVENT then
      if event_id = WIFI_EVENT_STA_START then
        if !s.connecting then
          if env.get_mode_ret = ESP_OK ∧ env.mode = WIFI_MODE_STA then
            ({ s with connecting := true }, [.esp_wifi_get_mode, .esp_wifi_connect])
          else (s, [.esp_wifi_get_mode])
        else (s, [])
      else if event_id = WIFI_EVENT_STA_DISCONNECTED then
        if s.connecting then
          ({ s with
              connecting := false
              s_wifi_error_handler := (error_handler_record_status s.s_wifi_error_handler
                ESP_ERR_WIFI_NOT_CONNECT env.now).1 },
            [.error_handler_record_status ESP_ERR_WIFI_NOT_CONNECT])
        else (s, [])
      else (s, [])
    else (s, [])
  if event_base = .IP_EVENT ∧ event_id = IP_EVENT_STA_GOT_IP then
    ({ r1.1 with
        connecting := false
        s_wifi_connect_timer := r1.1.s_wifi_connect_timer.map (fun _ => false)
        s_wifi_error_handler :=
          (error_handler_record_status r1.1.s_wifi_error_handler ESP_OK env.now).1
        s_wifi_event_group := r1.1.s_wifi_event_group.map (fun b => b ||| K.WIFI_CONNECTED_BIT) },
      r1.2 ++ [.xTimerStop, .error_handler_record_status ESP_OK,
        .xEventGroupSetBits K.WIFI_CONNECTED_BIT])
  else r1

/-! The four statements of the `IP_EVENT_STA_GOT_IP` branch of `priv_event_handler`, one
by one. -/

/-- `connecting = false;` -/
def wifi_statics_t.clear_connecting (s : wifi_statics_t) : wifi_statics_t :=
  { s with connecting := false }

/-- `xTimerStop(s_wifi_connect_timer, 0);` -/
def wifi_statics_t.xTimerStop (s : wifi_statics_t) : wifi_statics_t :=
  { s with s_wifi_connect_timer := s.s_wifi_connect_timer.map (fun _ => false) }

/-- `error_handler_record_status(&s_wifi_error_handler, err);` at tick `now`. -/
def wifi_statics_t.record_status (s : wifi_statics_t) (err : esp_err_t) (now : Nat) :
    wifi_statics_t :=
  { s with s_wifi_error_handler := (error_handler_record_status s.s_wifi_error_handler err now).1 }

/-- `xEventGroupSetBits(s_wifi_event_group, bits);` -/
def wifi_statics_t.xEventGroupSetBits (s : wifi_statics_t) (bits : Nat) : wifi_statics_t :=
  { s with s_wifi_event_group := s.s_wifi_event_group.map (fun b => b ||| bits) }

/-! ## wifi_tasks.c: timer callback, reset, connection check -/

def portMAX_DELAY : Nat := 0xFFFFFFFF

/-- `priv_wifi_connect_timeout_cb(xTimer)`: stop the driver and set the failed bit. -/
def priv_wifi_connect_timeout_cb (K : wifi_consts) (s : wifi_statics_t) :
    wifi_statics_t × List wifi_call :=
  ({ s with s_wifi_event_group := s.s_wifi_event_group.map (fun b => b ||| K.WIFI_FAIL_BIT) },
    [.esp_wifi_stop, .xEventGroupSetBits K.WIFI_FAIL_BIT])

/-- What `esp_wifi_start` and `esp_wifi_connect` return during one `priv_wifi_reset`. -/
structure wifi_reset_env where
  start_ret : esp_err_t
  connect_ret : esp_err_t

/-- `priv_wifi_reset(context)`: the status, the statics afterwards and the calls made. -/
def priv_wifi_reset (K : wifi_consts) (configTICK_RATE_HZ : Nat) (env : wifi_reset_env)
    (s : wifi_statics_t) : esp_err_t × wifi_statics_t × List wifi_call :=
  if s.reset_in_progress then
    (ESP_ERR_INVALID_STATE, s, [])
  else
    let mask := K.WIFI_CONNECTED_BIT ||| K.WIFI_FAIL_BIT
    let cleared := s.s_wifi_event_group.map (fun b => b ^^^ (b &&& mask))
    let calls : List wifi_call :=
      [.esp_wifi_stop, .vTaskDelay (pdMS_TO_TICKS configTICK_RATE_HZ 1000)] ++
        (if s.s_wifi_event_group.isSome then [.xEventGroupClearBits mask] else []) ++
        [.esp_wifi_start]
    if env.start_ret ≠ ESP_OK then
      (env.start_ret, { s with s_wifi_event_group := cleared, reset_in_progress := false }, calls)
    else
      (ESP_OK, { s with s_wifi_event_group := cleared, reset_in_progress := false },
        calls ++ [.esp_wifi_connect])

/-- `priv_wifi_initialize_netif()` when the two checked initialisations succeed (a failure
aborts the firmware through `ESP_ERROR_CHECK`). -/
def priv_wifi_initialize_netif (s : wifi_statics_t) : esp_err_t × wifi_statics_t :=
  (ESP_OK, { s with netif_initialized := true })

/-- The reset callback as the Supervisor sees it: `priv_wifi_reset` on the statics, with the
calls it makes appended to those collected so far. -/
def wifi_reset_callback (K : wifi_consts) (configTICK_RATE_HZ : Nat) (env : wifi_reset_env)
    (context : wifi_statics_t × List wifi_call) :
    esp_err_t × (wifi_statics_t × List wifi_call) :=
  let r := priv_wifi_reset K configTICK_RATE_HZ env context.1
  (r.1, (r.2.1, context.2 ++ r.2.2))

/-- A call `error_handler_record_error(&s_wifi_error_handler, err)` made by the Wi-Fi code:
the statics afterwards and the calls made, the Supervisor call first. -/
def wifi_record_error (K : wifi_consts) (configTICK_RATE_HZ : Nat) (env : wifi_reset_env)
    (now : Nat) (err : esp_err_t) (s : wifi_statics_t) : wifi_statics_t × List wifi_call :=
  let res := error_handler_record_error (wifi_reset_callback K configTICK_RATE_HZ env)
    s.s_wifi_error_handler (s, []) err now
  ({ res.context.1 with s_wifi_error_handler := res.handler },
    [.error_handler_record_error err] ++ res.context.2)

/-- What the driver answers during one `wifi_check_connection`. -/
structure wifi_check_env where
  get_mode_ret : esp_err_t
  mode : Nat
  ap_info_ret : esp_err_t

/-- `wifi_check_connection()`: the status and the driver calls made. -/
def wifi_check_connection (env : wifi_check_env) (s : wifi_statics_t) :
    esp_err_t × List wifi_call :=
  if s.s_wifi_event_group.isNone then
    (ESP_ERR_INVALID_STATE, [])
  else if env.get_mode_ret ≠ ESP_OK then
    (ESP_FAIL, [.esp_wifi_get_mode])
  else if env.mode ≠ WIFI_MODE_STA then
    (ESP_FAIL, [.esp_wifi_get_mode])
  else if env.ap_info_ret ≠ ESP_OK then
    (ESP_FAIL, [.esp_wifi_get_mode, .esp_wifi_sta_get_ap_info])
  else
    (ESP_OK, [.esp_wifi_get_mode, .esp_wifi_sta_get_ap_info])

/-! ## wifi_tasks.c: `wifi_init_sta` -/

/-- Something that happens asynchronously while a task is blocked: the event loop delivers
an event to `priv_event_handler`, or the period of the one-shot connect timer runs out. -/
inductive wifi_async where
  | event (env : wifi_event_env) (event_base : esp_event_base_t) (event_id : Int)
  | timer_expired
deriving DecidableEq, Repr

/-- The occurrence is the delivery of `IP_EVENT_STA_GOT_IP`. -/
def wifi_async.is_got_ip : wifi_async → Bool
  | .event _ event_base event_id =>
    decide (event_base = .IP_EVENT ∧ event_id = IP_EVENT_STA_GOT_IP)
  | .timer_expired => false

/-- The effect of one asynchronous occurrence. The timer service runs
`priv_wifi_connect_timeout_cb` only if the timer is running, and the one-shot timer is
dormant afterwards. -/
def wifi_async_step (K : wifi_consts) (s : wifi_statics_t) :
    wifi_async → wifi_statics_t × List wifi_call
  | .event env event_base event_id => priv_event_handler K env event_base event_id s
  | .timer_expired =>
    if s.s_wifi_connect_timer = some true then
      priv_wifi_connect_timeout_cb K { s with s_wifi_connect_timer := some false }
    else (s, [])

/-- The bits of the event group if one of the bits of `mask` is set in it: what a waiter
for any bit of `mask` is released with. -/
def wifi_bits_ready (mask : Nat) (s : wifi_statics_t) : Option Nat :=
  match s.s_wifi_event_group with
  | none => none
  | some bits => if bits &&& mask ≠ 0 then some bits else none

/-- `xEventGroupWaitBits(s_wifi_event_group, mask, pdFALSE, pdFALSE, portMAX_DELAY)`
while the asynchronous occurrences `pending` happen one after the other: the call returns
the bits as soon as one of the bits of `mask` is set, without clearing any, and is still
blocked (`none`) when nothing more happens and none is set. -/
def wifi_wait_bits (K : wifi_consts) (mask : Nat) :
    wifi_statics_t → List wifi_call → List wifi_async →
      Option Nat × wifi_statics_t × List wifi_call
  | s, calls, [] => (wifi_bits_ready mask s, s, calls)
  | s, calls, a :: rest =>
    match wifi_bits_ready mask s with
    | some bits => (some bits, s, calls)
    | none =>
      wifi_wait_bits K mask (wifi_async_step K s a).1 (calls ++ (wifi_async_step K s a).2) rest

/-- The status `wifi_init_sta` returns for the bits its wait returned. -/
def wifi_init_sta_status (K : wifi_consts) (bits : Nat) : esp_err_t :=
  if bits &&& K.WIFI_CONNECTED_BIT ≠ 0 then ESP_OK
  else if bits &&& K.WIFI_FAIL_BIT ≠ 0 then ESP_FAIL
  else ESP_FAIL

/-- What the environment answers during one `wifi_init_sta`: whether the event group and the
timer could be created and the timer started, the two configuration calls, the tick count
and reset outcome for a `record_error`, and what happens while the call waits. -/
structure wifi_init_env where
  event_group_created : Bool
  set_mode_ret : esp_err_t
  set_config_ret : esp_err_t
  timer_created : Bool
  timer_started : Bool
  now : Nat
  reset : wifi_reset_env
  during_wait : List wifi_async

/-- Outcome of `wifi_init_sta`: the status (`none` while the call is still blocked in its
wait), the bits the wait returned if it did, the statics and the calls made, those of the
event handler and timer callback that ran during the wait included. -/
structure wifi_init_result where
  ret : Option esp_err_t
  wait_bits : Option Nat
  statics : wifi_statics_t
  calls : List wifi_call

/-- `wifi_init_sta()`. -/
def wifi_init_sta (K : wifi_consts) (configTICK_RATE_HZ : Nat) (env : wifi_init_env)
    (s : wifi_statics_t) : wifi_init_result :=
  let s1 := { s with s_wifi_error_handler := wifi_error_handler configTICK_RATE_HZ }
  if !env.event_group_created then
    let r := wifi_record_error K configTICK_RATE_HZ env.reset env.now ESP_ERR_NO_MEM
      { s1 with s_wifi_event_group := none }
    { ret := some ESP_ERR_NO_MEM, wait_bits := none, statics := r.1,
      calls := [.error_handler_init, .xEventGroupCreate] ++ r.2 }
  else
    let netif := priv_wifi_initialize_netif { s1 with s_wifi_event_group := some 0 }
    if netif.1 ≠ ESP_OK then
      { ret := some ESP_FAIL, wait_bits := none, statics := netif.2,
        calls := [.error_handler_init, .xEventGroupCreate] }
    else
    let s2 := netif.2
    let setup : List wifi_call :=
      [.error_handler_init, .xEventGroupCreate, .esp_wifi_init,
        .esp_event_handler_instance_register .WIFI_EVENT,
        .esp_event_handler_instance_register .IP_EVENT,
        .esp_wifi_set_mode WIFI_MODE_STA]
    if env.set_mode_ret ≠ ESP_OK then
      let r := wifi_record_error K configTICK_RATE_HZ env.reset env.now ESP_ERR_WIFI_NOT_INIT s2
      { ret := some ESP_FAIL, wait_bits := none, statics := r.1, calls := setup ++ r.2 }
    else if env.set_config_ret ≠ ESP_OK then
      let r := wifi_record_error K configTICK_RATE_HZ env.reset env.now ESP_ERR_WIFI_NOT_INIT s2
      { ret := some ESP_FAIL, wait_bits := none, statics := r.1,
        calls := setup ++ [.esp_wifi_set_config] ++ r.2 }
    else
      let started : List wifi_call := setup ++ [.esp_wifi_set_config, .esp_wifi_start,
        .xTimerCreate (pdMS_TO_TICKS configTICK_RATE_HZ wifi_connect_timeout_ms)]
      if !env.timer_created then
        let r := wifi_record_error K configTICK_RATE_HZ env.reset env.now ESP_ERR_NO_MEM
          { s2 with s_wifi_connect_timer := none, s_wifi_event_group := none }
        { ret := some ESP_ERR_NO_MEM, wait_bits := none, statics := r.1,
          calls := started ++ [.vEventGroupDelete] ++ r.2 }
      else
        let s3 := { s2 with s_wifi_connect_timer := some env.timer_started }
        let mask := K.WIFI_CONNECTED_BIT ||| K.WIFI_FAIL_BIT
        let w := wifi_wait_bits K mask s3
          (started ++ [.xTimerStart, .xEventGroupWaitBits mask portMAX_DELAY]) env.during_wait
        { ret := w.1.map (wifi_init_sta_status K), wait_bits := w.1, statics := w.2.1,
          calls := w.2.2 }

/-- The statics when `wifi_init_sta` enters its wait after a successful setup: Supervisor
freshly constructed, event group with no bit set, timer created and, if the start command
was accepted, running. -/
def wifi_statics_at_wait (configTICK_RATE_HZ : Nat) (env : wifi_init_env)
    (s : wifi_statics_t) : wifi_statics_t :=
  { (priv_wifi_initialize_netif
      { { s with s_wifi_error_handler := wifi_error_handler configTICK_RATE_HZ } with
        s_wifi_event_group := some 0 }).2 with
    s_wifi_connect_timer := some env.timer_started }

/-- The calls of `wifi_init_sta` up to and including the call of `xEventGroupWaitBits`. -/
def wifi_calls_entering_wait (K : wifi_consts) (configTICK_RATE_HZ : Nat) : List wifi_call :=
  [.error_handler_init, .xEventGroupCreate, .esp_wifi_init,
    .esp_event_handler_instance_register .WIFI_EVENT,
    .esp_event_handler_instance_register .IP_EVENT,
    .esp_wifi_set_mode WIFI_MODE_STA, .esp_wifi_set_config, .esp_wifi_start,
    .xTimerCreate (pdMS_TO_TICKS configTICK_RATE_HZ wifi_connect_timeout_ms),
    .xTimerStart,
    .xEventGroupWaitBits (K.WIFI_CONNECTED_BIT ||| K.WIFI_FAIL_BIT) portMAX_DELAY]

/-- The call belongs to the full reset of `priv_wifi_reset`: stop, clear flags, restart. -/
def wifi_call.is_reset_step : wifi_call → Bool
  | .esp_wifi_stop => true
  | .xEventGroupClearBits _ => true
  | .esp_wifi_start => true
  | _ => false

/-! ## wifi_tasks.c: `wifi_task` -/

/-- What the environment answers during one pass of the monitor loop of `wifi_task`. -/
structure wifi_monitor_env where
  check : wifi_check_env
  now : Nat
  connect_ret : esp_err_t

/-- State after one pass of a loop of `wifi_task`: the statics, the calls made, and whether
the pass left the loop. -/
structure wifi_pass_result where
  statics : wifi_statics_t
  calls : List wifi_call
  left_loop : Bool

/-- One pass of the inner `while (1)` monitor loop of `wifi_task`. -/
def wifi_task_monitor_pass (configTICK_RATE_HZ : Nat) (env : wifi_monitor_env)
    (s : wifi_statics_t) : wifi_pass_result :=
  let c := wifi_check_connection env.check s
  if c.1 ≠ ESP_OK then
    let st := error_handler_record_status s.s_wifi_error_handler ESP_ERR_WIFI_NOT_CONNECT
      env.now
    let s1 := { s with s_wifi_error_handler := st.1 }
    if st.2.code = ESP_OK then
      { statics := s1
        calls := [.vTaskDelay (pdMS_TO_TICKS configTICK_RATE_HZ 10000)] ++ c.2 ++
          [.error_handler_record_status ESP_ERR_WIFI_NOT_CONNECT, .esp_wifi_connect]
        left_loop := true }
    else
      { statics := s1
        calls := [.vTaskDelay (pdMS_TO_TICKS configTICK_RATE_HZ 10000)] ++ c.2 ++
          [.error_handler_record_status ESP_ERR_WIFI_NOT_CONNECT,
            .vTaskDelay (pdMS_TO_TICKS configTICK_RATE_HZ 5000)]
        left_loop := false }
  else
    { statics := s
      calls := [.vTaskDelay (pdMS_TO_TICKS configTICK_RATE_HZ 10000)] ++ c.2
      left_loop := false }

/-- What the environment answers during one pass of the `do ... while` retry loop. -/
structure wifi_retry_env where
  now : Nat
  connect_ret : esp_err_t

/-- One pass of the `do ... while (error != ESP_OK)` loop of `wifi_task`. -/
def wifi_task_retry_pass (configTICK_RATE_HZ : Nat) (env : wifi_retry_env)
    (s : wifi_statics_t) : wifi_pass_result :=
  let st := error_handler_record_status s.s_wifi_error_handler ESP_ERR_WIFI_NOT_CONNECT env.now
  let s1 := { s with s_wifi_error_handler := st.1 }
  if st.2.code ≠ ESP_OK then
    { statics := s1
      calls := [.error_handler_record_status ESP_ERR_WIFI_NOT_CONNECT,
        .vTaskDelay (pdMS_TO_TICKS configTICK_RATE_HZ 5000)]
      left_loop := false }
  else
    { statics := s1
      calls := [.error_handler_record_status ESP_ERR_WIFI_NOT_CONNECT, .esp_wifi_connect]
      left_loop := true }

/-- A loop of `wifi_task` run on the answers `envs`, one per pass, until a pass leaves it;
`left_loop` is false when the answers run out with the task still inside the loop. -/
def wifi_task_loop {ε : Type} (pass : ε → wifi_statics_t → wifi_pass_result) :
    wifi_statics_t → List wifi_call → List ε → wifi_pass_result
  | s, calls, [] => { statics := s, calls := calls, left_loop := false }
  | s, calls, e :: rest =>
    if (pass e s).left_loop then
      { statics := (pass e s).statics, calls := calls ++ (pass e s).calls, left_loop := true }
    else
      wifi_task_loop pass (pass e s).statics (calls ++ (pass e s).calls) rest

/-- Where `wifi_task` stands when the environment's answers for a cycle are used up. -/
inductive wifi_task_phase where
  | waiting_in_init
  | monitoring
  | retrying
  | cycle_complete
  | task_deleted
deriving DecidableEq, Repr

/-- What the environment answers during one pass of the outer `while (1)` of `wifi_task`. -/
structure wifi_cycle_env where
  init : wifi_init_env
  monitor : List wifi_monitor_env
  retry : List wifi_retry_env

/-- State after (part of) one pass of the outer loop of `wifi_task`. -/
structure wifi_cycle_result where
  phase : wifi_task_phase
  statics : wifi_statics_t
  calls : List wifi_call

/-- The part of a cycle after `wifi_init_sta` and the monitor loop: the 5 s delay and the
retry loop. -/
def wifi_task_cycle_retry (configTICK_RATE_HZ : Nat) (retry : List wifi_retry_env)
    (s : wifi_statics_t) (calls : List wifi_call) : wifi_cycle_result :=
  let r := wifi_task_loop (wifi_task_retry_pass configTICK_RATE_HZ) s
    (calls ++ [.vTaskDelay (pdMS_TO_TICKS configTICK_RATE_HZ 5000)]) retry
  { phase := if r.left_loop then .cycle_complete else .retrying
    statics := r.statics
    calls := r.calls }

/-- One pass of the outer `while (1)` loop of `wifi_task`. -/
def wifi_task_cycle (K : wifi_consts) (configTICK_RATE_HZ : Nat) (env : wifi_cycle_env)
    (s : wifi_statics_t) : wifi_cycle_result :=
  let i := wifi_init_sta K configTICK_RATE_HZ env.init s
  match i.ret with
  | none => { phase := .waiting_in_init, statics := i.statics, calls := i.calls }
  | some ret =>
    if ret = ESP_OK then
      let m := wifi_task_loop (wifi_task_monitor_pass configTICK_RATE_HZ) i.statics
        (i.calls ++ [.time_manager_init]) env.monitor
      if m.left_loop then
        wifi_task_cycle_retry configTICK_RATE_HZ env.retry m.statics m.calls
      else
        { phase := .monitoring, statics := m.statics, calls := m.calls }
    else
      wifi_task_cycle_retry configTICK_RATE_HZ env.retry i.statics i.calls

/-- The outer `while (1)` loop of `wifi_task` over the answers for consecutive cycles; it
stops early when a cycle does not complete. -/
def wifi_task_cycles (K : wifi_consts) (configTICK_RATE_HZ : Nat) :
    wifi_statics_t → List wifi_cycle_env → wifi_cycle_result
  | s, [] => { phase := .cycle_complete, statics := s, calls := [] }
  | s, env :: rest =>
    let c := wifi_task_cycle K configTICK_RATE_HZ env s
    if c.phase = .cycle_complete then
      let r := wifi_task_cycles K configTICK_RATE_HZ c.statics rest
      { phase := r.phase, statics := r.statics, calls := c.calls ++ r.calls }
    else c

/-- `wifi_task(pvParameters)`: `priv_wifi_initialize_netif`, then the outer loop. -/
def wifi_task (K : wifi_consts) (configTICK_RATE_HZ : Nat) (s : wifi_statics_t)
    (cycles : List wifi_cycle_env) : wifi_cycle_result :=
  let netif := priv_wifi_initialize_netif s
  if netif.1 ≠ ESP_OK then
    { phase := .task_deleted, statics := netif.2, calls := [] }
  else
    wifi_task_cycles K configTICK_RATE_HZ netif.2 cycles

/-- FIFO invariant of a run that started with `initial` pending and files `files0`: the
requests handed to storage so far (`delivered`) followed by the pending ones are exactly
the initial and accepted requests in order, and every file holds its original contents
followed by the data of the delivered requests addressed to it. -/
def fifo_inv (initial : List file_write_request_t) (files0 : CStr → CStr)
    (r : storage_run_t) : Prop :=
  ∃ delivered, initial ++ r.accepted = delivered ++ pending_requests r.storage.writer ∧
    ∀ f, r.storage.files f = files0 f ++ payload_for f delivered

/-! ## Concrete inputs used to exercise the theorems -/

/-- The header values of the project: 64-byte paths, 256-byte data, mount root `/sdcard`. -/
def demo_consts : file_write_consts :=
  { MAX_FILE_PATH_LENGTH := 64, MAX_DATA_LENGTH := 256, sd_card_mount_path := "/sdcard".toList }

def demo_timestamp : CStr := "2025-01-01 00:00:00".toList

def demo_request (n : Nat) : file_write_request_t :=
  file_write_request demo_consts demo_timestamp "bh1750.txt".toList (List.replicate n 'x')

/-- An enabled writer whose queue of capacity 10 holds the given requests. -/
def demo_writer (items : List file_write_request_t) : file_write_manager_t :=
  { s_file_write_queue := some { uxLength := max_pending_writes, items := items }
    s_file_write_task_handle := some ()
    s_file_writer_config := { priority := 3, stack_depth := 4096, enabled := true } }

def demo_full_queue : QueueHandle_t file_write_request_t :=
  { uxLength := max_pending_writes, items := (List.range 10).map demo_request }

/-- An enabled writer with an empty queue over empty storage. -/
def demo_storage : storage_t :=
  { writer := demo_writer [], files := fun _ => [] }

/-- Three producers' calls A, B, C with a consumer pass scheduled in between. -/
def demo_actions : List storage_action :=
  [ .enqueue demo_timestamp (some "bh1750.txt".toList) (some "A".toList),
    .enqueue demo_timestamp (some "bh1750.txt".toList) (some "B".toList),
    .consume true 0,
    .enqueue demo_timestamp (some "bh1750.txt".toList) (some "C".toList) ]

/-- The run of `demo_actions` from `demo_storage`. -/
def demo_run : storage_run_t :=
  storage_run demo_consts { storage := demo_storage, accepted := [], events := [] } demo_actions

/-- A reset callback without state that always fails. -/
def demo_failing_reset : Unit → esp_err_t × Unit :=
  fun u => (ESP_FAIL, u)

/-- A reset callback without state that always succeeds. -/
def demo_working_reset : Unit → esp_err_t × Unit :=
  fun u => (ESP_OK, u)

/-- The BH1750 Supervisor (1000 Hz tick) after three recorded failures. -/
def demo_tripped_handler : error_handler_t :=
  { bh1750_error_handler 1000 with failure_count := 3 }

/-- The Wi-Fi Supervisor (1000 Hz tick) after one failure status at tick 5000, which was
answered "proceed". -/
def demo_backed_off_handler : error_handler_t :=
  (error_handler_record_status (wifi_error_handler 1000) ESP_ERR_WIFI_NOT_CONNECT 5000).1

/-- Values for the states and commands of the BH1750 header, in the style of the DHT22
header (`error = 0xF0`), with the command bytes of the data sheet. -/
def demo_bh1750_enum : bh1750_enum_t :=
  { k_bh1750_ready := 0x00
    k_bh1750_data_updated := 0x01
    k_bh1750_uninitialized := 0x10
    k_bh1750_error := 0xF0
    k_bh1750_power_on_error := 0xA1
    k_bh1750_reset_error := 0xA2
    k_bh1750_cont_low_res_error := 0xA3
    k_bh1750_power_on_cmd := 0x01
    k_bh1750_reset_cmd := 0x07
    k_bh1750_cont_low_res_mode_cmd := 0x13 }

/-- The sensor record right after `bh1750_init` at a 1000 Hz tick. -/
def demo_bh1750_data : bh1750_data_t :=
  { i2c_address := bh1750_i2c_address
    i2c_bus := 0
    lux := -1
    state := 0x00
    error_handler := bh1750_error_handler 1000 }

/-- A pass in which the bus read succeeds and serialization yields a text. -/
def demo_bh1750_env_ok : bh1750_tasks_env :=
  { read_ret := ESP_OK
    data0 := 0x01
    data1 := 0x2C
    json := some "\x7bsensor_type:light,lux:250\x7d".toList
    webserver_ret := ESP_FAIL
    timestamp := demo_timestamp
    now := 5000
    reset := { power_on_ret := ESP_OK, reset_ret := ESP_OK, cont_low_res_ret := ESP_OK } }

/-- A pass in which the bus read fails. -/
def demo_bh1750_env_fail : bh1750_tasks_env :=
  { demo_bh1750_env_ok with read_ret := ESP_FAIL }

/-- Values for the states and registers of the MPU6050 header, in the style of the DHT22
header (`error = 0xF0`), with the register addresses of the data sheet. -/
def demo_mpu6050_enum : mpu6050_enum_t :=
  { k_mpu6050_ready := 0x00
    k_mpu6050_data_updated := 0x01
    k_mpu6050_uninitialized := 0x10
    k_mpu6050_error := 0xF0
    k_mpu6050_power_on_error := 0xA1
    k_mpu6050_reset_error := 0xA2
    k_mpu6050_accel_xout_h_cmd := 0x3B
    k_mpu6050_gyro_xout_h_cmd := 0x43
    MPU6050_ACCEL_DATA_SIZE := 6
    MPU6050_GYRO_DATA_SIZE := 6 }

/-- The sensor record right after a successful `mpu6050_init`. -/
def demo_mpu6050_data : mpu6050_data_t :=
  { i2c_address := 0x68
    i2c_bus := 0
    accel_x := 0
    accel_y := 0
    accel_z := 0
    gyro_x := 0
    gyro_y := 0
    gyro_z := 0
    state := 0x00
    data_ready_sem := some () }

/-- A pass in which both bus reads succeed and the gyroscope x value is raw `0x7FFF`
(32767 / 65.5, about 500.26 degrees per second). -/
def demo_mpu6050_env_range : mpu6050_tasks_env :=
  { read := { accel_ret := ESP_OK, accel_data := [0, 0, 0, 0, 0x20, 0],
              gyro_ret := ESP_OK, gyro_data := [0x7F, 0xFF, 0, 0, 0, 0] }
    json := none
    webserver_ret := ESP_OK
    timestamp := demo_timestamp }

/-- A pass in which the accelerometer bus read fails. -/
def demo_mpu6050_env_bus : mpu6050_tasks_env :=
  { read := { accel_ret := ESP_FAIL, accel_data := [], gyro_ret := ESP_OK, gyro_data := [] }
    json := none
    webserver_ret := ESP_OK
    timestamp := demo_timestamp }

/-- The event bits as `BIT0` and `BIT1`. -/
def demo_wifi_consts : wifi_consts :=
  { WIFI_CONNECTED_BIT := 1, WIFI_FAIL_BIT := 2 }

/-- The statics of `wifi_tasks.c` at boot: `NULL` handles, a zero Supervisor, flags clear. -/
def demo_wifi_boot : wifi_statics_t :=
  { s_wifi_event_group := none
    s_wifi_connect_timer := none
    s_wifi_error_handler := error_handler_init [] 0 0 0 0 0
    s_wifi_task_handle := some ()
    connecting := false
    reset_in_progress := false
    netif_initialized := false }

/-- The statics while a connection attempt is in flight: event group with no bit set, timer
running, Supervisor as constructed with two failures recorded. -/
def demo_wifi_connecting : wifi_statics_t :=
  { s_wifi_event_group := some 0
    s_wifi_connect_timer := some true
    s_wifi_error_handler := { wifi_error_handler 1000 with failure_count := 2 }
    s_wifi_task_handle := some ()
    connecting := true
    reset_in_progress := false
    netif_initialized := true }

/-- The driver reports station mode. -/
def demo_wifi_event_env : wifi_event_env :=
  { get_mode_ret := ESP_OK, mode := WIFI_MODE_STA, now := 3000 }

/-- A `wifi_init_sta` whose setup succeeds; what happens during the wait is filled in per
scenario. -/
def demo_wifi_init_env (during_wait : List wifi_async) : wifi_init_env :=
  { event_group_created := true
    set_mode_ret := ESP_OK
    set_config_ret := ESP_OK
    timer_created := true
    timer_started := true
    now := 100
    reset := { start_ret := ESP_OK, connect_ret := ESP_OK }
    during_wait := during_wait }

/-- The link layer starts, connects and delivers the address. -/
def demo_wifi_connects : List wifi_async :=
  [ .event demo_wifi_event_env .WIFI_EVENT WIFI_EVENT_STA_START,
    .event demo_wifi_event_env .IP_EVENT IP_EVENT_STA_GOT_IP ]

/-- The driver reports station mode, at tick `now`. -/
def demo_wifi_event_at (now : Nat) : wifi_event_env :=
  { get_mode_ret := ESP_OK, mode := WIFI_MODE_STA, now := now }

/-- The link layer starts, is disconnected, and the connect timer runs out. -/
def demo_wifi_times_out : List wifi_async :=
  [ .event (demo_wifi_event_at 31000) .WIFI_EVENT WIFI_EVENT_STA_START,
    .event (demo_wifi_event_at 32000) .WIFI_EVENT WIFI_EVENT_STA_DISCONNECTED,
    .timer_expired ]

/-- The link layer starts, nothing answers, and the connect timer runs out. -/
def demo_wifi_no_link : List wifi_async :=
  [ .event (demo_wifi_event_at 31000) .WIFI_EVENT WIFI_EVENT_STA_START,
    .timer_expired ]

/-- A `wifi_init_sta` whose wait sees the start event and nothing else. -/
def demo_wifi_silent : List wifi_async :=
  [ .event (demo_wifi_event_at 31000) .WIFI_EVENT WIFI_EVENT_STA_START ]

/-- A monitor pass that finds the link lost (no access-point record) at tick `now`, with
the direct reconnect failing. -/
def demo_wifi_link_lost (now : Nat) : wifi_monitor_env :=
  { check := { get_mode_ret := ESP_OK, mode := WIFI_MODE_STA, ap_info_ret := ESP_FAIL }
    now := now
    connect_ret := ESP_FAIL }

/-- A first cycle of `wifi_task`: the connection comes up, is found lost at tick 20000, and
the retry loop is licensed at tick 25000. -/
def demo_wifi_cycle1 : wifi_cycle_env :=
  { init := demo_wifi_init_env demo_wifi_connects
    monitor := [demo_wifi_link_lost 20000]
    retry := [{ now := 25000, connect_ret := ESP_FAIL }] }

/-- A second cycle: the connection attempt times out; the retry loop is asked at tick
60000. -/
def demo_wifi_cycle2 : wifi_cycle_env :=
  { init := demo_wifi_init_env demo_wifi_no_link
    monitor := []
    retry := [{ now := 60000, connect_ret := ESP_FAIL }] }

/-- The compiled-in writer statics with the writer switched on. -/
def demo_enabled_statics : file_write_manager_t :=
  { file_write_manager_statics with
    s_file_writer_config := { priority := 3, stack_depth := 4096, enabled := true } }

/-- A pass of `mpu6050_tasks` in which both bus reads succeed with values in range. -/
def demo_mpu6050_env_ok : mpu6050_tasks_env :=
  { read := { accel_ret := ESP_OK, accel_data := [0, 0, 0, 0, 0x20, 0],
              gyro_ret := ESP_OK, gyro_data := [0, 0x10, 0, 0, 0, 0] }
    json := some "\x7bsensor_type:accelerometer_gyroscope\x7d".toList
    webserver_ret := ESP_OK
    timestamp := demo_timestamp }

/-- A queue holding a first request of five bytes and a second of three. -/
def demo_two_pending : storage_t :=
  { writer := demo_writer [demo_request 5, demo_request 3], files := fun _ => [] }

/-- Register addresses and values of the MPU6050 data sheet (identity `0x68`). -/
def demo_mpu6050_reg : mpu6050_reg_t :=
  { k_mpu6050_pwr_mgmt_1_cmd := 0x6B
    k_mpu6050_power_on_cmd := 0x00
    k_mpu6050_reset_cmd := 0x80
    k_mpu6050_smplrt_div_cmd := 0x19
    k_mpu6050_config_cmd := 0x1A
    k_mpu6050_config_dlpf_94hz := 0x02
    k_mpu6050_gyro_config_cmd := 0x1B
    k_mpu6050_gyro_fs_250dps := 0x00
    k_mpu6050_gyro_fs_500dps := 0x08
    k_mpu6050_gyro_fs_1000dps := 0x10
    k_mpu6050_gyro_fs_2000dps := 0x18
    k_mpu6050_accel_config_cmd := 0x1C
    k_mpu6050_accel_fs_2g := 0x00
    k_mpu6050_accel_fs_4g := 0x08
    k_mpu6050_accel_fs_8g := 0x10
    k_mpu6050_accel_fs_16g := 0x18
    k_mpu6050_who_am_i_cmd := 0x75
    k_mpu6050_who_am_i_response := 0x68
    k_mpu6050_int_enable_cmd := 0x38
    k_mpu6050_int_enable_data_rdy := 0x01 }

/-- A sensor record before `mpu6050_init`: no semaphore yet. -/
def demo_mpu6050_blank : mpu6050_data_t :=
  { i2c_address := 0
    i2c_bus := 0
    accel_x := 0
    accel_y := 0
    accel_z := 0
    gyro_x := 0
    gyro_y := 0
    gyro_z := 0
    state := 0
    data_ready_sem := none }

/-- Every call of `mpu6050_init` succeeds and the chip answers the identity read with
`who_am_i`. -/
def demo_mpu6050_init_env (who_am_i : Nat) : mpu6050_init_env :=
  { i2c_init_ret := ESP_OK
    power_on_ret := ESP_OK
    reset_ret := ESP_OK
    wake_ret := ESP_OK
    smplrt_div_ret := ESP_OK
    config_ret := ESP_OK
    gyro_config_ret := ESP_OK
    accel_config_ret := ESP_OK
    who_am_i_ret := ESP_OK
    who_am_i := who_am_i
    sem_created := true
    int_enable_ret := ESP_OK
    gpio_config_ret := ESP_OK
    isr_service_ret := ESP_OK
    isr_handler_add_ret := ESP_OK }

/-- A reset in which the power-on write succeeds and the reset write fails. -/
def demo_reset_second_write_fails : bh1750_reset_env :=
  { power_on_ret := ESP_OK, reset_ret := ESP_FAIL, cont_low_res_ret := ESP_OK }

/-- The driver restarts and the connect request after it fails. -/
def demo_wifi_connect_fails : wifi_reset_env :=
  { start_ret := ESP_OK, connect_ret := ESP_FAIL }

/-- The statics while a reset is in progress. -/
def demo_wifi_resetting : wifi_statics_t :=
  { demo_wifi_connecting with reset_in_progress := true }

/-! # Theorems -/

/-! ## Persistence queue -/

theorem file_write_manager_eta (s : file_write_manager_t)
    (q : QueueHandle_t file_write_request_t) (h : s.s_file_write_queue = some q) :
    { s with s_file_write_queue := some q } = s := by
  cases s
  simp_all

/-- The statuses `file_write_enqueue` can return. -/
theorem file_write_enqueue_unfold (K : file_write_consts) (s : file_write_manager_t)
    (timestamp p d : CStr) (q : QueueHandle_t file_write_request_t)
    (hen : s.s_file_writer_config.enabled = true) (hq : s.s_file_write_queue = some q) :
    file_write_enqueue K s timestamp (some p) (some d) =
      if q.items.length < q.uxLength then
        { ret := ESP_OK,
          state := { s with
            s_file_write_queue := some (xQueueSend q (file_write_request K timestamp p d) 0).queue },
          ticks_blocked := 0 }
      else { ret := ESP_FAIL, state := s, ticks_blocked := 0 } := by
  unfold file_write_enqueue xQueueSend
  simp only [hen, hq]
  by_cases hlt : q.items.length < q.uxLength
  · simp [hlt]
  · simp [hlt, file_write_manager_eta s q hq]

/-- Every queue `file_write_manager_init` leaves behind has capacity `max_pending_writes`,
provided the one it found, if any, had. -/
theorem file_write_manager_init_capacity (s : file_write_manager_t)
    (queue_created task_created : Bool) (sd_card_ret : esp_err_t)
    (hcap : ∀ q, s.s_file_write_queue = some q → q.uxLength = max_pending_writes) :
    ∀ q, (file_write_manager_init s queue_created task_created sd_card_ret
      ).state.s_file_write_queue = some q → q.uxLength = max_pending_writes := by
  intro q
  unfold file_write_manager_init
  cases hen : s.s_file_writer_config.enabled <;> cases queue_created <;>
    cases task_created <;> by_cases hsd : sd_card_ret = ESP_OK <;>
    simp [hsd, xQueueCreate] <;>
    first
      | exact hcap q
      | (intro h; rw [← h])

/-- `file_write_enqueue` never changes the capacity of the queue. -/
theorem file_write_enqueue_capacity (K : file_write_consts) (s : file_write_manager_t)
    (timestamp : CStr) (file_path data : Option CStr)
    (hcap : ∀ q, s.s_file_write_queue = some q → q.uxLength = max_pending_writes) :
    ∀ q, (file_write_enqueue K s timestamp file_path data).state.s_file_write_queue = some q →
      q.uxLength = max_pending_writes := by
  intro q hq
  by_cases hen : s.s_file_writer_config.enabled = true
  swap
  · simp [file_write_enqueue, hen] at hq
    exact hcap q hq
  cases file_path with
  | none => simp [file_write_enqueue, hen] at hq; exact hcap q hq
  | some p =>
    cases data with
    | none => simp [file_write_enqueue, hen] at hq; exact hcap q hq
    | some d =>
      cases hq0 : s.s_file_write_queue with
      | none => simp [file_write_enqueue, hen, hq0] at hq
      | some q0 =>
        rw [file_write_enqueue_unfold K s timestamp p d q0 hen hq0] at hq
        by_cases hlt : q0.items.length < q0.uxLength
        · simp [hlt, xQueueSend] at hq
          rw [← hq]
          exact hcap q0 hq0
        · simp [hlt] at hq
          exact hcap q hq

/-- C1: when the writer is enabled and its queue, created with capacity
`max_pending_writes`, already holds 10 requests, `file_write_enqueue` with non-null
arguments returns a failure status (`ESP_FAIL`, which is not `ESP_OK`), leaves the statics
and so the queue contents unchanged, and the caller is blocked for 0 ticks. -/
theorem file_write_enqueue_full_rejects (K : file_write_consts) (s : file_write_manager_t)
    (q : QueueHandle_t file_write_request_t) (timestamp p d : CStr)
    (hen : s.s_file_writer_config.enabled = true)
    (hq : s.s_file_write_queue = some q)
    (hcap : q.uxLength = max_pending_writes)
    (hfull : q.items.length = max_pending_writes) :
    (file_write_enqueue K s timestamp (some p) (some d)).ret = ESP_FAIL ∧
    (file_write_enqueue K s timestamp (some p) (some d)).ret ≠ ESP_OK ∧
    (file_write_enqueue K s timestamp (some p) (some d)).state = s ∧
    pending_requests (file_write_enqueue K s timestamp (some p) (some d)).state = q.items ∧
    (file_write_enqueue K s timestamp (some p) (some d)).ticks_blocked = 0 := by
  rw [file_write_enqueue_unfold K s timestamp p d q hen hq]
  have hnot : ¬ q.items.length < q.uxLength := by omega
  rw [if_neg hnot]
  have hne : ESP_FAIL ≠ ESP_OK := by decide
  exact ⟨rfl, hne, rfl, by simp [pending_requests, hq], rfl⟩

theorem file_write_enqueue_full_rejects_witness :
    (file_write_enqueue demo_consts (demo_writer demo_full_queue.items) demo_timestamp
      (some "bh1750.txt".toList) (some "late".toList)).ret = ESP_FAIL ∧
    (file_write_enqueue demo_consts (demo_writer demo_full_queue.items) demo_timestamp
      (some "bh1750.txt".toList) (some "late".toList)).ret ≠ ESP_OK ∧
    (file_write_enqueue demo_consts (demo_writer demo_full_queue.items) demo_timestamp
      (some "bh1750.txt".toList) (some "late".toList)).state = demo_writer demo_full_queue.items ∧
    pending_requests (file_write_enqueue demo_consts (demo_writer demo_full_queue.items)
      demo_timestamp (some "bh1750.txt".toList) (some "late".toList)).state
        = demo_full_queue.items ∧
    (file_write_enqueue demo_consts (demo_writer demo_full_queue.items) demo_timestamp
      (some "bh1750.txt".toList) (some "late".toList)).ticks_blocked = 0 :=
  file_write_enqueue_full_rejects demo_consts (demo_writer demo_full_queue.items)
    demo_full_queue demo_timestamp "bh1750.txt".toList "late".toList rfl rfl rfl (by decide)

/-- C2: for a writer whose queue, if created, has capacity `max_pending_writes`,
`file_write_enqueue` returns `ESP_OK` exactly when the writer is enabled, both arguments are
non-null, the queue exists and holds fewer than 10 requests; on `ESP_OK` the statics are the
old ones with the queue extended by the one new request at its tail, and on every other
status the statics (so the queue) are unchanged. -/
theorem file_write_enqueue_ok_iff (K : file_write_consts) (s : file_write_manager_t)
    (timestamp : CStr) (file_path data : Option CStr)
    (hcap : ∀ q, s.s_file_write_queue = some q → q.uxLength = max_pending_writes) :
    ((file_write_enqueue K s timestamp file_path data).ret = ESP_OK ↔
      (s.s_file_writer_config.enabled = true ∧ file_path ≠ none ∧ data ≠ none ∧
        ∃ q, s.s_file_write_queue = some q ∧ q.items.length < 10)) ∧
    ((file_write_enqueue K s timestamp file_path data).ret = ESP_OK →
      ∃ p d q, file_path = some p ∧ data = some d ∧ s.s_file_write_queue = some q ∧
        (file_write_enqueue K s timestamp file_path data).state =
          { s with s_file_write_queue := some (QueueHandle_t.mk q.uxLength
              (q.items ++ [file_write_request K timestamp p d])) } ∧
        pending_requests (file_write_enqueue K s timestamp file_path data).state =
          pending_requests s ++ [file_write_request K timestamp p d]) ∧
    ((file_write_enqueue K s timestamp file_path data).ret ≠ ESP_OK →
      (file_write_enqueue K s timestamp file_path data).state = s) := by
  have hFO : ESP_FAIL ≠ ESP_OK := by decide
  have hAO : ESP_ERR_INVALID_ARG ≠ ESP_OK := by decide
  by_cases hen : s.s_file_writer_config.enabled = true
  swap
  · simp [file_write_enqueue, hen, hFO]
  cases file_path with
  | none => simp [file_write_enqueue, hen, hAO]
  | some p =>
    cases data with
    | none => simp [file_write_enqueue, hen, hAO]
    | some d =>
      cases hq : s.s_file_write_queue with
      | none => simp [file_write_enqueue, hen, hq, hFO]
      | some q =>
        have hc : q.uxLength = 10 := hcap q hq
        rw [file_write_enqueue_unfold K s timestamp p d q hen hq]
        by_cases hlt : q.items.length < q.uxLength
        · have hlt10 : q.items.length < 10 := by omega
          simp [hlt, hlt10, hen, xQueueSend, pending_requests, hq]
        · have hlt10 : ¬ q.items.length < 10 := by omega
          simp [hlt, hlt10, hFO]

theorem file_write_enqueue_ok_iff_witness :
    ((file_write_enqueue demo_consts (demo_writer []) demo_timestamp
        (some "bh1750.txt".toList) (some "a".toList)).ret = ESP_OK ↔
      ((demo_writer []).s_file_writer_config.enabled = true ∧
        some "bh1750.txt".toList ≠ none ∧ some "a".toList ≠ none ∧
        ∃ q, (demo_writer []).s_file_write_queue = some q ∧ q.items.length < 10)) ∧
    ((file_write_enqueue demo_consts (demo_writer []) demo_timestamp
        (some "bh1750.txt".toList) (some "a".toList)).ret = ESP_OK →
      ∃ p d q, some "bh1750.txt".toList = some p ∧ some "a".toList = some d ∧
        (demo_writer []).s_file_write_queue = some q ∧
        (file_write_enqueue demo_consts (demo_writer []) demo_timestamp
          (some "bh1750.txt".toList) (some "a".toList)).state =
          { demo_writer [] with s_file_write_queue := some (QueueHandle_t.mk q.uxLength
              (q.items ++ [file_write_request demo_consts demo_timestamp p d])) } ∧
        pending_requests (file_write_enqueue demo_consts (demo_writer []) demo_timestamp
          (some "bh1750.txt".toList) (some "a".toList)).state =
          pending_requests (demo_writer []) ++
            [file_write_request demo_consts demo_timestamp p d]) ∧
    ((file_write_enqueue demo_consts (demo_writer []) demo_timestamp
        (some "bh1750.txt".toList) (some "a".toList)).ret ≠ ESP_OK →
      (file_write_enqueue demo_consts (demo_writer []) demo_timestamp
        (some "bh1750.txt".toList) (some "a".toList)).state = demo_writer []) :=
  file_write_enqueue_ok_iff demo_consts (demo_writer []) demo_timestamp
    (some "bh1750.txt".toList) (some "a".toList)
    (fun q hq => by
      have h : q = { uxLength := max_pending_writes, items := [] } :=
        (Option.some.inj hq).symm
      rw [h])

theorem payload_for_append (f : CStr) (a b : List file_write_request_t) :
    payload_for f (a ++ b) = payload_for f a ++ payload_for f b := by
  simp [payload_for, List.filter_append, List.flatMap_append]

theorem payload_for_single (f : CStr) (req : file_write_request_t) :
    payload_for f [req] = if f = req.file_path then req.data else [] := by
  by_cases h : f = req.file_path
  · simp [payload_for, h]
  · have h2 : ¬ req.file_path = f := fun e => h e.symm
    simp [payload_for, h, h2]

/-- A consumer pass with nothing pending changes nothing and reports nothing. -/
theorem priv_file_write_task_pass_idle (ok : Bool) (short : Nat) (s : storage_t)
    (h : pending_requests s.writer = []) :
    priv_file_write_task_pass ok short s = (s, none) := by
  unfold priv_file_write_task_pass
  unfold pending_requests at h
  cases hq : s.writer.s_file_write_queue with
  | none => rfl
  | some q =>
    rw [hq] at h
    simp only at h
    simp [h]

/-- A consumer pass with a pending request removes the oldest one, reports on it, and when
the report is a complete write the request's data was appended to its destination. -/
theorem priv_file_write_task_pass_head (ok : Bool) (short : Nat) (s : storage_t)
    (req : file_write_request_t) (rest : List file_write_request_t)
    (h : pending_requests s.writer = req :: rest) :
    pending_requests (priv_file_write_task_pass ok short s).1.writer = rest ∧
    ∃ e, (priv_file_write_task_pass ok short s).2 = some e ∧
      ((ok = true ∧ short = 0) → e.complete = true) ∧
      (e.complete = true → ∀ f, (priv_file_write_task_pass ok short s).1.files f =
        s.files f ++ payload_for f [req]) := by
  unfold pending_requests at h
  cases hq : s.writer.s_file_write_queue with
  | none => rw [hq] at h; simp at h
  | some q =>
    rw [hq] at h
    simp only at h
    unfold priv_file_write_task_pass
    simp only [hq, h]
    cases ok with
    | false =>
      simp [pending_requests, file_write_event.complete]
    | true =>
      by_cases hb : req.data.length - short = req.data.length
      · simp only [Bool.not_true, Bool.false_eq_true, if_false, hb, bne_self_eq_false]
        refine ⟨by simp [pending_requests], _, rfl, fun _ => rfl, ?_⟩
        intro _ f
        rw [payload_for_single]
        by_cases hf : f = req.file_path
        · simp [hf]
        · simp [hf]
      · have hb2 : (req.data.length - short != req.data.length) = true := by
          simpa using hb
        simp only [Bool.not_true, Bool.false_eq_true, if_false, hb2, if_true]
        refine ⟨by simp [pending_requests], _, rfl, ?_, ?_⟩
        · rintro ⟨_, h0⟩
          subst h0
          simp at hb
        · intro hc
          simp [file_write_event.complete] at hc

/-- Either the call is accepted and the request is the new tail of the queue, or it is
rejected and the statics are untouched. -/
theorem file_write_enqueue_cases (K : file_write_consts) (s : file_write_manager_t)
    (timestamp : CStr) (file_path data : Option CStr) :
    ((file_write_enqueue K s timestamp file_path data).ret = ESP_OK ∧
      ∃ p d, file_path = some p ∧ data = some d ∧
        pending_requests (file_write_enqueue K s timestamp file_path data).state =
          pending_requests s ++ [file_write_request K timestamp p d]) ∨
    ((file_write_enqueue K s timestamp file_path data).ret ≠ ESP_OK ∧
      (file_write_enqueue K s timestamp file_path data).state = s) := by
  have hFO : ESP_FAIL ≠ ESP_OK := by decide
  have hAO : ESP_ERR_INVALID_ARG ≠ ESP_OK := by decide
  by_cases hen : s.s_file_writer_config.enabled = true
  swap
  · simp [file_write_enqueue, hen, hFO]
  cases file_path with
  | none => simp [file_write_enqueue, hen, hAO]
  | some p =>
    cases data with
    | none => simp [file_write_enqueue, hen, hAO]
    | some d =>
      cases hq : s.s_file_write_queue with
      | none => simp [file_write_enqueue, hen, hq, hFO]
      | some q =>
        rw [file_write_enqueue_unfold K s timestamp p d q hen hq]
        by_cases hlt : q.items.length < q.uxLength
        · simp [hlt, xQueueSend, pending_requests, hq]
        · simp [hlt, hFO]

theorem storage_step_events (K : file_write_consts) (r : storage_run_t) (a : storage_action) :
    ∀ e ∈ r.events, e ∈ (storage_step K r a).events := by
  intro e he
  cases a with
  | enqueue ts fp d => exact he
  | consume ok short =>
    simp only [storage_step]
    cases (priv_file_write_task_pass ok short r.storage).2 with
    | none => exact he
    | some e2 => simp [he]

theorem storage_run_snoc (K : file_write_consts) (r : storage_run_t)
    (acts : List storage_action) (a : storage_action) :
    storage_run K r (acts ++ [a]) = storage_step K (storage_run K r acts) a := by
  simp [storage_run, List.foldl_append]

/-- One step keeps the FIFO invariant as long as every consumer report is a complete
write. -/
theorem storage_step_fifo (K : file_write_consts) (initial : List file_write_request_t)
    (files0 : CStr → CStr) (r : storage_run_t) (a : storage_action)
    (hinv : fifo_inv initial files0 r)
    (hgood : ∀ e ∈ (storage_step K r a).events, e.complete = true) :
    fifo_inv initial files0 (storage_step K r a) := by
  obtain ⟨delivered, hsplit, hfiles⟩ := hinv
  cases a with
  | enqueue ts fp d =>
    rcases file_write_enqueue_cases K r.storage.writer ts fp d with
      ⟨hok, p0, d0, hp, hd, hpend⟩ | ⟨hno, hst⟩
    · subst hp hd
      refine ⟨delivered, ?_, hfiles⟩
      simp only [storage_step, hok, if_true, hpend]
      rw [← List.append_assoc, hsplit, List.append_assoc]
    · refine ⟨delivered, ?_, hfiles⟩
      simp only [storage_step, hno, if_false, hst]
      exact hsplit
  | consume ok short =>
    cases hp : pending_requests r.storage.writer with
    | nil =>
      have hidle := priv_file_write_task_pass_idle ok short r.storage hp
      refine ⟨delivered, ?_, ?_⟩
      · simp only [storage_step, hidle]
        exact hsplit
      · simp only [storage_step, hidle]
        exact hfiles
    | cons req rest =>
      obtain ⟨hrest, e, he, _, hcomp⟩ :=
        priv_file_write_task_pass_head ok short r.storage req rest hp
      have hmem : e ∈ (storage_step K r (.consume ok short)).events := by
        simp [storage_step, he]
      have hfull := hcomp (hgood e hmem)
      refine ⟨delivered ++ [req], ?_, ?_⟩
      · simp only [storage_step, hrest]
        rw [hsplit, hp]
        simp
      · intro f
        simp only [storage_step]
        rw [hfull f, hfiles f, payload_for_append, List.append_assoc]

/-- The FIFO invariant holds after every run whose consumer reports are all complete
writes. -/
theorem storage_run_fifo (K : file_write_consts) (initial : List file_write_request_t)
    (files0 : CStr → CStr) (r : storage_run_t) (acts : List storage_action)
    (hinv : fifo_inv initial files0 r)
    (hgood : ∀ e ∈ (storage_run K r acts).events, e.complete = true) :
    fifo_inv initial files0 (storage_run K r acts) := by
  induction acts using List.reverseRecOn with
  | nil => exact hinv
  | append_singleton acts a ih =>
    rw [storage_run_snoc] at hgood ⊢
    apply storage_step_fifo K initial files0 _ a _ hgood
    apply ih
    intro e he
    exact hgood e (storage_step_events K _ a e he)

/-- Left alone, the consumer empties the queue and delivers every pending request. -/
theorem drain_fifo (K : file_write_consts) (initial : List file_write_request_t)
    (files0 : CStr → CStr) (n : Nat) :
    ∀ r : storage_run_t, fifo_inv initial files0 r →
      (pending_requests r.storage.writer).length = n →
      (storage_run K r (drain_actions n)).accepted = r.accepted ∧
      pending_requests (storage_run K r (drain_actions n)).storage.writer = [] ∧
      ∀ f, (storage_run K r (drain_actions n)).storage.files f =
        files0 f ++ payload_for f (initial ++ r.accepted) := by
  induction n with
  | zero =>
    intro r hinv hlen
    obtain ⟨delivered, hsplit, hfiles⟩ := hinv
    have hp : pending_requests r.storage.writer = [] := List.length_eq_zero.mp hlen
    rw [hp, List.append_nil] at hsplit
    refine ⟨rfl, hp, ?_⟩
    intro f
    rw [hsplit]
    exact hfiles f
  | succ n ih =>
    intro r hinv hlen
    obtain ⟨delivered, hsplit, hfiles⟩ := hinv
    cases hp : pending_requests r.storage.writer with
    | nil => rw [hp] at hlen; simp at hlen
    | cons req rest =>
      obtain ⟨hrest, e, he, hc1, hcomp⟩ :=
        priv_file_write_task_pass_head true 0 r.storage req rest hp
      have hfull := hcomp (hc1 ⟨rfl, rfl⟩)
      have hacc : (storage_step K r (.consume true 0)).accepted = r.accepted := rfl
      have hinv2 : fifo_inv initial files0 (storage_step K r (.consume true 0)) := by
        refine ⟨delivered ++ [req], ?_, ?_⟩
        · simp only [storage_step, hrest]
          rw [hsplit, hp]
          simp
        · intro f
          simp only [storage_step]
          rw [hfull f, hfiles f, payload_for_append, List.append_assoc]
      have hlen2 : (pending_requests (storage_step K r (.consume true 0)).storage.writer).length
          = n := by
        simp only [storage_step, hrest]
        rw [hp] at hlen
        simpa using hlen
      have h := ih (storage_step K r (.consume true 0)) hinv2 hlen2
      have hrun : storage_run K r (drain_actions (n + 1)) =
          storage_run K (storage_step K r (.consume true 0)) (drain_actions n) := by
        simp [storage_run, drain_actions, List.replicate_succ]
      rw [hrun, ← hacc]
      exact h

/-- C3: in every run of producers calling `file_write_enqueue` and consumer passes of
`priv_file_write_task` in which the consumer never fails to open a destination and every
write is complete, the requests delivered so far are a leading part of the initially
pending and then accepted requests in acceptance order, each file holds its old contents
followed by the data of the delivered requests addressed to it in that order, and once the
consumer has had one more pass per pending request the queue is empty and every file holds
the data of all accepted requests addressed to it, in the order they were accepted. -/
theorem persistence_fifo (K : file_write_consts) (s0 : storage_t)
    (acts : List storage_action)
    (hgood : ∀ e ∈ (storage_run K { storage := s0, accepted := [], events := [] } acts).events,
      e.complete = true) :
    (∃ delivered,
      pending_requests s0.writer ++
          (storage_run K { storage := s0, accepted := [], events := [] } acts).accepted =
        delivered ++ pending_requests
          (storage_run K { storage := s0, accepted := [], events := [] } acts).storage.writer ∧
      ∀ f, (storage_run K { storage := s0, accepted := [], events := [] } acts).storage.files f
        = s0.files f ++ payload_for f delivered) ∧
    pending_requests (storage_run K
      (storage_run K { storage := s0, accepted := [], events := [] } acts)
      (drain_actions (pending_requests (storage_run K
        { storage := s0, accepted := [], events := [] } acts).storage.writer).length)
      ).storage.writer = [] ∧
    ∀ f, (storage_run K
      (storage_run K { storage := s0, accepted := [], events := [] } acts)
      (drain_actions (pending_requests (storage_run K
        { storage := s0, accepted := [], events := [] } acts).storage.writer).length)
      ).storage.files f =
        s0.files f ++ payload_for f (pending_requests s0.writer ++
          (storage_run K { storage := s0, accepted := [], events := [] } acts).accepted) := by
  have h0 : fifo_inv (pending_requests s0.writer) s0.files
      { storage := s0, accepted := [], events := [] } :=
    ⟨[], by simp, by intro f; simp [payload_for]⟩
  have hinv := storage_run_fifo K (pending_requests s0.writer) s0.files _ acts h0 hgood
  have hd := drain_fifo K (pending_requests s0.writer) s0.files _ _ hinv rfl
  exact ⟨hinv, hd.2.1, hd.2.2⟩

theorem demo_run_complete :
    ∀ e ∈ (storage_run demo_consts { storage := demo_storage, accepted := [], events := [] }
      demo_actions).events, e.complete = true := by
  decide

/-- After the demo run and a drain, the file holds A's line, then B's, then C's. -/
theorem demo_run_file :
    (storage_run demo_consts demo_run
      (drain_actions (pending_requests demo_run.storage.writer).length)).storage.files
        "/sdcard/bh1750.txt".toList =
      ("2025-01-01 00:00:00 A" ++ "\n" ++ "2025-01-01 00:00:00 B" ++ "\n" ++
        "2025-01-01 00:00:00 C" ++ "\n").toList := by
  decide

theorem persistence_fifo_witness :
    (∀ e ∈ demo_run.events, e.complete = true) ∧
    (∃ delivered,
      pending_requests demo_storage.writer ++ demo_run.accepted =
        delivered ++ pending_requests demo_run.storage.writer ∧
      ∀ f, demo_run.storage.files f = demo_storage.files f ++ payload_for f delivered) ∧
    pending_requests (storage_run demo_consts demo_run
      (drain_actions (pending_requests demo_run.storage.writer).length)).storage.writer = [] ∧
    ∀ f, (storage_run demo_consts demo_run
      (drain_actions (pending_requests demo_run.storage.writer).length)).storage.files f =
        demo_storage.files f ++
          payload_for f (pending_requests demo_storage.writer ++ demo_run.accepted) :=
  ⟨demo_run_complete, persistence_fifo demo_consts demo_storage demo_actions demo_run_complete⟩

/-! ## Resilience Supervisor -/

/-- When `record_error` invokes the reset callback: exactly when the incremented counter has
reached `max_retries` and the backoff window since `last_attempt_time` has elapsed. -/
theorem record_error_invoked_iff {σ : Type} (cb : σ → esp_err_t × σ) (h : error_handler_t)
    (ctx : σ) (err : esp_err_t) (now : Nat) :
    (error_handler_record_error cb h ctx err now).reset_invoked = true ↔
      (h.max_retries ≤ h.failure_count + 1 ∧ h.backoff_interval ≤ now - h.last_attempt_time) := by
  unfold error_handler_record_error
  by_cases h1 : h.failure_count + 1 < h.max_retries
  · simp [h1]
  · by_cases h2 : h.backoff_interval ≤ now - h.last_attempt_time
    · by_cases h3 : (cb ctx).1 = ESP_OK
      · simp [h1, h2, h3]
        omega
      · simp [h1, h2, h3]
        omega
    · simp [h1, h2]

/-- A call of `record_error` either invokes the callback and stamps `last_attempt_time` with
the current tick, or leaves `last_attempt_time` and `backoff_interval` alone. -/
theorem record_error_last_attempt {σ : Type} (cb : σ → esp_err_t × σ) (h : error_handler_t)
    (ctx : σ) (err : esp_err_t) (now : Nat) :
    ((error_handler_record_error cb h ctx err now).reset_invoked = true ∧
      (error_handler_record_error cb h ctx err now).handler.last_attempt_time = now) ∨
    ((error_handler_record_error cb h ctx err now).reset_invoked = false ∧
      (error_handler_record_error cb h ctx err now).handler.last_attempt_time
        = h.last_attempt_time ∧
      (error_handler_record_error cb h ctx err now).handler.backoff_interval
        = h.backoff_interval) := by
  unfold error_handler_record_error
  by_cases h1 : h.failure_count + 1 < h.max_retries
  · simp [h1]
  · by_cases h2 : h.backoff_interval ≤ now - h.last_attempt_time
    · by_cases h3 : (cb ctx).1 = ESP_OK
      · simp [h1, h2, h3]
      · simp [h1, h2, h3]
    · simp [h1, h2]

/-- A call of `record_status` either stamps `last_attempt_time` with the current tick (and
answers "proceed") or leaves it alone. -/
theorem record_status_last_attempt (h : error_handler_t) (err : esp_err_t) (now : Nat) :
    ((error_handler_record_status h err now).2 = .proceed ∧
      (error_handler_record_status h err now).1.last_attempt_time = now) ∨
    ((error_handler_record_status h err now).2 ≠ .proceed ∧
      (error_handler_record_status h err now).1.last_attempt_time = h.last_attempt_time) := by
  unfold error_handler_record_status
  by_cases h1 : err = ESP_OK
  · simp [h1]
  · by_cases h2 : h.retry_interval ≤ now - h.last_attempt_time
    · simp [h1, h2]
    · simp [h1, h2]

theorem supervisor_run_snoc {σ : Type} (cb : σ → esp_err_t × σ) (r : supervisor_run_t σ)
    (calls : List supervisor_call) (c : supervisor_call) :
    supervisor_run cb r (calls ++ [c]) = supervisor_step cb (supervisor_run cb r calls) c := by
  simp [supervisor_run, List.foldl_append]

/-- Calls made at or after tick `t` never move `last_attempt_time` below `t`. -/
theorem supervisor_run_last_attempt_ge {σ : Type} (cb : σ → esp_err_t × σ) (t : Nat)
    (r : supervisor_run_t σ) (calls : List supervisor_call)
    (hr : t ≤ r.handler.last_attempt_time) (hcalls : ∀ c ∈ calls, t ≤ c.now) :
    t ≤ (supervisor_run cb r calls).handler.last_attempt_time := by
  induction calls using List.reverseRecOn with
  | nil => exact hr
  | append_singleton calls c ih =>
    have ih2 := ih (fun c2 hc2 => hcalls c2 (by simp [hc2]))
    have hc : t ≤ c.now := hcalls c (by simp)
    rw [supervisor_run_snoc]
    cases c with
    | record_error err now =>
      simp only [supervisor_step]
      rcases record_error_last_attempt cb (supervisor_run cb r calls).handler
        (supervisor_run cb r calls).context err now with ⟨_, hl⟩ | ⟨_, hl, _⟩
      · rw [hl]; exact hc
      · rw [hl]; exact ih2
    | record_status err now =>
      simp only [supervisor_step]
      rcases record_status_last_attempt (supervisor_run cb r calls).handler err now with
        ⟨_, hl⟩ | ⟨_, hl⟩
      · rw [hl]; exact hc
      · rw [hl]; exact ih2

/-- Four `record_error` calls at one tick `T` on a Supervisor with a zero counter and
`max_retries = 4`: calls 1 to 3 never invoke the callback, and call 4 invokes it exactly
when the backoff window since `last_attempt_time` has elapsed at `T`. -/
theorem record_error_four_calls {σ : Type} (cb : σ → esp_err_t × σ) (g : error_handler_t)
    (ctx : σ) (e1 e2 e3 e4 : esp_err_t) (T : Nat)
    (hfc : g.failure_count = 0) (hmr : g.max_retries = 4) :
    (supervisor_run cb { handler := g, context := ctx, resets := [] }
      [.record_error e1 T, .record_error e2 T, .record_error e3 T, .record_error e4 T]).resets
      = [false, false, false, decide (g.backoff_interval ≤ T - g.last_attempt_time)] := by
  by_cases hw : g.backoff_interval ≤ T - g.last_attempt_time
  · by_cases h3 : (cb ctx).1 = ESP_OK
    · simp [supervisor_run, supervisor_step, error_handler_record_error, hfc, hmr, hw, h3]
    · simp [supervisor_run, supervisor_step, error_handler_record_error, hfc, hmr, hw, h3]
  · simp [supervisor_run, supervisor_step, error_handler_record_error, hfc, hmr, hw]

/-- C4 (amended): for every Supervisor, callback and context, (1) a `record_error` call whose
incremented `failure_count` is still below `max_retries` does not invoke the reset callback;
(2) if a call at tick `now` invokes it and, after any further calls made at or after `now`,
another `record_error` call at tick `now2` invokes it again, then at least the
`backoff_interval` in force at that later call lies between the two (`now2 - now`); (3) on a
Supervisor with a zero counter and `max_retries = 4`, as `bh1750_init` constructs it, four
`record_error` calls at one tick `T` do not invoke the callback on calls 1 to 3, invoke it on
call 4 when the backoff window has elapsed at `T`, and on no call at all when it has not. -/
theorem record_error_reset_threshold {σ : Type} (cb : σ → esp_err_t × σ)
    (h0 h : error_handler_t) (ctx : σ) (err : esp_err_t) (now : Nat)
    (mid : List supervisor_call) (err2 : esp_err_t) (now2 : Nat)
    (g : error_handler_t) (e1 e2 e3 e4 : esp_err_t) (T T2 : Nat) :
    (h0.failure_count + 1 < h0.max_retries →
      (error_handler_record_error cb h0 ctx err now).reset_invoked = false) ∧
    ((error_handler_record_error cb h ctx err now).reset_invoked = true →
      (∀ c ∈ mid, now ≤ c.now) →
      (error_handler_record_error cb
        (supervisor_run cb
          { handler := (error_handler_record_error cb h ctx err now).handler
            context := (error_handler_record_error cb h ctx err now).context
            resets := [] } mid).handler
        (supervisor_run cb
          { handler := (error_handler_record_error cb h ctx err now).handler
            context := (error_handler_record_error cb h ctx err now).context
            resets := [] } mid).context err2 now2).reset_invoked = true →
      (supervisor_run cb
          { handler := (error_handler_record_error cb h ctx err now).handler
            context := (error_handler_record_error cb h ctx err now).context
            resets := [] } mid).handler.backoff_interval ≤ now2 - now) ∧
    (g.failure_count = 0 → g.max_retries = 4 →
      (g.backoff_interval ≤ T - g.last_attempt_time →
        (supervisor_run cb { handler := g, context := ctx, resets := [] }
          [.record_error e1 T, .record_error e2 T, .record_error e3 T,
            .record_error e4 T]).resets = [false, false, false, true]) ∧
      (T2 - g.last_attempt_time < g.backoff_interval →
        (supervisor_run cb { handler := g, context := ctx, resets := [] }
          [.record_error e1 T2, .record_error e2 T2, .record_error e3 T2,
            .record_error e4 T2]).resets = [false, false, false, false])) := by
  refine ⟨?_, ?_, ?_⟩
  · intro hlt
    cases hb : (error_handler_record_error cb h0 ctx err now).reset_invoked with
    | false => rfl
    | true =>
      have := (record_error_invoked_iff cb h0 ctx err now).mp hb
      omega
  · intro hinv hmid hinv2
    have hlast : (error_handler_record_error cb h ctx err now).handler.last_attempt_time
        = now := by
      rcases record_error_last_attempt cb h ctx err now with ⟨_, hl⟩ | ⟨hf, _⟩
      · exact hl
      · rw [hinv] at hf
        exact absurd hf (by decide)
    have hge := supervisor_run_last_attempt_ge cb now
      { handler := (error_handler_record_error cb h ctx err now).handler
        context := (error_handler_record_error cb h ctx err now).context
        resets := [] } mid (le_of_eq hlast.symm) hmid
    have hw := ((record_error_invoked_iff cb _ _ err2 now2).mp hinv2).2
    omega
  · intro hfc hmr
    constructor
    · intro hw
      rw [record_error_four_calls cb g ctx e1 e2 e3 e4 T hfc hmr]
      simp [hw]
    · intro hw
      rw [record_error_four_calls cb g ctx e1 e2 e3 e4 T2 hfc hmr]
      simp [hw]

theorem record_error_reset_threshold_witness :
    ((bh1750_error_handler 1000).failure_count + 1 < (bh1750_error_handler 1000).max_retries ∧
      (error_handler_record_error demo_failing_reset (bh1750_error_handler 1000) ()
        ESP_FAIL 100).reset_invoked = false) ∧
    ((error_handler_record_error demo_failing_reset demo_tripped_handler () ESP_FAIL
        100).reset_invoked = true ∧
      (∀ c ∈ [supervisor_call.record_error ESP_FAIL 110], 100 ≤ c.now) ∧
      (error_handler_record_error demo_failing_reset
        (supervisor_run demo_failing_reset
          { handler := (error_handler_record_error demo_failing_reset demo_tripped_handler ()
              ESP_FAIL 100).handler
            context := (error_handler_record_error demo_failing_reset demo_tripped_handler ()
              ESP_FAIL 100).context
            resets := [] } [.record_error ESP_FAIL 110]).handler
        (supervisor_run demo_failing_reset
          { handler := (error_handler_record_error demo_failing_reset demo_tripped_handler ()
              ESP_FAIL 100).handler
            context := (error_handler_record_error demo_failing_reset demo_tripped_handler ()
              ESP_FAIL 100).context
            resets := [] } [.record_error ESP_FAIL 110]).context ESP_FAIL 130).reset_invoked
        = true ∧
      (supervisor_run demo_failing_reset
          { handler := (error_handler_record_error demo_failing_reset demo_tripped_handler ()
              ESP_FAIL 100).handler
            context := (error_handler_record_error demo_failing_reset demo_tripped_handler ()
              ESP_FAIL 100).context
            resets := [] } [.record_error ESP_FAIL 110]).handler.backoff_interval
        ≤ 130 - 100) ∧
    ((bh1750_error_handler 1000).failure_count = 0 ∧
      (bh1750_error_handler 1000).max_retries = 4 ∧
      ((bh1750_error_handler 1000).backoff_interval
          ≤ 5000 - (bh1750_error_handler 1000).last_attempt_time ∧
        (supervisor_run demo_failing_reset
          { handler := bh1750_error_handler 1000, context := (), resets := [] }
          [.record_error ESP_FAIL 5000, .record_error ESP_FAIL 5000,
            .record_error ESP_FAIL 5000, .record_error ESP_FAIL 5000]).resets
          = [false, false, false, true]) ∧
      (10 - (bh1750_error_handler 1000).last_attempt_time
          < (bh1750_error_handler 1000).backoff_interval ∧
        (supervisor_run demo_failing_reset
          { handler := bh1750_error_handler 1000, context := (), resets := [] }
          [.record_error ESP_FAIL 10, .record_error ESP_FAIL 10,
            .record_error ESP_FAIL 10, .record_error ESP_FAIL 10]).resets
          = [false, false, false, false])) :=
  have t := record_error_reset_threshold demo_failing_reset (bh1750_error_handler 1000)
    demo_tripped_handler () ESP_FAIL 100 [.record_error ESP_FAIL 110] ESP_FAIL 130
    (bh1750_error_handler 1000) ESP_FAIL ESP_FAIL ESP_FAIL ESP_FAIL 5000 10
  ⟨⟨by decide, t.1 (by decide)⟩,
    ⟨by decide, by decide, by decide, t.2.1 (by decide) (by decide) (by decide)⟩,
    ⟨by decide, by decide,
      ⟨by decide, (t.2.2 (by decide) (by decide)).1 (by decide)⟩,
      ⟨by decide, (t.2.2 (by decide) (by decide)).2 (by decide)⟩⟩⟩

/-- C4, as stated, fails on the Supervisor that `bh1750_init` constructs (`max_retries = 4`,
initial interval 15 ticks, maximum 480 ticks, counter 0), whatever value `t0` construction
gives `last_attempt_time` and whatever the callback does: four `record_error` calls that all
happen at tick `t0`, or all at tick `t0 + 14`, invoke the reset callback on none of the four
calls, because the backoff window of 15 ticks since `last_attempt_time` has not elapsed when
the threshold is reached. For a Supervisor stamped with its construction tick these are the
calls of the 15 ticks that follow construction; for one that starts at 0, those of ticks 0
to 14. -/
theorem record_error_scenario_counterexample :
    (bh1750_error_handler 1000).max_retries = 4 ∧
    (bh1750_error_handler 1000).initial_retry_interval = 15 ∧
    (bh1750_error_handler 1000).max_backoff_interval = 480 ∧
    (bh1750_error_handler 1000).failure_count = 0 ∧
    (bh1750_error_handler 1000).backoff_interval = 15 ∧
    (∀ (cb : Unit → esp_err_t × Unit) (t0 : Nat),
      (supervisor_run cb
        { handler := { bh1750_error_handler 1000 with last_attempt_time := t0 }
          context := (), resets := [] }
        [.record_error ESP_FAIL t0, .record_error ESP_FAIL t0,
          .record_error ESP_FAIL t0, .record_error ESP_FAIL t0]).resets
        = [false, false, false, false] ∧
      (supervisor_run cb
        { handler := { bh1750_error_handler 1000 with last_attempt_time := t0 }
          context := (), resets := [] }
        [.record_error ESP_FAIL (t0 + 14), .record_error ESP_FAIL (t0 + 14),
          .record_error ESP_FAIL (t0 + 14), .record_error ESP_FAIL (t0 + 14)]).resets
        = [false, false, false, false]) ∧
    [false, false, false, false] ≠ [false, false, false, true] := by
  refine ⟨by decide, by decide, by decide, by decide, by decide, ?_, by decide⟩
  intro cb t0
  have hb : (bh1750_error_handler 1000).backoff_interval = 15 := by decide
  constructor
  · rw [record_error_four_calls cb _ () _ _ _ _ t0 rfl rfl]
    simp [hb]
  · rw [record_error_four_calls cb _ () _ _ _ _ (t0 + 14) rfl rfl]
    simp [hb]

/-- C5: on every Supervisor state, one `record_status` call with `ESP_OK` leaves
`failure_count = 0` and `retry_interval = initial_retry_interval` and answers "healthy"
(no recovery action needed); and when the connectivity event handler handles
`IP_EVENT_STA_GOT_IP` it makes exactly this call on `s_wifi_error_handler`, whatever the
statics were before. -/
theorem record_status_success_resets (h : error_handler_t) (now : Nat) (K : wifi_consts)
    (env : wifi_event_env) (s : wifi_statics_t) :
    (error_handler_record_status h ESP_OK now).1.failure_count = 0 ∧
    (error_handler_record_status h ESP_OK now).1.retry_interval = h.initial_retry_interval ∧
    (error_handler_record_status h ESP_OK now).2 = .healthy ∧
    (priv_event_handler K env .IP_EVENT IP_EVENT_STA_GOT_IP s).1.s_wifi_error_handler =
      (error_handler_record_status s.s_wifi_error_handler ESP_OK env.now).1 ∧
    (priv_event_handler K env .IP_EVENT IP_EVENT_STA_GOT_IP s).2 =
      [.xTimerStop, .error_handler_record_status ESP_OK,
        .xEventGroupSetBits K.WIFI_CONNECTED_BIT] ∧
    (priv_event_handler K env .IP_EVENT IP_EVENT_STA_GOT_IP s).1.s_wifi_error_handler.failure_count
      = 0 ∧
    (priv_event_handler K env .IP_EVENT IP_EVENT_STA_GOT_IP s).1.s_wifi_error_handler.retry_interval
      = s.s_wifi_error_handler.initial_retry_interval := by
  simp [error_handler_record_status, priv_event_handler]

/-- When `record_status` answers "proceed": exactly on a failure status with the retry
window since `last_attempt_time` elapsed. -/
theorem record_status_proceed_iff (h : error_handler_t) (err : esp_err_t) (now : Nat) :
    (error_handler_record_status h err now).2 = .proceed ↔
      (err ≠ ESP_OK ∧ h.retry_interval ≤ now - h.last_attempt_time) := by
  unfold error_handler_record_status
  by_cases h1 : err = ESP_OK
  · simp [h1]
  · by_cases h2 : h.retry_interval ≤ now - h.last_attempt_time
    · simp [h1, h2]
    · simp [h1, h2]

/-- On a failure status `record_status` answers "wait" unless it answers "proceed". -/
theorem record_status_wait_of_not_proceed (h : error_handler_t) (err : esp_err_t) (now : Nat)
    (herr : err ≠ ESP_OK) (hnp : (error_handler_record_status h err now).2 ≠ .proceed) :
    (error_handler_record_status h err now).2 = .wait := by
  unfold error_handler_record_status at hnp ⊢
  by_cases h2 : h.retry_interval ≤ now - h.last_attempt_time
  · simp [herr, h2] at hnp
  · simp [herr, h2]

/-- C6 (amended): for every Supervisor, if a `record_status` failure call at tick `now1`
answers "proceed", then (1) a directly following failure call made less than the
`retry_interval` now in force after `now1` answers "wait", which is returned as a status
different from `ESP_OK`; and (2) after any further Supervisor calls made at or after
`now1`, a `record_status` call at `now2` that answers "proceed" again lies at least the
`retry_interval` in force at that call after `now1`: "proceed" is returned at most once per
elapsed `retry_interval` window. -/
theorem record_status_gating {σ : Type} (cb : σ → esp_err_t × σ) (ctx : σ)
    (h : error_handler_t) (err1 err2 : esp_err_t) (now1 now2 : Nat)
    (mid : List supervisor_call) (err3 : esp_err_t) (now3 : Nat)
    (hproceed : (error_handler_record_status h err1 now1).2 = .proceed) :
    (err2 ≠ ESP_OK →
      now2 - now1 < (error_handler_record_status h err1 now1).1.retry_interval →
      (error_handler_record_status (error_handler_record_status h err1 now1).1 err2 now2).2
          = .wait ∧
      (error_handler_record_status (error_handler_record_status h err1 now1).1 err2 now2).2.code
          ≠ ESP_OK) ∧
    ((∀ c ∈ mid, now1 ≤ c.now) →
      (error_handler_record_status
        (supervisor_run cb
          { handler := (error_handler_record_status h err1 now1).1, context := ctx, resets := [] }
          mid).handler err3 now3).2 = .proceed →
      (supervisor_run cb
          { handler := (error_handler_record_status h err1 now1).1, context := ctx, resets := [] }
          mid).handler.retry_interval ≤ now3 - now1) := by
  have hlast : (error_handler_record_status h err1 now1).1.last_attempt_time = now1 := by
    rcases record_status_last_attempt h err1 now1 with ⟨_, hl⟩ | ⟨hn, _⟩
    · exact hl
    · exact absurd hproceed hn
  constructor
  · intro herr2 hlt
    have hnp : (error_handler_record_status (error_handler_record_status h err1 now1).1
        err2 now2).2 ≠ .proceed := by
      intro hp
      have := ((record_status_proceed_iff _ err2 now2).mp hp).2
      rw [hlast] at this
      omega
    have hw := record_status_wait_of_not_proceed _ err2 now2 herr2 hnp
    refine ⟨hw, ?_⟩
    rw [hw]
    decide
  · intro hmid hp
    have hge := supervisor_run_last_attempt_ge cb now1
      { handler := (error_handler_record_status h err1 now1).1, context := ctx, resets := [] }
      mid (le_of_eq hlast.symm) hmid
    have hw := ((record_status_proceed_iff _ err3 now3).mp hp).2
    omega

theorem record_status_gating_witness :
    (error_handler_record_status (wifi_error_handler 1000) ESP_ERR_WIFI_NOT_CONNECT 5000).2
      = .proceed ∧
    (ESP_ERR_WIFI_NOT_CONNECT ≠ ESP_OK ∧
      6500 - 5000 < (error_handler_record_status (wifi_error_handler 1000)
        ESP_ERR_WIFI_NOT_CONNECT 5000).1.retry_interval ∧
      (error_handler_record_status (error_handler_record_status (wifi_error_handler 1000)
        ESP_ERR_WIFI_NOT_CONNECT 5000).1 ESP_ERR_WIFI_NOT_CONNECT 6500).2 = .wait ∧
      (error_handler_record_status (error_handler_record_status (wifi_error_handler 1000)
        ESP_ERR_WIFI_NOT_CONNECT 5000).1 ESP_ERR_WIFI_NOT_CONNECT 6500).2.code ≠ ESP_OK) ∧
    ((∀ c ∈ [supervisor_call.record_status ESP_ERR_WIFI_NOT_CONNECT 6500], 5000 ≤ c.now) ∧
      (error_handler_record_status
        (supervisor_run demo_working_reset
          { handler := (error_handler_record_status (wifi_error_handler 1000)
              ESP_ERR_WIFI_NOT_CONNECT 5000).1, context := (), resets := [] }
          [.record_status ESP_ERR_WIFI_NOT_CONNECT 6500]).handler
        ESP_ERR_WIFI_NOT_CONNECT 7000).2 = .proceed ∧
      (supervisor_run demo_working_reset
          { handler := (error_handler_record_status (wifi_error_handler 1000)
              ESP_ERR_WIFI_NOT_CONNECT 5000).1, context := (), resets := [] }
          [.record_status ESP_ERR_WIFI_NOT_CONNECT 6500]).handler.retry_interval
        ≤ 7000 - 5000) :=
  have t := record_status_gating demo_working_reset () (wifi_error_handler 1000)
    ESP_ERR_WIFI_NOT_CONNECT ESP_ERR_WIFI_NOT_CONNECT 5000 6500
    [.record_status ESP_ERR_WIFI_NOT_CONNECT 6500] ESP_ERR_WIFI_NOT_CONNECT 7000 (by decide)
  ⟨by decide,
    ⟨by decide, by decide, t.1 (by decide) (by decide)⟩,
    ⟨by decide, by decide, t.2 (by decide) (by decide)⟩⟩

/-- C6, as stated, fails: take the Supervisor that `wifi_init_sta` constructs after one
"proceed" at tick 5000 (`retry_interval` now 2000 ticks). Two `record_status` failure calls
at ticks 6999 and 7000 are 1 tick apart, less than `retry_interval`; the first answers
"wait" and the second answers "proceed" (returned as `ESP_OK`), not "wait", because the
window is measured from the last "proceed" and not from the previous call. -/
theorem record_status_second_call_counterexample :
    demo_backed_off_handler.retry_interval = 2000 ∧
    (error_handler_record_status demo_backed_off_handler ESP_ERR_WIFI_NOT_CONNECT 6999).2
      = .wait ∧
    (error_handler_record_status demo_backed_off_handler
      ESP_ERR_WIFI_NOT_CONNECT 6999).1.retry_interval = 2000 ∧
    7000 - 6999 < 2000 ∧
    (error_handler_record_status (error_handler_record_status demo_backed_off_handler
      ESP_ERR_WIFI_NOT_CONNECT 6999).1 ESP_ERR_WIFI_NOT_CONNECT 7000).2 = .proceed ∧
    (error_handler_record_status (error_handler_record_status demo_backed_off_handler
      ESP_ERR_WIFI_NOT_CONNECT 6999).1 ESP_ERR_WIFI_NOT_CONNECT 7000).2 ≠ .wait ∧
    (error_handler_record_status (error_handler_record_status demo_backed_off_handler
      ESP_ERR_WIFI_NOT_CONNECT 6999).1 ESP_ERR_WIFI_NOT_CONNECT 7000).2.code = ESP_OK := by
  decide

/-- What one `record_error` call does to the configuration and the two intervals. -/
theorem record_error_intervals {σ : Type} (cb : σ → esp_err_t × σ) (h : error_handler_t)
    (ctx : σ) (err : esp_err_t) (now : Nat) :
    (error_handler_record_error cb h ctx err now).handler.max_retries = h.max_retries ∧
    (error_handler_record_error cb h ctx err now).handler.initial_retry_interval
      = h.initial_retry_interval ∧
    (error_handler_record_error cb h ctx err now).handler.max_retry_interval
      = h.max_retry_interval ∧
    (error_handler_record_error cb h ctx err now).handler.initial_backoff_interval
      = h.initial_backoff_interval ∧
    (error_handler_record_error cb h ctx err now).handler.max_backoff_interval
      = h.max_backoff_interval ∧
    (error_handler_record_error cb h ctx err now).handler.retry_interval = h.retry_interval ∧
    (((error_handler_record_error cb h ctx err now).reset_invoked = false ∧
        (error_handler_record_error cb h ctx err now).handler.backoff_interval
          = h.backoff_interval) ∨
      ((error_handler_record_error cb h ctx err now).reset_invoked = true ∧
        (cb ctx).1 ≠ ESP_OK ∧
        (error_handler_record_error cb h ctx err now).handler.backoff_interval
          = min (h.backoff_interval * 2) h.max_backoff_interval) ∨
      ((error_handler_record_error cb h ctx err now).reset_invoked = true ∧
        (cb ctx).1 = ESP_OK ∧
        (error_handler_record_error cb h ctx err now).handler.backoff_interval
          = h.initial_retry_interval)) := by
  unfold error_handler_record_error
  by_cases h1 : h.failure_count + 1 < h.max_retries
  · simp [h1]
  · by_cases h2 : h.backoff_interval ≤ now - h.last_attempt_time
    · by_cases h3 : (cb ctx).1 = ESP_OK
      · simp [h1, h2, h3]
      · simp [h1, h2, h3]
    · simp [h1, h2]

/-- What one `record_status` call does to the configuration and the two intervals. -/
theorem record_status_intervals (h : error_handler_t) (err : esp_err_t) (now : Nat) :
    (error_handler_record_status h err now).1.max_retries = h.max_retries ∧
    (error_handler_record_status h err now).1.initial_retry_interval
      = h.initial_retry_interval ∧
    (error_handler_record_status h err now).1.max_retry_interval = h.max_retry_interval ∧
    (error_handler_record_status h err now).1.initial_backoff_interval
      = h.initial_backoff_interval ∧
    (error_handler_record_status h err now).1.max_backoff_interval
      = h.max_backoff_interval ∧
    (error_handler_record_status h err now).1.backoff_interval = h.backoff_interval ∧
    ((err = ESP_OK ∧
        (error_handler_record_status h err now).1.retry_interval = h.initial_retry_interval) ∨
      (err ≠ ESP_OK ∧
        (error_handler_record_status h err now).1.retry_interval
          = min (h.retry_interval * 2) h.max_retry_interval) ∨
      (err ≠ ESP_OK ∧
        (error_handler_record_status h err now).1.retry_interval = h.retry_interval)) := by
  unfold error_handler_record_status
  by_cases h1 : err = ESP_OK
  · simp [h1]
  · by_cases h2 : h.retry_interval ≤ now - h.last_attempt_time
    · simp [h1, h2]
    · simp [h1, h2]

/-- A Supervisor call on a Supervisor whose intervals are in range leaves the configuration
alone and the intervals in range, the lower end of the backoff range being the smaller of
the two initial intervals. -/
theorem supervisor_step_in_range {σ : Type} (cb : σ → esp_err_t × σ)
    (r : supervisor_run_t σ) (c : supervisor_call)
    (hr1 : r.handler.initial_retry_interval ≤ r.handler.retry_interval)
    (hr2 : r.handler.retry_interval ≤ r.handler.max_retry_interval)
    (hb1 : min r.handler.initial_retry_interval r.handler.initial_backoff_interval
      ≤ r.handler.backoff_interval)
    (hb2 : r.handler.backoff_interval ≤ r.handler.max_backoff_interval)
    (hcfg : r.handler.initial_retry_interval ≤ r.handler.max_backoff_interval) :
    ((supervisor_step cb r c).handler.max_retries = r.handler.max_retries ∧
      (supervisor_step cb r c).handler.initial_retry_interval
        = r.handler.initial_retry_interval ∧
      (supervisor_step cb r c).handler.max_retry_interval = r.handler.max_retry_interval ∧
      (supervisor_step cb r c).handler.initial_backoff_interval
        = r.handler.initial_backoff_interval ∧
      (supervisor_step cb r c).handler.max_backoff_interval
        = r.handler.max_backoff_interval) ∧
    r.handler.initial_retry_interval ≤ (supervisor_step cb r c).handler.retry_interval ∧
    (supervisor_step cb r c).handler.retry_interval ≤ r.handler.max_retry_interval ∧
    min r.handler.initial_retry_interval r.handler.initial_backoff_interval
      ≤ (supervisor_step cb r c).handler.backoff_interval ∧
    (supervisor_step cb r c).handler.backoff_interval ≤ r.handler.max_backoff_interval ∧
    ((r.handler.initial_backoff_interval ≤ r.handler.backoff_interval ∧
        (r.handler.initial_retry_interval = r.handler.initial_backoff_interval ∨
          ∀ x, (cb x).1 ≠ ESP_OK)) →
      r.handler.initial_backoff_interval ≤ (supervisor_step cb r c).handler.backoff_interval) := by
  cases c with
  | record_error err now =>
    simp only [supervisor_step]
    obtain ⟨c1, c2, c3, c4, c5, hret, hback⟩ :=
      record_error_intervals cb r.handler r.context err now
    refine ⟨⟨c1, c2, c3, c4, c5⟩, ?_, ?_, ?_, ?_, ?_⟩
    · rw [hret]; exact hr1
    · rw [hret]; exact hr2
    · rcases hback with ⟨_, hb⟩ | ⟨_, _, hb⟩ | ⟨_, _, hb⟩ <;> rw [hb] <;> omega
    · rcases hback with ⟨_, hb⟩ | ⟨_, _, hb⟩ | ⟨_, _, hb⟩ <;> rw [hb] <;> omega
    · rintro ⟨h0, hor⟩
      rcases hback with ⟨_, hb⟩ | ⟨_, _, hb⟩ | ⟨_, hok, hb⟩
      · rw [hb]; exact h0
      · rw [hb]; omega
      · rw [hb]
        rcases hor with he | hnever
        · omega
        · exact absurd hok (hnever _)
  | record_status err now =>
    simp only [supervisor_step]
    obtain ⟨c1, c2, c3, c4, c5, hback, hret⟩ := record_status_intervals r.handler err now
    refine ⟨⟨c1, c2, c3, c4, c5⟩, ?_, ?_, ?_, ?_, ?_⟩
    · rcases hret with ⟨_, hb⟩ | ⟨_, hb⟩ | ⟨_, hb⟩ <;> rw [hb] <;> omega
    · rcases hret with ⟨_, hb⟩ | ⟨_, hb⟩ | ⟨_, hb⟩ <;> rw [hb] <;> omega
    · rw [hback]; exact hb1
    · rw [hback]; exact hb2
    · rintro ⟨h0, _⟩
      rw [hback]; exact h0

/-- C7 (amended): for every Supervisor whose intervals start within their configured
ranges (with `initial_retry_interval ≤ max_backoff_interval`), every callback and every
sequence of `record_error` and `record_status` calls: the configuration is unchanged;
`retry_interval` stays within `[initial_retry_interval, max_retry_interval]`;
`backoff_interval` stays within `[min initial_retry_interval initial_backoff_interval,
max_backoff_interval]`, and within `[initial_backoff_interval, max_backoff_interval]` when
the two initial intervals are equal or the reset callback never succeeds; a further call
lowers `retry_interval` only if it is a `record_status` success; and a further call lowers
`backoff_interval` only if it is a `record_error` that invoked the reset callback and the
callback succeeded, in which case `backoff_interval` is `initial_retry_interval`. -/
theorem supervisor_intervals_in_range {σ : Type} (cb : σ → esp_err_t × σ)
    (r : supervisor_run_t σ) (calls : List supervisor_call) (c : supervisor_call)
    (hr1 : r.handler.initial_retry_interval ≤ r.handler.retry_interval)
    (hr2 : r.handler.retry_interval ≤ r.handler.max_retry_interval)
    (hb1 : r.handler.initial_backoff_interval ≤ r.handler.backoff_interval)
    (hb2 : r.handler.backoff_interval ≤ r.handler.max_backoff_interval)
    (hcfg : r.handler.initial_retry_interval ≤ r.handler.max_backoff_interval) :
    ((supervisor_run cb r calls).handler.initial_retry_interval
        = r.handler.initial_retry_interval ∧
      (supervisor_run cb r calls).handler.max_retry_interval = r.handler.max_retry_interval ∧
      (supervisor_run cb r calls).handler.initial_backoff_interval
        = r.handler.initial_backoff_interval ∧
      (supervisor_run cb r calls).handler.max_backoff_interval
        = r.handler.max_backoff_interval) ∧
    (r.handler.initial_retry_interval ≤ (supervisor_run cb r calls).handler.retry_interval ∧
      (supervisor_run cb r calls).handler.retry_interval ≤ r.handler.max_retry_interval) ∧
    (min r.handler.initial_retry_interval r.handler.initial_backoff_interval
        ≤ (supervisor_run cb r calls).handler.backoff_interval ∧
      (supervisor_run cb r calls).handler.backoff_interval
        ≤ r.handler.max_backoff_interval) ∧
    ((r.handler.initial_retry_interval = r.handler.initial_backoff_interval ∨
        ∀ x, (cb x).1 ≠ ESP_OK) →
      r.handler.initial_backoff_interval
        ≤ (supervisor_run cb r calls).handler.backoff_interval) ∧
    ((∀ now, c ≠ .record_status ESP_OK now) →
      (supervisor_run cb r calls).handler.retry_interval
        ≤ (supervisor_step cb (supervisor_run cb r calls) c).handler.retry_interval) ∧
    ((supervisor_step cb (supervisor_run cb r calls) c).handler.backoff_interval
        < (supervisor_run cb r calls).handler.backoff_interval →
      (∃ err now, c = .record_error err now) ∧
      (supervisor_step cb (supervisor_run cb r calls) c).resets.getLast? = some true ∧
      (cb (supervisor_run cb r calls).context).1 = ESP_OK ∧
      (supervisor_step cb (supervisor_run cb r calls) c).handler.backoff_interval
        = r.handler.initial_retry_interval) := by
  have hinv : ∀ l : List supervisor_call,
      ((supervisor_run cb r l).handler.initial_retry_interval
          = r.handler.initial_retry_interval ∧
        (supervisor_run cb r l).handler.max_retry_interval = r.handler.max_retry_interval ∧
        (supervisor_run cb r l).handler.initial_backoff_interval
          = r.handler.initial_backoff_interval ∧
        (supervisor_run cb r l).handler.max_backoff_interval
          = r.handler.max_backoff_interval) ∧
      (r.handler.initial_retry_interval ≤ (supervisor_run cb r l).handler.retry_interval ∧
        (supervisor_run cb r l).handler.retry_interval ≤ r.handler.max_retry_interval) ∧
      (min r.handler.initial_retry_interval r.handler.initial_backoff_interval
          ≤ (supervisor_run cb r l).handler.backoff_interval ∧
        (supervisor_run cb r l).handler.backoff_interval
          ≤ r.handler.max_backoff_interval) ∧
      ((r.handler.initial_retry_interval = r.handler.initial_backoff_interval ∨
          ∀ x, (cb x).1 ≠ ESP_OK) →
        r.handler.initial_backoff_interval
          ≤ (supervisor_run cb r l).handler.backoff_interval) := by
    intro l
    induction l using List.reverseRecOn with
    | nil =>
      refine ⟨⟨rfl, rfl, rfl, rfl⟩, ⟨hr1, hr2⟩, ⟨?_, hb2⟩, fun _ => hb1⟩
      show min _ _ ≤ r.handler.backoff_interval
      omega
    | append_singleton l x ih =>
      obtain ⟨⟨k1, k2, k3, k4⟩, ⟨i1, i2⟩, ⟨i3, i4⟩, i5⟩ := ih
      rw [supervisor_run_snoc]
      obtain ⟨⟨_, s2, s3, s4, s5⟩, t1, t2, t3, t4, t5⟩ :=
        supervisor_step_in_range cb (supervisor_run cb r l) x
          (by rw [k1]; exact i1) (by rw [k2]; exact i2) (by rw [k1, k3]; exact i3)
          (by rw [k4]; exact i4) (by rw [k1, k4]; exact hcfg)
      refine ⟨⟨s2.trans k1, s3.trans k2, s4.trans k3, s5.trans k4⟩, ⟨?_, ?_⟩, ⟨?_, ?_⟩, ?_⟩
      · rw [← k1]; exact t1
      · rw [← k2]; exact t2
      · rw [← k1, ← k3]; exact t3
      · rw [← k4]; exact t4
      · intro hor
        rw [← k3]
        apply t5
        refine ⟨by rw [k3]; exact i5 hor, ?_⟩
        rcases hor with he | hn
        · left; rw [k1, k3]; exact he
        · right; exact hn
  obtain ⟨⟨k1, k2, k3, k4⟩, ⟨i1, i2⟩, ⟨i3, i4⟩, i5⟩ := hinv calls
  refine ⟨⟨k1, k2, k3, k4⟩, ⟨i1, i2⟩, ⟨i3, i4⟩, i5, ?_, ?_⟩
  · intro hc
    cases c with
    | record_error err now =>
      simp only [supervisor_step]
      rw [(record_error_intervals cb _ _ err now).2.2.2.2.2.1]
    | record_status err now =>
      simp only [supervisor_step]
      rcases (record_status_intervals (supervisor_run cb r calls).handler err now).2.2.2.2.2.2
        with ⟨he, _⟩ | ⟨_, hb⟩ | ⟨_, hb⟩
      · exact absurd (by rw [he]) (hc now)
      · rw [hb]; omega
      · rw [hb]
  · intro hlt
    cases c with
    | record_error err now =>
      simp only [supervisor_step] at hlt ⊢
      rcases (record_error_intervals cb (supervisor_run cb r calls).handler
        (supervisor_run cb r calls).context err now).2.2.2.2.2.2
        with ⟨_, hb⟩ | ⟨_, _, hb⟩ | ⟨hinvk, hok, hb⟩
      · rw [hb] at hlt; omega
      · rw [hb] at hlt; omega
      · refine ⟨⟨err, now, rfl⟩, ?_, hok, ?_⟩
        · rw [hinvk]; simp
        · rw [hb, k1]
    | record_status err now =>
      simp only [supervisor_step] at hlt
      rw [(record_status_intervals _ err now).2.2.2.2.2.1] at hlt
      omega

theorem supervisor_intervals_in_range_witness :
    ((wifi_error_handler 1000).initial_retry_interval ≤ (wifi_error_handler 1000).retry_interval ∧
      (wifi_error_handler 1000).retry_interval ≤ (wifi_error_handler 1000).max_retry_interval ∧
      (wifi_error_handler 1000).initial_backoff_interval
        ≤ (wifi_error_handler 1000).backoff_interval ∧
      (wifi_error_handler 1000).backoff_interval
        ≤ (wifi_error_handler 1000).max_backoff_interval ∧
      (wifi_error_handler 1000).initial_retry_interval
        ≤ (wifi_error_handler 1000).max_backoff_interval) ∧
    ((wifi_error_handler 1000).initial_retry_interval ≤
        (supervisor_run demo_working_reset
          { handler := wifi_error_handler 1000, context := (), resets := [] }
          [.record_status ESP_FAIL 5000, .record_error ESP_FAIL 70000]).handler.retry_interval ∧
      (supervisor_run demo_working_reset
          { handler := wifi_error_handler 1000, context := (), resets := [] }
          [.record_status ESP_FAIL 5000, .record_error ESP_FAIL 70000]).handler.retry_interval
        ≤ (wifi_error_handler 1000).max_retry_interval) ∧
    (min (wifi_error_handler 1000).initial_retry_interval
        (wifi_error_handler 1000).initial_backoff_interval ≤
        (supervisor_run demo_working_reset
          { handler := wifi_error_handler 1000, context := (), resets := [] }
          [.record_status ESP_FAIL 5000,
            .record_error ESP_FAIL 70000]).handler.backoff_interval ∧
      (supervisor_run demo_working_reset
          { handler := wifi_error_handler 1000, context := (), resets := [] }
          [.record_status ESP_FAIL 5000, .record_error ESP_FAIL 70000]).handler.backoff_interval
        ≤ (wifi_error_handler 1000).max_backoff_interval) :=
  ⟨by decide,
    (supervisor_intervals_in_range demo_working_reset
      { handler := wifi_error_handler 1000, context := (), resets := [] }
      [.record_status ESP_FAIL 5000, .record_error ESP_FAIL 70000]
      (.record_error ESP_FAIL 70000) (by decide) (by decide) (by decide) (by decide)
      (by decide)).2.1,
    (supervisor_intervals_in_range demo_working_reset
      { handler := wifi_error_handler 1000, context := (), resets := [] }
      [.record_status ESP_FAIL 5000, .record_error ESP_FAIL 70000]
      (.record_error ESP_FAIL 70000) (by decide) (by decide) (by decide) (by decide)
      (by decide)).2.2.1⟩

/-- C7, as stated, fails through the success branch of `record_error`: on the Supervisor
that `wifi_init_sta` constructs (initial retry interval 1000 ticks, initial backoff interval
60000 ticks, maximum 300000), whatever value `t0` construction gives `last_attempt_time`,
ten `record_error` calls at tick `t0 + 60000` reach the threshold, the tenth invokes the
reset callback, the callback succeeds, and `backoff_interval` becomes 1000, below
`initial_backoff_interval = 60000`. -/
theorem record_error_backoff_below_initial :
    (wifi_error_handler 1000).initial_retry_interval = 1000 ∧
    (wifi_error_handler 1000).initial_backoff_interval = 60000 ∧
    (wifi_error_handler 1000).backoff_interval = 60000 ∧
    (wifi_error_handler 1000).max_backoff_interval = 300000 ∧
    (wifi_error_handler 1000).max_retries = 10 ∧
    (∀ t0 : Nat,
      (supervisor_run demo_working_reset
        { handler := { wifi_error_handler 1000 with last_attempt_time := t0 }
          context := (), resets := [] }
        (List.replicate 10 (.record_error ESP_FAIL (t0 + 60000)))).resets
        = [false, false, false, false, false, false, false, false, false, true] ∧
      (supervisor_run demo_working_reset
        { handler := { wifi_error_handler 1000 with last_attempt_time := t0 }
          context := (), resets := [] }
        (List.replicate 10 (.record_error ESP_FAIL (t0 + 60000)))).handler.backoff_interval
        = 1000 ∧
      (supervisor_run demo_working_reset
        { handler := { wifi_error_handler 1000 with last_attempt_time := t0 }
          context := (), resets := [] }
        (List.replicate 10
          (.record_error ESP_FAIL (t0 + 60000)))).handler.initial_backoff_interval
        = 60000) ∧
    ¬ (60000 ≤ 1000) := by
  refine ⟨by decide, by decide, by decide, by decide, by decide, ?_, by decide⟩
  intro t0
  have e1 : (wifi_error_handler 1000).initial_retry_interval = 1000 := by decide
  have e2 : (wifi_error_handler 1000).initial_backoff_interval = 60000 := by decide
  have e3 : (wifi_error_handler 1000).backoff_interval = 60000 := by decide
  have e4 : (wifi_error_handler 1000).max_retries = 10 := by decide
  have e5 : (wifi_error_handler 1000).failure_count = 0 := by decide
  simp [supervisor_run, supervisor_step, error_handler_record_error, List.replicate,
    demo_working_reset, e1, e2, e3, e4, e5]

/-! ## BH1750 producer task -/

theorem bh1750_read_error_handler (C : bh1750_enum_t) (read_ret : esp_err_t)
    (data0 data1 : Nat) (d : bh1750_data_t) :
    (bh1750_read C read_ret data0 data1 d).2.error_handler = d.error_handler := by
  unfold bh1750_read
  split <;> rfl

theorem bh1750_read_ok_iff (C : bh1750_enum_t) (read_ret : esp_err_t)
    (data0 data1 : Nat) (d : bh1750_data_t) :
    (bh1750_read C read_ret data0 data1 d).1 = ESP_OK ↔ read_ret = ESP_OK := by
  unfold bh1750_read
  by_cases h : read_ret = ESP_OK
  · simp [h]
  · have hne : ESP_FAIL ≠ ESP_OK := by decide
    simp [h, hne]

/-- The reset callback only writes to the bus and sleeps. -/
theorem priv_bh1750_reset_calls (C : bh1750_enum_t) (rate : Nat) (env : bh1750_reset_env)
    (d : bh1750_data_t) :
    ∀ c ∈ (priv_bh1750_reset C rate env d).2.2,
      c.is_record_error = false ∧ c.is_sink = false := by
  unfold priv_bh1750_reset
  split_ifs <;> simp [task_call.is_record_error, task_call.is_sink]

/-- The calls collected while `record_error` runs on the sensor record are those of the
reset callback, if it ran. -/
theorem bh1750_record_error_calls (C : bh1750_enum_t) (rate : Nat) (env : bh1750_reset_env)
    (h : error_handler_t) (d : bh1750_data_t) (err : esp_err_t) (now : Nat) :
    ∀ c ∈ (error_handler_record_error (bh1750_reset_callback C rate env) h (d, [])
        err now).context.2,
      c.is_record_error = false ∧ c.is_sink = false := by
  have hreset := priv_bh1750_reset_calls C rate env d
  unfold error_handler_record_error
  by_cases h1 : h.failure_count + 1 < h.max_retries
  · simp [h1]
  · by_cases h2 : h.backoff_interval ≤ now - h.last_attempt_time
    · by_cases h3 : (bh1750_reset_callback C rate env (d, [])).1 = ESP_OK
      · simp only [h1, h2, h3, if_true, if_false, ge_iff_le]
        simpa [bh1750_reset_callback] using hreset
      · simp only [h1, h2, h3, if_true, if_false, ge_iff_le]
        simpa [bh1750_reset_callback] using hreset
    · simp [h1, h2]

/-- The pass of `bh1750_tasks` after a failed read that left the error flag set. -/
theorem bh1750_tasks_pass_flagged (C : bh1750_enum_t) (K : file_write_consts)
    (rate : Nat) (env : bh1750_tasks_env) (d : bh1750_data_t) (w : file_write_manager_t)
    (hfail : (bh1750_read C env.read_ret env.data0 env.data1 d).1 ≠ ESP_OK)
    (hflag : (bh1750_read C env.read_ret env.data0 env.data1 d).2.state
      &&& C.k_bh1750_error ≠ 0) :
    bh1750_tasks_pass C K rate env d w =
      { sensor := { (error_handler_record_error (bh1750_reset_callback C rate env.reset)
            (bh1750_read C env.read_ret env.data0 env.data1 d).2.error_handler
            ((bh1750_read C env.read_ret env.data0 env.data1 d).2, []) ESP_FAIL
            env.now).context.1 with
          error_handler := (error_handler_record_error
            (bh1750_reset_callback C rate env.reset)
            (bh1750_read C env.read_ret env.data0 env.data1 d).2.error_handler
            ((bh1750_read C env.read_ret env.data0 env.data1 d).2, []) ESP_FAIL
            env.now).handler }
        writer := w
        calls := [.priv_i2c_read_bytes bh1750_measurement_bytes,
            .error_handler_record_error .bh1750_data_error_handler ESP_FAIL]
          ++ (error_handler_record_error (bh1750_reset_callback C rate env.reset)
            (bh1750_read C env.read_ret env.data0 env.data1 d).2.error_handler
            ((bh1750_read C env.read_ret env.data0 env.data1 d).2, []) ESP_FAIL
            env.now).context.2
          ++ [.vTaskDelay (bh1750_polling_rate_ticks rate)] } := by
  unfold bh1750_tasks_pass
  simp only [hfail, if_false]
  rw [if_pos hflag]

/-- The pass of `bh1750_tasks` after a failed read that left the error flag clear. -/
theorem bh1750_tasks_pass_unflagged (C : bh1750_enum_t) (K : file_write_consts)
    (rate : Nat) (env : bh1750_tasks_env) (d : bh1750_data_t) (w : file_write_manager_t)
    (hfail : (bh1750_read C env.read_ret env.data0 env.data1 d).1 ≠ ESP_OK)
    (hflag : (bh1750_read C env.read_ret env.data0 env.data1 d).2.state
      &&& C.k_bh1750_error = 0) :
    bh1750_tasks_pass C K rate env d w =
      { sensor := (bh1750_read C env.read_ret env.data0 env.data1 d).2
        writer := w
        calls := [.priv_i2c_read_bytes bh1750_measurement_bytes,
          .vTaskDelay (bh1750_polling_rate_ticks rate)] } := by
  unfold bh1750_tasks_pass
  simp only [hfail, if_false]
  rw [if_neg (by simpa using hflag)]

/-- C8: in every pass of the loop of `bh1750_tasks` in which `bh1750_read` succeeds, no call
to the Supervisor is made and the sensor's `error_handler` is what it was before, whatever
the writer state, the return value of `send_sensor_data_to_webserver` and the outcome of
serialization; when serialization yields a text, the two sink calls of the pass are
`send_sensor_data_to_webserver` and then `file_write_enqueue` under the path
`"bh1750.txt"`, both with that same text, and the writer statics afterwards are those
`file_write_enqueue` leaves; when it yields `NULL` no sink is called. -/
theorem bh1750_tasks_success_frame (C : bh1750_enum_t) (K : file_write_consts) (rate : Nat)
    (env : bh1750_tasks_env) (d : bh1750_data_t) (w : file_write_manager_t)
    (hok : (bh1750_read C env.read_ret env.data0 env.data1 d).1 = ESP_OK) :
    (bh1750_tasks_pass C K rate env d w).sensor.error_handler = d.error_handler ∧
    (bh1750_tasks_pass C K rate env d w).sensor
      = (bh1750_read C env.read_ret env.data0 env.data1 d).2 ∧
    (∀ c ∈ (bh1750_tasks_pass C K rate env d w).calls, c.is_record_error = false) ∧
    (∀ json, env.json = some json →
      (bh1750_tasks_pass C K rate env d w).calls.filter task_call.is_sink =
        [.send_sensor_data_to_webserver (some json),
          .file_write_enqueue "bh1750.txt".toList (some json)] ∧
      (bh1750_tasks_pass C K rate env d w).writer =
        (file_write_enqueue K w env.timestamp (some "bh1750.txt".toList) (some json)).state) ∧
    (env.json = none →
      (∀ c ∈ (bh1750_tasks_pass C K rate env d w).calls, c.is_sink = false) ∧
      (bh1750_tasks_pass C K rate env d w).writer = w) := by
  have heh := bh1750_read_error_handler C env.read_ret env.data0 env.data1 d
  unfold bh1750_tasks_pass
  simp only [hok, if_true]
  cases hj : env.json with
  | none =>
    simp [heh, task_call.is_record_error, task_call.is_sink]
  | some json =>
    simp [heh, task_call.is_record_error, task_call.is_sink]

/-- C9: in every pass of the loop of `bh1750_tasks` in which `bh1750_read` fails, neither
sink is called and the writer statics are untouched; if the sensor state after the read
carries the error flag (`state & k_bh1750_error` is non-zero) the pass makes exactly one
Supervisor call, `error_handler_record_error` with `ESP_FAIL` on the sensor's own
`error_handler`, whose result becomes the sensor's Supervisor state; otherwise it makes no
Supervisor call and leaves the record as the read left it; in both cases the last call of
the pass is `vTaskDelay(bh1750_polling_rate_ticks)`. -/
theorem bh1750_tasks_failure_records_error (C : bh1750_enum_t) (K : file_write_consts)
    (rate : Nat) (env : bh1750_tasks_env) (d : bh1750_data_t) (w : file_write_manager_t)
    (hfail : (bh1750_read C env.read_ret env.data0 env.data1 d).1 ≠ ESP_OK) :
    (∀ c ∈ (bh1750_tasks_pass C K rate env d w).calls, c.is_sink = false) ∧
    (bh1750_tasks_pass C K rate env d w).writer = w ∧
    ((bh1750_read C env.read_ret env.data0 env.data1 d).2.state &&& C.k_bh1750_error ≠ 0 →
      (bh1750_tasks_pass C K rate env d w).calls.filter task_call.is_record_error =
        [.error_handler_record_error .bh1750_data_error_handler ESP_FAIL] ∧
      (bh1750_tasks_pass C K rate env d w).sensor.error_handler =
        (error_handler_record_error (bh1750_reset_callback C rate env.reset)
          (bh1750_read C env.read_ret env.data0 env.data1 d).2.error_handler
          ((bh1750_read C env.read_ret env.data0 env.data1 d).2, []) ESP_FAIL
          env.now).handler) ∧
    ((bh1750_read C env.read_ret env.data0 env.data1 d).2.state &&& C.k_bh1750_error = 0 →
      (∀ c ∈ (bh1750_tasks_pass C K rate env d w).calls, c.is_record_error = false) ∧
      (bh1750_tasks_pass C K rate env d w).sensor
        = (bh1750_read C env.read_ret env.data0 env.data1 d).2) ∧
    (bh1750_tasks_pass C K rate env d w).calls.getLast? =
      some (.vTaskDelay (bh1750_polling_rate_ticks rate)) := by
  have hcalls := bh1750_record_error_calls C rate env.reset
    (bh1750_read C env.read_ret env.data0 env.data1 d).2.error_handler
    (bh1750_read C env.read_ret env.data0 env.data1 d).2 ESP_FAIL env.now
  by_cases hflag :
      (bh1750_read C env.read_ret env.data0 env.data1 d).2.state &&& C.k_bh1750_error = 0
  · rw [bh1750_tasks_pass_unflagged C K rate env d w hfail hflag]
    refine ⟨?_, rfl, ?_, ?_, rfl⟩
    · intro c hc
      simp only [List.mem_cons, List.mem_singleton, List.not_mem_nil, or_false] at hc
      rcases hc with hc | hc <;> subst hc <;> rfl
    · intro h0
      exact absurd hflag h0
    · intro _
      refine ⟨?_, rfl⟩
      intro c hc
      simp only [List.mem_cons, List.mem_singleton, List.not_mem_nil, or_false] at hc
      rcases hc with hc | hc <;> subst hc <;> rfl
  · rw [bh1750_tasks_pass_flagged C K rate env d w hfail hflag]
    refine ⟨?_, rfl, ?_, ?_, List.getLast?_concat _⟩
    · intro c hc
      simp only [List.mem_append, List.mem_cons, List.mem_singleton, List.not_mem_nil,
        or_false] at hc
      rcases hc with ((hc | hc) | hc) | hc
      · subst hc; rfl
      · subst hc; rfl
      · exact (hcalls c hc).2
      · subst hc; rfl
    · intro _
      refine ⟨?_, rfl⟩
      have hnone : List.filter task_call.is_record_error
          (error_handler_record_error (bh1750_reset_callback C rate env.reset)
            (bh1750_read C env.read_ret env.data0 env.data1 d).2.error_handler
            ((bh1750_read C env.read_ret env.data0 env.data1 d).2, []) ESP_FAIL
            env.now).context.2 = [] := by
        rw [List.filter_eq_nil_iff]
        intro c hc
        simp [(hcalls c hc).1]
      simp [List.filter_append, hnone, task_call.is_record_error]
    · intro h0
      exact absurd h0 hflag

theorem bh1750_tasks_success_frame_witness :
    (bh1750_read demo_bh1750_enum demo_bh1750_env_ok.read_ret demo_bh1750_env_ok.data0
      demo_bh1750_env_ok.data1 demo_bh1750_data).1 = ESP_OK ∧
    (bh1750_tasks_pass demo_bh1750_enum demo_consts 1000 demo_bh1750_env_ok demo_bh1750_data
      (demo_writer [])).sensor.error_handler = demo_bh1750_data.error_handler ∧
    (bh1750_tasks_pass demo_bh1750_enum demo_consts 1000 demo_bh1750_env_ok demo_bh1750_data
      (demo_writer [])).sensor
      = (bh1750_read demo_bh1750_enum demo_bh1750_env_ok.read_ret demo_bh1750_env_ok.data0
          demo_bh1750_env_ok.data1 demo_bh1750_data).2 ∧
    (∀ c ∈ (bh1750_tasks_pass demo_bh1750_enum demo_consts 1000 demo_bh1750_env_ok
      demo_bh1750_data (demo_writer [])).calls, c.is_record_error = false) ∧
    (∀ json, demo_bh1750_env_ok.json = some json →
      (bh1750_tasks_pass demo_bh1750_enum demo_consts 1000 demo_bh1750_env_ok demo_bh1750_data
        (demo_writer [])).calls.filter task_call.is_sink =
        [.send_sensor_data_to_webserver (some json),
          .file_write_enqueue "bh1750.txt".toList (some json)] ∧
      (bh1750_tasks_pass demo_bh1750_enum demo_consts 1000 demo_bh1750_env_ok demo_bh1750_data
        (demo_writer [])).writer =
        (file_write_enqueue demo_consts (demo_writer []) demo_bh1750_env_ok.timestamp
          (some "bh1750.txt".toList) (some json)).state) ∧
    (demo_bh1750_env_ok.json = none →
      (∀ c ∈ (bh1750_tasks_pass demo_bh1750_enum demo_consts 1000 demo_bh1750_env_ok
        demo_bh1750_data (demo_writer [])).calls, c.is_sink = false) ∧
      (bh1750_tasks_pass demo_bh1750_enum demo_consts 1000 demo_bh1750_env_ok demo_bh1750_data
        (demo_writer [])).writer = demo_writer []) :=
  ⟨by decide,
    bh1750_tasks_success_frame demo_bh1750_enum demo_consts 1000 demo_bh1750_env_ok
      demo_bh1750_data (demo_writer []) (by decide)⟩

theorem bh1750_tasks_failure_records_error_witness :
    (bh1750_read demo_bh1750_enum demo_bh1750_env_fail.read_ret demo_bh1750_env_fail.data0
      demo_bh1750_env_fail.data1 demo_bh1750_data).1 ≠ ESP_OK ∧
    (∀ c ∈ (bh1750_tasks_pass demo_bh1750_enum demo_consts 1000 demo_bh1750_env_fail
      demo_bh1750_data (demo_writer [])).calls, c.is_sink = false) ∧
    (bh1750_tasks_pass demo_bh1750_enum demo_consts 1000 demo_bh1750_env_fail demo_bh1750_data
      (demo_writer [])).writer = demo_writer [] ∧
    ((bh1750_read demo_bh1750_enum demo_bh1750_env_fail.read_ret demo_bh1750_env_fail.data0
        demo_bh1750_env_fail.data1 demo_bh1750_data).2.state
        &&& demo_bh1750_enum.k_bh1750_error ≠ 0 →
      (bh1750_tasks_pass demo_bh1750_enum demo_consts 1000 demo_bh1750_env_fail
        demo_bh1750_data (demo_writer [])).calls.filter task_call.is_record_error =
        [.error_handler_record_error .bh1750_data_error_handler ESP_FAIL] ∧
      (bh1750_tasks_pass demo_bh1750_enum demo_consts 1000 demo_bh1750_env_fail
        demo_bh1750_data (demo_writer [])).sensor.error_handler =
        (error_handler_record_error
          (bh1750_reset_callback demo_bh1750_enum 1000 demo_bh1750_env_fail.reset)
          (bh1750_read demo_bh1750_enum demo_bh1750_env_fail.read_ret
            demo_bh1750_env_fail.data0 demo_bh1750_env_fail.data1
            demo_bh1750_data).2.error_handler
          ((bh1750_read demo_bh1750_enum demo_bh1750_env_fail.read_ret
            demo_bh1750_env_fail.data0 demo_bh1750_env_fail.data1 demo_bh1750_data).2, [])
          ESP_FAIL demo_bh1750_env_fail.now).handler) ∧
    ((bh1750_read demo_bh1750_enum demo_bh1750_env_fail.read_ret demo_bh1750_env_fail.data0
        demo_bh1750_env_fail.data1 demo_bh1750_data).2.state
        &&& demo_bh1750_enum.k_bh1750_error = 0 →
      (∀ c ∈ (bh1750_tasks_pass demo_bh1750_enum demo_consts 1000 demo_bh1750_env_fail
        demo_bh1750_data (demo_writer [])).calls, c.is_record_error = false) ∧
      (bh1750_tasks_pass demo_bh1750_enum demo_consts 1000 demo_bh1750_env_fail
        demo_bh1750_data (demo_writer [])).sensor
        = (bh1750_read demo_bh1750_enum demo_bh1750_env_fail.read_ret
            demo_bh1750_env_fail.data0 demo_bh1750_env_fail.data1 demo_bh1750_data).2) ∧
    (bh1750_tasks_pass demo_bh1750_enum demo_consts 1000 demo_bh1750_env_fail demo_bh1750_data
      (demo_writer [])).calls.getLast? =
      some (.vTaskDelay (bh1750_polling_rate_ticks 1000)) :=
  ⟨by decide,
    bh1750_tasks_failure_records_error demo_bh1750_enum demo_consts 1000 demo_bh1750_env_fail
      demo_bh1750_data (demo_writer []) (by decide)⟩

/-- The failing demo pass does carry the error flag, and it is the first recorded failure:
one Supervisor call, counter 1, no reset attempted. -/
theorem demo_bh1750_failure_pass :
    (bh1750_read demo_bh1750_enum demo_bh1750_env_fail.read_ret demo_bh1750_env_fail.data0
        demo_bh1750_env_fail.data1 demo_bh1750_data).2.state
        &&& demo_bh1750_enum.k_bh1750_error ≠ 0 ∧
    (bh1750_tasks_pass demo_bh1750_enum demo_consts 1000 demo_bh1750_env_fail demo_bh1750_data
      (demo_writer [])).calls =
      [.priv_i2c_read_bytes 2,
        .error_handler_record_error .bh1750_data_error_handler ESP_FAIL,
        .vTaskDelay 5000] ∧
    (bh1750_tasks_pass demo_bh1750_enum demo_consts 1000 demo_bh1750_env_fail demo_bh1750_data
      (demo_writer [])).sensor.error_handler.failure_count = 1 := by
  decide

/-! ## MPU6050 producer task -/

/-- Every failing `mpu6050_read` returns `ESP_FAIL` and sets the state to
`k_mpu6050_error`, whether the bus read failed or a converted value was out of range. -/
theorem mpu6050_read_record_failure (C : mpu6050_enum_t) (env : mpu6050_read_env)
    (d : mpu6050_data_t) (hfail : (mpu6050_read_record C env d).1 ≠ ESP_OK) :
    (mpu6050_read_record C env d).1 = ESP_FAIL ∧
    (mpu6050_read_record C env d).2.state = C.k_mpu6050_error % 256 := by
  unfold mpu6050_read_record at hfail ⊢
  simp only at hfail ⊢
  split_ifs at hfail ⊢ <;> first | exact ⟨rfl, rfl⟩ | exact absurd rfl hfail

/-- No pass of the loop of `mpu6050_tasks` touches `s_mpu6050_error_handler` or calls
`error_handler_record_error`. -/
theorem mpu6050_tasks_pass_no_supervisor (C : mpu6050_enum_t) (K : file_write_consts)
    (rate : Nat) (env : mpu6050_tasks_env) (d : mpu6050_data_t) (w : file_write_manager_t)
    (eh : error_handler_t) :
    (mpu6050_tasks_pass C K rate env d w eh).s_mpu6050_error_handler = eh ∧
    ∀ c ∈ (mpu6050_tasks_pass C K rate env d w eh).calls, c.is_record_error = false := by
  unfold mpu6050_tasks_pass mpu6050_reset_on_error
  simp only
  split_ifs <;> simp [task_call.is_record_error]

theorem demo_mpu6050_range_read :
    (mpu6050_read_record demo_mpu6050_enum demo_mpu6050_env_range.read demo_mpu6050_data).1
      = ESP_FAIL ∧
    (mpu6050_read_record demo_mpu6050_enum demo_mpu6050_env_range.read
      demo_mpu6050_data).2.state = demo_mpu6050_enum.k_mpu6050_error := by
  have h : (mpu6050_read_record demo_mpu6050_enum demo_mpu6050_env_range.read
      demo_mpu6050_data).1 ≠ ESP_OK := by
    simp [mpu6050_read_record, demo_mpu6050_env_range, int16_of_bytes, mpu6050_gyro_scales,
      mpu6050_accel_scales, mpu6050_gyro_config_idx, mpu6050_accel_config_idx, ESP_OK, ESP_FAIL]
    norm_num [abs_of_pos]
  exact mpu6050_read_record_failure _ _ _ h

/-- C10 on the code: a read with an out-of-range gyroscope value and a read with a failed
bus transfer both return `ESP_FAIL` with state `k_mpu6050_error`, but the pass of
`mpu6050_tasks` that follows records nothing: it makes no `error_handler_record_error` call
and `s_mpu6050_error_handler` is still its zero initial value, while the same failure in
`bh1750_tasks` does make the Supervisor call. -/
theorem mpu6050_failure_not_recorded :
    ((mpu6050_read_record demo_mpu6050_enum demo_mpu6050_env_range.read demo_mpu6050_data).1
        = ESP_FAIL ∧
      (mpu6050_read_record demo_mpu6050_enum demo_mpu6050_env_range.read
        demo_mpu6050_data).2.state = demo_mpu6050_enum.k_mpu6050_error) ∧
    ((mpu6050_read_record demo_mpu6050_enum demo_mpu6050_env_bus.read demo_mpu6050_data).1
        = ESP_FAIL ∧
      (mpu6050_read_record demo_mpu6050_enum demo_mpu6050_env_bus.read
        demo_mpu6050_data).2.state = demo_mpu6050_enum.k_mpu6050_error) ∧
    ((mpu6050_tasks_pass demo_mpu6050_enum demo_consts 1000 demo_mpu6050_env_range
        demo_mpu6050_data (demo_writer []) s_mpu6050_error_handler_static
        ).s_mpu6050_error_handler = s_mpu6050_error_handler_static ∧
      ∀ c ∈ (mpu6050_tasks_pass demo_mpu6050_enum demo_consts 1000 demo_mpu6050_env_range
        demo_mpu6050_data (demo_writer []) s_mpu6050_error_handler_static).calls,
        c.is_record_error = false) ∧
    ((mpu6050_tasks_pass demo_mpu6050_enum demo_consts 1000 demo_mpu6050_env_bus
        demo_mpu6050_data (demo_writer []) s_mpu6050_error_handler_static
        ).s_mpu6050_error_handler = s_mpu6050_error_handler_static ∧
      (mpu6050_tasks_pass demo_mpu6050_enum demo_consts 1000 demo_mpu6050_env_bus
        demo_mpu6050_data (demo_writer []) s_mpu6050_error_handler_static).calls
        = [.priv_i2c_read_reg_bytes 0x3B 6, .vTaskDelay 20]) ∧
    (bh1750_tasks_pass demo_bh1750_enum demo_consts 1000 demo_bh1750_env_fail demo_bh1750_data
      (demo_writer [])).calls.filter task_call.is_record_error =
      [.error_handler_record_error .bh1750_data_error_handler ESP_FAIL] :=
  ⟨demo_mpu6050_range_read,
    by decide,
    mpu6050_tasks_pass_no_supervisor demo_mpu6050_enum demo_consts 1000 demo_mpu6050_env_range
      demo_mpu6050_data (demo_writer []) s_mpu6050_error_handler_static,
    by decide,
    by decide⟩

/-! ## MPU6050: data-ready semaphore -/

/-- No pass of the loop of `mpu6050_tasks` takes a semaphore, and every pass starts with
the accelerometer bus read. -/
theorem mpu6050_tasks_pass_no_take (C : mpu6050_enum_t) (K : file_write_consts)
    (rate : Nat) (env : mpu6050_tasks_env) (d : mpu6050_data_t) (w : file_write_manager_t)
    (eh : error_handler_t) :
    (∀ c ∈ (mpu6050_tasks_pass C K rate env d w eh).calls, ∀ ticks, c ≠ .xSemaphoreTake ticks) ∧
    (mpu6050_tasks_pass C K rate env d w eh).calls.head? =
      some (.priv_i2c_read_reg_bytes C.k_mpu6050_accel_xout_h_cmd C.MPU6050_ACCEL_DATA_SIZE) := by
  unfold mpu6050_tasks_pass mpu6050_reset_on_error
  simp only
  split_ifs <;> simp

theorem demo_mpu6050_ok_read :
    (mpu6050_read_record demo_mpu6050_enum demo_mpu6050_env_ok.read demo_mpu6050_data).1
      = ESP_OK := by
  simp [mpu6050_read_record, demo_mpu6050_env_ok, int16_of_bytes, mpu6050_gyro_scales,
    mpu6050_accel_scales, mpu6050_gyro_config_idx, mpu6050_accel_config_idx, ESP_OK, ESP_FAIL]
  norm_num [abs_of_pos]

/-- C11 on the code: a pass of the loop of `mpu6050_tasks` in which both bus reads succeed
issues the two reads as its first calls, then serves the sinks and sleeps for the polling
period; it makes no `xSemaphoreTake` call, so the read does not wait for the data-ready
semaphore, and the pass that follows reads again in the same way. -/
theorem mpu6050_tasks_reads_without_take :
    (mpu6050_tasks_pass demo_mpu6050_enum demo_consts 1000 demo_mpu6050_env_ok
      demo_mpu6050_data (demo_writer []) s_mpu6050_error_handler_static).calls =
      [.priv_i2c_read_reg_bytes 0x3B 6, .priv_i2c_read_reg_bytes 0x43 6,
        .send_sensor_data_to_webserver demo_mpu6050_env_ok.json,
        .file_write_enqueue "mpu6050.txt".toList demo_mpu6050_env_ok.json,
        .free demo_mpu6050_env_ok.json, .vTaskDelay 20] ∧
    (∀ c ∈ (mpu6050_tasks_pass demo_mpu6050_enum demo_consts 1000 demo_mpu6050_env_ok
      demo_mpu6050_data (demo_writer []) s_mpu6050_error_handler_static).calls,
      ∀ ticks, c ≠ .xSemaphoreTake ticks) ∧
    (∀ c ∈ (mpu6050_tasks_pass demo_mpu6050_enum demo_consts 1000 demo_mpu6050_env_ok
      (mpu6050_tasks_pass demo_mpu6050_enum demo_consts 1000 demo_mpu6050_env_ok
        demo_mpu6050_data (demo_writer []) s_mpu6050_error_handler_static).sensor
      (demo_writer []) s_mpu6050_error_handler_static).calls,
      ∀ ticks, c ≠ .xSemaphoreTake ticks) ∧
    (mpu6050_tasks_pass demo_mpu6050_enum demo_consts 1000 demo_mpu6050_env_ok
      (mpu6050_tasks_pass demo_mpu6050_enum demo_consts 1000 demo_mpu6050_env_ok
        demo_mpu6050_data (demo_writer []) s_mpu6050_error_handler_static).sensor
      (demo_writer []) s_mpu6050_error_handler_static).calls.head? =
      some (.priv_i2c_read_reg_bytes 0x3B 6) := by
  refine ⟨?_, (mpu6050_tasks_pass_no_take _ _ _ _ _ _ _).1,
    (mpu6050_tasks_pass_no_take _ _ _ _ _ _ _).1, (mpu6050_tasks_pass_no_take _ _ _ _ _ _ _).2⟩
  have h := demo_mpu6050_ok_read
  unfold mpu6050_tasks_pass
  simp only [h, if_true]
  decide

/-! ## Connectivity event handler -/

theorem nat_or_and_right (b c f : Nat) : (b ||| c) &&& f = (b &&& f) ||| (c &&& f) := by
  apply Nat.eq_of_testBit_eq
  intro i
  simp [Bool.and_or_distrib_right]

theorem nat_or_eq_zero (a b : Nat) : a ||| b = 0 ↔ a = 0 ∧ b = 0 := by
  constructor
  · intro h
    constructor
    · apply Nat.eq_of_testBit_eq
      intro i
      have := congrArg (fun n => Nat.testBit n i) h
      simp at this
      simp [this.1]
    · apply Nat.eq_of_testBit_eq
      intro i
      have := congrArg (fun n => Nat.testBit n i) h
      simp at this
      simp [this.2]
  · rintro ⟨rfl, rfl⟩
    rfl

/-- C13: for every state of the statics, handling `IP_EVENT_STA_GOT_IP` is the sequence
`connecting = false`, `xTimerStop`, `error_handler_record_status(ESP_OK)`,
`xEventGroupSetBits(WIFI_CONNECTED_BIT)`: the three calls are made in that order and the
statics afterwards are those of the four statements applied in that order. Afterwards
`connecting` is false, the timer (if created) is stopped, the Supervisor holds the recorded
success, and if the event group exists its connected bit is set; the only bit set is
`WIFI_CONNECTED_BIT`, so with the failed bit a different bit the failed flag is as it was. -/
theorem got_ip_event_sequence (K : wifi_consts) (env : wifi_event_env) (s : wifi_statics_t)
    (hdisj : K.WIFI_CONNECTED_BIT &&& K.WIFI_FAIL_BIT = 0) :
    (priv_event_handler K env .IP_EVENT IP_EVENT_STA_GOT_IP s).1 =
      (((s.clear_connecting).xTimerStop).record_status ESP_OK env.now).xEventGroupSetBits
        K.WIFI_CONNECTED_BIT ∧
    (priv_event_handler K env .IP_EVENT IP_EVENT_STA_GOT_IP s).2 =
      [.xTimerStop, .error_handler_record_status ESP_OK,
        .xEventGroupSetBits K.WIFI_CONNECTED_BIT] ∧
    (priv_event_handler K env .IP_EVENT IP_EVENT_STA_GOT_IP s).1.connecting = false ∧
    (∀ running, s.s_wifi_connect_timer = some running →
      (priv_event_handler K env .IP_EVENT IP_EVENT_STA_GOT_IP s).1.s_wifi_connect_timer
        = some false) ∧
    (priv_event_handler K env .IP_EVENT IP_EVENT_STA_GOT_IP s).1.s_wifi_error_handler =
      (error_handler_record_status s.s_wifi_error_handler ESP_OK env.now).1 ∧
    (∀ bits, s.s_wifi_event_group = some bits →
      (priv_event_handler K env .IP_EVENT IP_EVENT_STA_GOT_IP s).1.s_wifi_event_group
        = some (bits ||| K.WIFI_CONNECTED_BIT) ∧
      (bits ||| K.WIFI_CONNECTED_BIT) &&& K.WIFI_CONNECTED_BIT = K.WIFI_CONNECTED_BIT ∧
      (bits ||| K.WIFI_CONNECTED_BIT) &&& K.WIFI_FAIL_BIT = bits &&& K.WIFI_FAIL_BIT) := by
  refine ⟨?_, ?_, ?_, ?_, ?_, ?_⟩
  · simp [priv_event_handler, wifi_statics_t.clear_connecting, wifi_statics_t.xTimerStop,
      wifi_statics_t.record_status, wifi_statics_t.xEventGroupSetBits]
  · simp [priv_event_handler]
  · simp [priv_event_handler]
  · intro running hr
    simp [priv_event_handler, hr]
  · simp [priv_event_handler]
  · intro bits hb
    refine ⟨by simp [priv_event_handler, hb], ?_, ?_⟩
    · rw [nat_or_and_right, Nat.and_self]
      apply Nat.eq_of_testBit_eq
      intro i
      simp
    · rw [nat_or_and_right, hdisj, Nat.or_zero]

theorem got_ip_event_sequence_witness :
    demo_wifi_consts.WIFI_CONNECTED_BIT &&& demo_wifi_consts.WIFI_FAIL_BIT = 0 ∧
    demo_wifi_connecting.s_wifi_connect_timer = some true ∧
    demo_wifi_connecting.s_wifi_event_group = some 0 ∧
    (priv_event_handler demo_wifi_consts demo_wifi_event_env .IP_EVENT IP_EVENT_STA_GOT_IP
        demo_wifi_connecting).1 =
      (((demo_wifi_connecting.clear_connecting).xTimerStop).record_status ESP_OK
        demo_wifi_event_env.now).xEventGroupSetBits demo_wifi_consts.WIFI_CONNECTED_BIT ∧
    (priv_event_handler demo_wifi_consts demo_wifi_event_env .IP_EVENT IP_EVENT_STA_GOT_IP
        demo_wifi_connecting).2 =
      [.xTimerStop, .error_handler_record_status ESP_OK,
        .xEventGroupSetBits demo_wifi_consts.WIFI_CONNECTED_BIT] ∧
    (priv_event_handler demo_wifi_consts demo_wifi_event_env .IP_EVENT IP_EVENT_STA_GOT_IP
        demo_wifi_connecting).1.connecting = false ∧
    (priv_event_handler demo_wifi_consts demo_wifi_event_env .IP_EVENT IP_EVENT_STA_GOT_IP
        demo_wifi_connecting).1.s_wifi_connect_timer = some false ∧
    (priv_event_handler demo_wifi_consts demo_wifi_event_env .IP_EVENT IP_EVENT_STA_GOT_IP
        demo_wifi_connecting).1.s_wifi_error_handler =
      (error_handler_record_status demo_wifi_connecting.s_wifi_error_handler ESP_OK
        demo_wifi_event_env.now).1 ∧
    ((priv_event_handler demo_wifi_consts demo_wifi_event_env .IP_EVENT IP_EVENT_STA_GOT_IP
        demo_wifi_connecting).1.s_wifi_event_group
        = some (0 ||| demo_wifi_consts.WIFI_CONNECTED_BIT) ∧
      (0 ||| demo_wifi_consts.WIFI_CONNECTED_BIT) &&& demo_wifi_consts.WIFI_CONNECTED_BIT
        = demo_wifi_consts.WIFI_CONNECTED_BIT ∧
      (0 ||| demo_wifi_consts.WIFI_CONNECTED_BIT) &&& demo_wifi_consts.WIFI_FAIL_BIT
        = 0 &&& demo_wifi_consts.WIFI_FAIL_BIT) :=
  have t := got_ip_event_sequence demo_wifi_consts demo_wifi_event_env demo_wifi_connecting
    (by decide)
  ⟨by decide, rfl, rfl, t.1, t.2.1, t.2.2.1, t.2.2.2.1 true rfl, t.2.2.2.2.1,
    t.2.2.2.2.2 0 rfl⟩

/-- C14: for every state of the statics, on `WIFI_EVENT_STA_DISCONNECTED` the handler makes
exactly one Supervisor call, `error_handler_record_status` with the failure status
`ESP_ERR_WIFI_NOT_CONNECT`, and clears `connecting` if `connecting` was true, and makes no
call and changes nothing if it was false; in neither case does it call `esp_wifi_connect`.
On `WIFI_EVENT_STA_START` it calls `esp_wifi_connect` exactly when `connecting` was false
and `esp_wifi_get_mode` succeeded with station mode, and it makes no Supervisor call. -/
theorem disconnect_and_start_events (K : wifi_consts) (env : wifi_event_env)
    (s : wifi_statics_t) :
    (priv_event_handler K env .WIFI_EVENT WIFI_EVENT_STA_DISCONNECTED s).2 =
      (if s.connecting then [.error_handler_record_status ESP_ERR_WIFI_NOT_CONNECT] else []) ∧
    ESP_ERR_WIFI_NOT_CONNECT ≠ ESP_OK ∧
    (priv_event_handler K env .WIFI_EVENT WIFI_EVENT_STA_DISCONNECTED s).1 =
      (if s.connecting then
        (s.clear_connecting).record_status ESP_ERR_WIFI_NOT_CONNECT env.now
      else s) ∧
    (priv_event_handler K env .WIFI_EVENT WIFI_EVENT_STA_DISCONNECTED s).1.connecting = false ∧
    wifi_call.esp_wifi_connect ∉
      (priv_event_handler K env .WIFI_EVENT WIFI_EVENT_STA_DISCONNECTED s).2 ∧
    (wifi_call.esp_wifi_connect ∈
        (priv_event_handler K env .WIFI_EVENT WIFI_EVENT_STA_START s).2 ↔
      (s.connecting = false ∧ env.get_mode_ret = ESP_OK ∧ env.mode = WIFI_MODE_STA)) ∧
    (priv_event_handler K env .WIFI_EVENT WIFI_EVENT_STA_START s).2.count .esp_wifi_connect
      ≤ 1 ∧
    (∀ err, wifi_call.error_handler_record_status err ∉
      (priv_event_handler K env .WIFI_EVENT WIFI_EVENT_STA_START s).2) ∧
    (priv_event_handler K env .WIFI_EVENT WIFI_EVENT_STA_START s).1.s_wifi_error_handler
      = s.s_wifi_error_handler := by
  have hne : ESP_ERR_WIFI_NOT_CONNECT ≠ ESP_OK := by decide
  have h25 : WIFI_EVENT_STA_DISCONNECTED ≠ WIFI_EVENT_STA_START := by decide
  cases hc : s.connecting <;>
    by_cases hm : env.get_mode_ret = ESP_OK <;> by_cases hmode : env.mode = WIFI_MODE_STA <;>
    simp [priv_event_handler, hc, hm, hmode, hne, h25, wifi_statics_t.clear_connecting,
      wifi_statics_t.record_status]

/-! ## `wifi_init_sta`: the wait -/

/-- Setting a non-empty flag wakes a wait whose mask contains it. -/
theorem flag_set_wakes (b c f : Nat) (hf : f ≠ 0) : (b ||| f) &&& (c ||| f) ≠ 0 := by
  intro h
  rw [nat_or_and_right, nat_or_eq_zero] at h
  have h2 := h.2
  rw [Nat.and_or_distrib_left, nat_or_eq_zero, Nat.and_self] at h2
  exact hf h2.2

theorem wifi_bits_ready_some (mask : Nat) (s : wifi_statics_t) (bits : Nat) :
    wifi_bits_ready mask s = some bits ↔
      (s.s_wifi_event_group = some bits ∧ bits &&& mask ≠ 0) := by
  unfold wifi_bits_ready
  cases hg : s.s_wifi_event_group with
  | none => simp
  | some b =>
    by_cases hb : b &&& mask = 0
    · simp [hb]
      intro h
      subst h
      exact hb
    · simp [hb]
      intro h
      subst h
      exact hb

theorem wifi_bits_ready_none (mask : Nat) (s : wifi_statics_t) (bits : Nat)
    (hg : s.s_wifi_event_group = some bits) (hb : bits &&& mask = 0) :
    wifi_bits_ready mask s = none := by
  simp [wifi_bits_ready, hg, hb]

theorem wifi_wait_bits_woken (K : wifi_consts) (mask : Nat) (s : wifi_statics_t)
    (calls : List wifi_call) (pending : List wifi_async) (bits : Nat)
    (hr : wifi_bits_ready mask s = some bits) :
    wifi_wait_bits K mask s calls pending = (some bits, s, calls) := by
  cases pending with
  | nil => simp [wifi_wait_bits, hr]
  | cons a rest => simp [wifi_wait_bits, hr]

theorem wifi_wait_bits_step (K : wifi_consts) (mask : Nat) (s : wifi_statics_t)
    (calls : List wifi_call) (a : wifi_async) (rest : List wifi_async)
    (hr : wifi_bits_ready mask s = none) :
    wifi_wait_bits K mask s calls (a :: rest) =
      wifi_wait_bits K mask (wifi_async_step K s a).1 (calls ++ (wifi_async_step K s a).2)
        rest := by
  simp [wifi_wait_bits, hr]

theorem wifi_wait_bits_blocked (K : wifi_consts) (mask : Nat) (s : wifi_statics_t)
    (calls : List wifi_call) (hr : wifi_bits_ready mask s = none) :
    wifi_wait_bits K mask s calls [] = (none, s, calls) := by
  simp [wifi_wait_bits, hr]

/-- The wait only returns with a bit of its mask set, and the bits it returns are those of
the event group; the calls made before it are kept in front. -/
theorem wifi_wait_bits_result (K : wifi_consts) (mask : Nat) (pending : List wifi_async) :
    ∀ (s : wifi_statics_t) (calls : List wifi_call),
      (∀ bits, (wifi_wait_bits K mask s calls pending).1 = some bits →
        bits &&& mask ≠ 0 ∧
        (wifi_wait_bits K mask s calls pending).2.1.s_wifi_event_group = some bits) ∧
      ∃ extra, (wifi_wait_bits K mask s calls pending).2.2 = calls ++ extra := by
  induction pending with
  | nil =>
    intro s calls
    cases hr : wifi_bits_ready mask s with
    | none => rw [wifi_wait_bits_blocked K mask s calls hr]; exact ⟨by simp, [], by simp⟩
    | some b =>
      rw [wifi_wait_bits_woken K mask s calls [] b hr]
      refine ⟨?_, [], by simp⟩
      intro bits hbits
      simp at hbits
      subst hbits
      exact ⟨((wifi_bits_ready_some mask s b).mp hr).2, ((wifi_bits_ready_some mask s b).mp hr).1⟩
  | cons a rest ih =>
    intro s calls
    cases hr : wifi_bits_ready mask s with
    | none =>
      rw [wifi_wait_bits_step K mask s calls a rest hr]
      obtain ⟨h1, extra, h2⟩ := ih (wifi_async_step K s a).1 (calls ++ (wifi_async_step K s a).2)
      refine ⟨h1, (wifi_async_step K s a).2 ++ extra, ?_⟩
      rw [h2, List.append_assoc]
    | some b =>
      rw [wifi_wait_bits_woken K mask s calls _ b hr]
      refine ⟨?_, [], by simp⟩
      intro bits hbits
      simp at hbits
      subst hbits
      exact ⟨((wifi_bits_ready_some mask s b).mp hr).2, ((wifi_bits_ready_some mask s b).mp hr).1⟩

/-- An event other than `IP_EVENT_STA_GOT_IP` leaves the event group and the timer alone. -/
theorem priv_event_handler_other (K : wifi_consts) (env : wifi_event_env)
    (event_base : esp_event_base_t) (event_id : Int) (s : wifi_statics_t)
    (h : ¬ (event_base = .IP_EVENT ∧ event_id = IP_EVENT_STA_GOT_IP)) :
    (priv_event_handler K env event_base event_id s).1.s_wifi_event_group
      = s.s_wifi_event_group ∧
    (priv_event_handler K env event_base event_id s).1.s_wifi_connect_timer
      = s.s_wifi_connect_timer := by
  unfold priv_event_handler
  simp only [h, if_false]
  split_ifs <;> exact ⟨rfl, rfl⟩

/-- The wait of `wifi_init_sta` when no `IP_EVENT_STA_GOT_IP` is delivered: it returns, with
the failed bit added to the bits, once the running timer has expired (the callback's two
calls are then among the calls made), and it stays blocked otherwise. -/
theorem wifi_wait_bits_timeout (K : wifi_consts) (hF : K.WIFI_FAIL_BIT ≠ 0)
    (pending : List wifi_async) :
    ∀ (s : wifi_statics_t) (calls : List wifi_call) (bits : Nat),
      s.s_wifi_event_group = some bits →
      bits &&& (K.WIFI_CONNECTED_BIT ||| K.WIFI_FAIL_BIT) = 0 →
      (∀ a ∈ pending, a.is_got_ip = false) →
      ((s.s_wifi_connect_timer = some true ∧ wifi_async.timer_expired ∈ pending) →
        (wifi_wait_bits K (K.WIFI_CONNECTED_BIT ||| K.WIFI_FAIL_BIT) s calls pending).1
          = some (bits ||| K.WIFI_FAIL_BIT) ∧
        wifi_call.esp_wifi_stop ∈
          (wifi_wait_bits K (K.WIFI_CONNECTED_BIT ||| K.WIFI_FAIL_BIT) s calls pending).2.2 ∧
        wifi_call.xEventGroupSetBits K.WIFI_FAIL_BIT ∈
          (wifi_wait_bits K (K.WIFI_CONNECTED_BIT ||| K.WIFI_FAIL_BIT) s calls pending).2.2) ∧
      (¬ (s.s_wifi_connect_timer = some true ∧ wifi_async.timer_expired ∈ pending) →
        (wifi_wait_bits K (K.WIFI_CONNECTED_BIT ||| K.WIFI_FAIL_BIT) s calls pending).1
          = none) := by
  induction pending with
  | nil =>
    intro s calls bits hg hb _
    rw [wifi_wait_bits_blocked K _ s calls (wifi_bits_ready_none _ s bits hg hb)]
    exact ⟨fun h => absurd h.2 (by simp), fun _ => rfl⟩
  | cons a rest ih =>
    intro s calls bits hg hb hno
    rw [wifi_wait_bits_step K _ s calls a rest (wifi_bits_ready_none _ s bits hg hb)]
    have hrest : ∀ x ∈ rest, x.is_got_ip = false := fun x hx => hno x (by simp [hx])
    cases a with
    | event env event_base event_id =>
      have hnot : ¬ (event_base = .IP_EVENT ∧ event_id = IP_EVENT_STA_GOT_IP) := by
        have := hno (.event env event_base event_id) (by simp)
        simpa [wifi_async.is_got_ip] using this
      obtain ⟨hg2, ht2⟩ := priv_event_handler_other K env event_base event_id s hnot
      have ih2 := ih (wifi_async_step K s (.event env event_base event_id)).1
        (calls ++ (wifi_async_step K s (.event env event_base event_id)).2) bits
        (by simp only [wifi_async_step]; rw [hg2, hg]) hb hrest
      have htimer : (wifi_async_step K s (.event env event_base event_id)).1.s_wifi_connect_timer
          = s.s_wifi_connect_timer := by simp only [wifi_async_step]; exact ht2
      rw [htimer] at ih2
      constructor
      · rintro ⟨h1, h2⟩
        exact ih2.1 ⟨h1, by simpa using h2⟩
      · intro hnt
        apply ih2.2
        rintro ⟨h1, h2⟩
        exact hnt ⟨h1, by simp [h2]⟩
    | timer_expired =>
      by_cases hrun : s.s_wifi_connect_timer = some true
      · have hstep : wifi_async_step K s .timer_expired =
            priv_wifi_connect_timeout_cb K { s with s_wifi_connect_timer := some false } := by
          simp [wifi_async_step, hrun]
        rw [hstep]
        have hg3 : (priv_wifi_connect_timeout_cb K
            { s with s_wifi_connect_timer := some false }).1.s_wifi_event_group
            = some (bits ||| K.WIFI_FAIL_BIT) := by
          simp [priv_wifi_connect_timeout_cb, hg]
        rw [wifi_wait_bits_woken K _ _ _ rest (bits ||| K.WIFI_FAIL_BIT)
          ((wifi_bits_ready_some _ _ _).mpr
            ⟨hg3, flag_set_wakes bits K.WIFI_CONNECTED_BIT K.WIFI_FAIL_BIT hF⟩)]
        constructor
        · intro _
          refine ⟨rfl, ?_, ?_⟩ <;> simp [priv_wifi_connect_timeout_cb]
        · intro hnt
          exact absurd ⟨hrun, by simp⟩ hnt
      · have hstep : wifi_async_step K s .timer_expired = (s, []) := by
          simp [wifi_async_step, hrun]
        rw [hstep]
        have ih2 := ih s (calls ++ []) bits hg hb hrest
        constructor
        · rintro ⟨h1, _⟩
          exact absurd h1 hrun
        · intro _
          apply ih2.2
          rintro ⟨h1, _⟩
          exact absurd h1 hrun

/-- With a successful setup `wifi_init_sta` is its wait, entered in `wifi_statics_at_wait`,
followed by the choice of the status. -/
theorem wifi_init_sta_setup_ok (K : wifi_consts) (rate : Nat) (env : wifi_init_env)
    (s : wifi_statics_t)
    (hgroup : env.event_group_created = true) (hmode : env.set_mode_ret = ESP_OK)
    (hcfg : env.set_config_ret = ESP_OK) (htimer : env.timer_created = true) :
    wifi_init_sta K rate env s =
      { ret := (wifi_wait_bits K (K.WIFI_CONNECTED_BIT ||| K.WIFI_FAIL_BIT)
          (wifi_statics_at_wait rate env s) (wifi_calls_entering_wait K rate)
          env.during_wait).1.map (wifi_init_sta_status K)
        wait_bits := (wifi_wait_bits K (K.WIFI_CONNECTED_BIT ||| K.WIFI_FAIL_BIT)
          (wifi_statics_at_wait rate env s) (wifi_calls_entering_wait K rate)
          env.during_wait).1
        statics := (wifi_wait_bits K (K.WIFI_CONNECTED_BIT ||| K.WIFI_FAIL_BIT)
          (wifi_statics_at_wait rate env s) (wifi_calls_entering_wait K rate)
          env.during_wait).2.1
        calls := (wifi_wait_bits K (K.WIFI_CONNECTED_BIT ||| K.WIFI_FAIL_BIT)
          (wifi_statics_at_wait rate env s) (wifi_calls_entering_wait K rate)
          env.during_wait).2.2 } := by
  unfold wifi_init_sta
  simp [hgroup, hmode, hcfg, htimer, wifi_statics_at_wait, wifi_calls_entering_wait,
    priv_wifi_initialize_netif]

theorem wifi_init_sta_status_fail (K : wifi_consts)
    (hdisj : K.WIFI_CONNECTED_BIT &&& K.WIFI_FAIL_BIT = 0) :
    wifi_init_sta_status K K.WIFI_FAIL_BIT = ESP_FAIL := by
  unfold wifi_init_sta_status
  rw [Nat.and_comm, hdisj]
  simp

/-- C15: when the setup steps of `wifi_init_sta` succeed and no `IP_EVENT_STA_GOT_IP` is
delivered while it waits (the two flags being different bits, the failed one not empty),
the call is still blocked as long as the timer callback has not run, whatever other events
are delivered; the callback runs when the started timer expires, and then the call returns
`ESP_FAIL`, after the callback's `esp_wifi_stop` and `xEventGroupSetBits(WIFI_FAIL_BIT)`,
with the failed bit set in the event group. -/
theorem wifi_init_sta_timeout (K : wifi_consts) (rate : Nat) (env : wifi_init_env)
    (s : wifi_statics_t)
    (hF : K.WIFI_FAIL_BIT ≠ 0) (hdisj : K.WIFI_CONNECTED_BIT &&& K.WIFI_FAIL_BIT = 0)
    (hgroup : env.event_group_created = true) (hmode : env.set_mode_ret = ESP_OK)
    (hcfg : env.set_config_ret = ESP_OK) (htimer : env.timer_created = true)
    (hnoip : ∀ a ∈ env.during_wait, a.is_got_ip = false) :
    (¬ (env.timer_started = true ∧ wifi_async.timer_expired ∈ env.during_wait) →
      (wifi_init_sta K rate env s).ret = none) ∧
    ((env.timer_started = true ∧ wifi_async.timer_expired ∈ env.during_wait) →
      (wifi_init_sta K rate env s).ret = some ESP_FAIL ∧
      wifi_call.esp_wifi_stop ∈ (wifi_init_sta K rate env s).calls ∧
      wifi_call.xEventGroupSetBits K.WIFI_FAIL_BIT ∈ (wifi_init_sta K rate env s).calls ∧
      (wifi_init_sta K rate env s).statics.s_wifi_event_group = some K.WIFI_FAIL_BIT) ∧
    ((wifi_init_sta K rate env s).ret ≠ none →
      wifi_call.esp_wifi_stop ∈ (wifi_init_sta K rate env s).calls ∧
      wifi_call.xEventGroupSetBits K.WIFI_FAIL_BIT ∈ (wifi_init_sta K rate env s).calls) := by
  have hw := wifi_wait_bits_timeout K hF env.during_wait (wifi_statics_at_wait rate env s)
    (wifi_calls_entering_wait K rate) 0 rfl (Nat.zero_and _) hnoip
  have hres := (wifi_wait_bits_result K (K.WIFI_CONNECTED_BIT ||| K.WIFI_FAIL_BIT)
    env.during_wait (wifi_statics_at_wait rate env s) (wifi_calls_entering_wait K rate)).1
  have htm : (wifi_statics_at_wait rate env s).s_wifi_connect_timer = some true ↔
      env.timer_started = true := by
    simp [wifi_statics_at_wait]
  rw [wifi_init_sta_setup_ok K rate env s hgroup hmode hcfg htimer]
  have hret : (env.timer_started = true ∧ wifi_async.timer_expired ∈ env.during_wait) →
      (Option.map (wifi_init_sta_status K)
        (wifi_wait_bits K (K.WIFI_CONNECTED_BIT ||| K.WIFI_FAIL_BIT)
          (wifi_statics_at_wait rate env s) (wifi_calls_entering_wait K rate)
          env.during_wait).1 = some ESP_FAIL ∧
      wifi_call.esp_wifi_stop ∈ (wifi_wait_bits K (K.WIFI_CONNECTED_BIT ||| K.WIFI_FAIL_BIT)
          (wifi_statics_at_wait rate env s) (wifi_calls_entering_wait K rate)
          env.during_wait).2.2 ∧
      wifi_call.xEventGroupSetBits K.WIFI_FAIL_BIT ∈
        (wifi_wait_bits K (K.WIFI_CONNECTED_BIT ||| K.WIFI_FAIL_BIT)
          (wifi_statics_at_wait rate env s) (wifi_calls_entering_wait K rate)
          env.during_wait).2.2 ∧
      (wifi_wait_bits K (K.WIFI_CONNECTED_BIT ||| K.WIFI_FAIL_BIT)
          (wifi_statics_at_wait rate env s) (wifi_calls_entering_wait K rate)
          env.during_wait).2.1.s_wifi_event_group = some K.WIFI_FAIL_BIT) := by
    rintro ⟨h1, h2⟩
    obtain ⟨hb, hstop, hset⟩ := hw.1 ⟨htm.mpr h1, h2⟩
    refine ⟨?_, hstop, hset, ?_⟩
    · rw [hb, Nat.zero_or]
      simp [wifi_init_sta_status_fail K hdisj]
    · have := (hres _ hb).2
      rw [this, Nat.zero_or]
  have hnone : ¬ (env.timer_started = true ∧ wifi_async.timer_expired ∈ env.during_wait) →
      Option.map (wifi_init_sta_status K)
        (wifi_wait_bits K (K.WIFI_CONNECTED_BIT ||| K.WIFI_FAIL_BIT)
          (wifi_statics_at_wait rate env s) (wifi_calls_entering_wait K rate)
          env.during_wait).1 = none := by
    intro hnt
    have := hw.2 (fun h => hnt ⟨htm.mp h.1, h.2⟩)
    rw [this]
    rfl
  refine ⟨hnone, hret, ?_⟩
  intro hne
  by_cases hrun : env.timer_started = true ∧ wifi_async.timer_expired ∈ env.during_wait
  · exact ⟨(hret hrun).2.1, (hret hrun).2.2.1⟩
  · exact absurd (hnone hrun) hne

/-- The `IP_EVENT_STA_GOT_IP` branch adds the connected bit to the event group. -/
theorem priv_event_handler_got_ip_group (K : wifi_consts) (env : wifi_event_env)
    (s : wifi_statics_t) :
    (priv_event_handler K env .IP_EVENT IP_EVENT_STA_GOT_IP s).1.s_wifi_event_group =
      s.s_wifi_event_group.map (fun b => b ||| K.WIFI_CONNECTED_BIT) := by
  simp [priv_event_handler]

/-- Occurrences that set neither flag (no `IP_EVENT_STA_GOT_IP`, no expiry of a running
timer) are passed over by the wait: it goes on blocked with the same bits and the same
timer state. -/
theorem wifi_wait_bits_prefix (K : wifi_consts) (mask : Nat) (rest : List wifi_async)
    (pre : List wifi_async) :
    ∀ (s : wifi_statics_t) (calls : List wifi_call) (bits : Nat),
      s.s_wifi_event_group = some bits → bits &&& mask = 0 →
      (∀ a ∈ pre, a.is_got_ip = false) →
      ¬ (s.s_wifi_connect_timer = some true ∧ wifi_async.timer_expired ∈ pre) →
      ∃ s2 calls2, wifi_wait_bits K mask s calls (pre ++ rest) =
          wifi_wait_bits K mask s2 calls2 rest ∧
        s2.s_wifi_event_group = some bits ∧
        s2.s_wifi_connect_timer = s.s_wifi_connect_timer := by
  induction pre with
  | nil =>
    intro s calls bits hg _ _ _
    exact ⟨s, calls, rfl, hg, rfl⟩
  | cons a pre ih =>
    intro s calls bits hg hb hno hnt
    rw [List.cons_append, wifi_wait_bits_step K mask s calls a _
      (wifi_bits_ready_none mask s bits hg hb)]
    have hrest : ∀ x ∈ pre, x.is_got_ip = false := fun x hx => hno x (by simp [hx])
    cases a with
    | event env event_base event_id =>
      have hnot : ¬ (event_base = .IP_EVENT ∧ event_id = IP_EVENT_STA_GOT_IP) := by
        have := hno (.event env event_base event_id) (by simp)
        simpa [wifi_async.is_got_ip] using this
      obtain ⟨hg2, ht2⟩ := priv_event_handler_other K env event_base event_id s hnot
      have hg3 : (wifi_async_step K s (.event env event_base event_id)).1.s_wifi_event_group
          = some bits := by simp only [wifi_async_step]; rw [hg2, hg]
      have ht3 : (wifi_async_step K s (.event env event_base event_id)).1.s_wifi_connect_timer
          = s.s_wifi_connect_timer := by simp only [wifi_async_step]; exact ht2
      obtain ⟨s2, calls2, h1, h2, h3⟩ := ih _
        (calls ++ (wifi_async_step K s (.event env event_base event_id)).2) bits hg3 hb hrest
        (by rw [ht3]; exact fun h => hnt ⟨h.1, by simp [h.2]⟩)
      exact ⟨s2, calls2, h1, h2, h3.trans ht3⟩
    | timer_expired =>
      have hrun : ¬ s.s_wifi_connect_timer = some true := fun h => hnt ⟨h, by simp⟩
      have hstep : wifi_async_step K s .timer_expired = (s, []) := by
        simp [wifi_async_step, hrun]
      rw [hstep]
      exact ih s (calls ++ []) bits hg hb hrest (fun h => hnt ⟨h.1, by simp [h.2]⟩)

/-- The status for the connected bit alone. -/
theorem wifi_init_sta_status_connected (K : wifi_consts) (hC : K.WIFI_CONNECTED_BIT ≠ 0) :
    wifi_init_sta_status K K.WIFI_CONNECTED_BIT = ESP_OK := by
  unfold wifi_init_sta_status
  simp [Nat.and_self, hC]

/-- The wait, entered with no bit set, when the first occurrence that sets a flag is the
delivery of `IP_EVENT_STA_GOT_IP`: it returns the connected bit. -/
theorem wifi_wait_bits_got_ip (K : wifi_consts) (hC : K.WIFI_CONNECTED_BIT ≠ 0)
    (s : wifi_statics_t) (calls : List wifi_call) (pre post : List wifi_async)
    (env : wifi_event_env) (hg : s.s_wifi_event_group = some 0)
    (hno : ∀ a ∈ pre, a.is_got_ip = false)
    (hnt : ¬ (s.s_wifi_connect_timer = some true ∧ wifi_async.timer_expired ∈ pre)) :
    (wifi_wait_bits K (K.WIFI_CONNECTED_BIT ||| K.WIFI_FAIL_BIT) s calls
      (pre ++ .event env .IP_EVENT IP_EVENT_STA_GOT_IP :: post)).1
        = some K.WIFI_CONNECTED_BIT := by
  obtain ⟨s2, calls2, h1, h2, _⟩ := wifi_wait_bits_prefix K
    (K.WIFI_CONNECTED_BIT ||| K.WIFI_FAIL_BIT)
    (.event env .IP_EVENT IP_EVENT_STA_GOT_IP :: post) pre s calls 0 hg (Nat.zero_and _) hno hnt
  rw [h1, wifi_wait_bits_step K _ s2 calls2 _ post
    (wifi_bits_ready_none _ s2 0 h2 (Nat.zero_and _))]
  have hg3 : (wifi_async_step K s2 (.event env .IP_EVENT IP_EVENT_STA_GOT_IP)).1.s_wifi_event_group
      = some (0 ||| K.WIFI_CONNECTED_BIT) := by
    simp only [wifi_async_step]
    rw [priv_event_handler_got_ip_group, h2]
    rfl
  have hready : (0 ||| K.WIFI_CONNECTED_BIT) &&& (K.WIFI_CONNECTED_BIT ||| K.WIFI_FAIL_BIT)
      ≠ 0 := by
    rw [Nat.or_comm K.WIFI_CONNECTED_BIT K.WIFI_FAIL_BIT]
    exact flag_set_wakes 0 K.WIFI_FAIL_BIT K.WIFI_CONNECTED_BIT hC
  rw [wifi_wait_bits_woken K _ _ _ post (0 ||| K.WIFI_CONNECTED_BIT)
    ((wifi_bits_ready_some _ _ _).mpr ⟨hg3, hready⟩), Nat.zero_or]

/-- The wait, entered with no bit set and the timer running, when the first occurrence that
sets a flag is the expiry of the timer: it returns the failed bit. -/
theorem wifi_wait_bits_expiry (K : wifi_consts) (hF : K.WIFI_FAIL_BIT ≠ 0)
    (s : wifi_statics_t) (calls : List wifi_call) (pre post : List wifi_async)
    (hg : s.s_wifi_event_group = some 0) (hrun : s.s_wifi_connect_timer = some true)
    (hno : ∀ a ∈ pre, a.is_got_ip = false)
    (hnt : wifi_async.timer_expired ∉ pre) :
    (wifi_wait_bits K (K.WIFI_CONNECTED_BIT ||| K.WIFI_FAIL_BIT) s calls
      (pre ++ .timer_expired :: post)).1 = some K.WIFI_FAIL_BIT := by
  obtain ⟨s2, calls2, h1, h2, h3⟩ := wifi_wait_bits_prefix K
    (K.WIFI_CONNECTED_BIT ||| K.WIFI_FAIL_BIT)
    (.timer_expired :: post) pre s calls 0 hg (Nat.zero_and _) hno (fun h => hnt h.2)
  rw [h1, wifi_wait_bits_step K _ s2 calls2 _ post
    (wifi_bits_ready_none _ s2 0 h2 (Nat.zero_and _))]
  have hstep : wifi_async_step K s2 .timer_expired =
      priv_wifi_connect_timeout_cb K { s2 with s_wifi_connect_timer := some false } := by
    simp [wifi_async_step, h3, hrun]
  rw [hstep]
  have hg3 : (priv_wifi_connect_timeout_cb K
      { s2 with s_wifi_connect_timer := some false }).1.s_wifi_event_group
      = some (0 ||| K.WIFI_FAIL_BIT) := by
    simp [priv_wifi_connect_timeout_cb, h2]
  rw [wifi_wait_bits_woken K _ _ _ post (0 ||| K.WIFI_FAIL_BIT)
    ((wifi_bits_ready_some _ _ _).mpr
      ⟨hg3, flag_set_wakes 0 K.WIFI_CONNECTED_BIT K.WIFI_FAIL_BIT hF⟩), Nat.zero_or]

/-- C16: when the setup steps of `wifi_init_sta` succeed (the two flags being different,
non-empty bits), the call reaches `xEventGroupWaitBits` on both flags with `portMAX_DELAY`
and has a status exactly when that wait has returned. As long as no `IP_EVENT_STA_GOT_IP`
is delivered and the started timer has not expired, the call stays blocked, whatever else
happens. When the first occurrence that sets a flag is the delivery of
`IP_EVENT_STA_GOT_IP`, the wait returns the connected flag and the call returns `ESP_OK`;
when it is the expiry of the started timer, the wait returns the failed flag and the call
returns `ESP_FAIL`. Whenever the wait returns bits, these are the bits of the event group,
one of the two flags is among them, the status is `ESP_OK` exactly when the connected flag
is among them, and `ESP_FAIL` when the failed flag is and the connected flag is not. -/
theorem wifi_init_sta_wait_result (K : wifi_consts) (rate : Nat) (env : wifi_init_env)
    (s : wifi_statics_t)
    (hC : K.WIFI_CONNECTED_BIT ≠ 0) (hF : K.WIFI_FAIL_BIT ≠ 0)
    (hdisj : K.WIFI_CONNECTED_BIT &&& K.WIFI_FAIL_BIT = 0)
    (hgroup : env.event_group_created = true) (hmode : env.set_mode_ret = ESP_OK)
    (hcfg : env.set_config_ret = ESP_OK) (htimer : env.timer_created = true) :
    wifi_call.xEventGroupWaitBits (K.WIFI_CONNECTED_BIT ||| K.WIFI_FAIL_BIT) portMAX_DELAY ∈
      (wifi_init_sta K rate env s).calls ∧
    ((wifi_init_sta K rate env s).ret = none ↔ (wifi_init_sta K rate env s).wait_bits = none) ∧
    ((∀ a ∈ env.during_wait, a.is_got_ip = false) →
      ¬ (env.timer_started = true ∧ wifi_async.timer_expired ∈ env.during_wait) →
      (wifi_init_sta K rate env s).ret = none) ∧
    (∀ pre ev post,
      env.during_wait = pre ++ wifi_async.event ev .IP_EVENT IP_EVENT_STA_GOT_IP :: post →
      (∀ a ∈ pre, a.is_got_ip = false) →
      ¬ (env.timer_started = true ∧ wifi_async.timer_expired ∈ pre) →
      (wifi_init_sta K rate env s).wait_bits = some K.WIFI_CONNECTED_BIT ∧
      (wifi_init_sta K rate env s).ret = some ESP_OK) ∧
    (∀ pre post,
      env.during_wait = pre ++ wifi_async.timer_expired :: post →
      env.timer_started = true →
      (∀ a ∈ pre, a.is_got_ip = false) →
      wifi_async.timer_expired ∉ pre →
      (wifi_init_sta K rate env s).wait_bits = some K.WIFI_FAIL_BIT ∧
      (wifi_init_sta K rate env s).ret = some ESP_FAIL) ∧
    (∀ bits, (wifi_init_sta K rate env s).wait_bits = some bits →
      bits &&& (K.WIFI_CONNECTED_BIT ||| K.WIFI_FAIL_BIT) ≠ 0 ∧
      (wifi_init_sta K rate env s).statics.s_wifi_event_group = some bits ∧
      ((wifi_init_sta K rate env s).ret = some ESP_OK ↔ bits &&& K.WIFI_CONNECTED_BIT ≠ 0) ∧
      (bits &&& K.WIFI_FAIL_BIT ≠ 0 → bits &&& K.WIFI_CONNECTED_BIT = 0 →
        (wifi_init_sta K rate env s).ret = some ESP_FAIL)) := by
  obtain ⟨hres, extra, hextra⟩ := wifi_wait_bits_result K
    (K.WIFI_CONNECTED_BIT ||| K.WIFI_FAIL_BIT) env.during_wait
    (wifi_statics_at_wait rate env s) (wifi_calls_entering_wait K rate)
  have hFO : ESP_FAIL ≠ ESP_OK := by decide
  have hg0 : (wifi_statics_at_wait rate env s).s_wifi_event_group = some 0 := rfl
  have htm : (wifi_statics_at_wait rate env s).s_wifi_connect_timer = some true ↔
      env.timer_started = true := by
    simp [wifi_statics_at_wait]
  rw [wifi_init_sta_setup_ok K rate env s hgroup hmode hcfg htimer]
  refine ⟨?_, ?_, ?_, ?_, ?_, ?_⟩
  · show _ ∈ (wifi_wait_bits K _ _ _ _).2.2
    rw [hextra]
    simp [wifi_calls_entering_wait]
  · simp
  · intro hno hnt
    show Option.map _ (wifi_wait_bits K _ _ _ _).1 = none
    rw [(wifi_wait_bits_timeout K hF env.during_wait (wifi_statics_at_wait rate env s)
      (wifi_calls_entering_wait K rate) 0 hg0 (Nat.zero_and _) hno).2
      (fun h => hnt ⟨htm.mp h.1, h.2⟩)]
    rfl
  · intro pre ev post hsplit hno hnt
    have hw := wifi_wait_bits_got_ip K hC (wifi_statics_at_wait rate env s)
      (wifi_calls_entering_wait K rate) pre post ev hg0 hno
      (fun h => hnt ⟨htm.mp h.1, h.2⟩)
    rw [← hsplit] at hw
    refine ⟨hw, ?_⟩
    show Option.map _ (wifi_wait_bits K _ _ _ _).1 = some ESP_OK
    rw [hw]
    simp [wifi_init_sta_status_connected K hC]
  · intro pre post hsplit hstarted hno hnt
    have hw := wifi_wait_bits_expiry K hF (wifi_statics_at_wait rate env s)
      (wifi_calls_entering_wait K rate) pre post hg0 (htm.mpr hstarted) hno hnt
    rw [← hsplit] at hw
    refine ⟨hw, ?_⟩
    show Option.map _ (wifi_wait_bits K _ _ _ _).1 = some ESP_FAIL
    rw [hw]
    simp [wifi_init_sta_status_fail K hdisj]
  · intro bits hb
    have hb2 : (wifi_wait_bits K (K.WIFI_CONNECTED_BIT ||| K.WIFI_FAIL_BIT)
        (wifi_statics_at_wait rate env s) (wifi_calls_entering_wait K rate)
        env.during_wait).1 = some bits := hb
    refine ⟨(hres bits hb2).1, (hres bits hb2).2, ?_, ?_⟩
    · show Option.map _ (wifi_wait_bits K _ _ _ _).1 = some ESP_OK ↔ _
      rw [hb2]
      by_cases hc : bits &&& K.WIFI_CONNECTED_BIT = 0
      · simp [wifi_init_sta_status, hc, hFO]
      · simp [wifi_init_sta_status, hc]
    · intro hf hc
      show Option.map _ (wifi_wait_bits K _ _ _ _).1 = some ESP_FAIL
      rw [hb2]
      simp [wifi_init_sta_status, hc]

theorem wifi_init_sta_timeout_witness :
    (demo_wifi_consts.WIFI_FAIL_BIT ≠ 0 ∧
      demo_wifi_consts.WIFI_CONNECTED_BIT &&& demo_wifi_consts.WIFI_FAIL_BIT = 0 ∧
      (∀ a ∈ demo_wifi_silent, a.is_got_ip = false) ∧
      (∀ a ∈ demo_wifi_times_out, a.is_got_ip = false)) ∧
    (¬ ((demo_wifi_init_env demo_wifi_silent).timer_started = true ∧
        wifi_async.timer_expired ∈ (demo_wifi_init_env demo_wifi_silent).during_wait) ∧
      (wifi_init_sta demo_wifi_consts 1000 (demo_wifi_init_env demo_wifi_silent)
        demo_wifi_boot).ret = none) ∧
    (((demo_wifi_init_env demo_wifi_times_out).timer_started = true ∧
        wifi_async.timer_expired ∈ (demo_wifi_init_env demo_wifi_times_out).during_wait) ∧
      (wifi_init_sta demo_wifi_consts 1000 (demo_wifi_init_env demo_wifi_times_out)
        demo_wifi_boot).ret = some ESP_FAIL ∧
      wifi_call.esp_wifi_stop ∈ (wifi_init_sta demo_wifi_consts 1000
        (demo_wifi_init_env demo_wifi_times_out) demo_wifi_boot).calls ∧
      wifi_call.xEventGroupSetBits demo_wifi_consts.WIFI_FAIL_BIT ∈
        (wifi_init_sta demo_wifi_consts 1000 (demo_wifi_init_env demo_wifi_times_out)
          demo_wifi_boot).calls ∧
      (wifi_init_sta demo_wifi_consts 1000 (demo_wifi_init_env demo_wifi_times_out)
        demo_wifi_boot).statics.s_wifi_event_group = some demo_wifi_consts.WIFI_FAIL_BIT) :=
  ⟨⟨by decide, by decide, by decide, by decide⟩,
    ⟨by decide,
      (wifi_init_sta_timeout demo_wifi_consts 1000 (demo_wifi_init_env demo_wifi_silent)
        demo_wifi_boot (by decide) (by decide) rfl rfl rfl rfl (by decide)).1 (by decide)⟩,
    ⟨by decide,
      (wifi_init_sta_timeout demo_wifi_consts 1000 (demo_wifi_init_env demo_wifi_times_out)
        demo_wifi_boot (by decide) (by decide) rfl rfl rfl rfl (by decide)).2.1 (by decide)⟩⟩

theorem wifi_init_sta_wait_result_witness :
    (demo_wifi_consts.WIFI_CONNECTED_BIT ≠ 0 ∧ demo_wifi_consts.WIFI_FAIL_BIT ≠ 0 ∧
      demo_wifi_consts.WIFI_CONNECTED_BIT &&& demo_wifi_consts.WIFI_FAIL_BIT = 0) ∧
    ((demo_wifi_init_env demo_wifi_connects).event_group_created = true ∧
      (demo_wifi_init_env demo_wifi_connects).set_mode_ret = ESP_OK ∧
      (demo_wifi_init_env demo_wifi_connects).set_config_ret = ESP_OK ∧
      (demo_wifi_init_env demo_wifi_connects).timer_created = true) ∧
    wifi_call.xEventGroupWaitBits
      (demo_wifi_consts.WIFI_CONNECTED_BIT ||| demo_wifi_consts.WIFI_FAIL_BIT) portMAX_DELAY ∈
      (wifi_init_sta demo_wifi_consts 1000 (demo_wifi_init_env demo_wifi_connects)
        demo_wifi_boot).calls ∧
    ((wifi_init_sta demo_wifi_consts 1000 (demo_wifi_init_env demo_wifi_silent)
        demo_wifi_boot).ret = none) ∧
    ((wifi_init_sta demo_wifi_consts 1000 (demo_wifi_init_env demo_wifi_connects)
        demo_wifi_boot).wait_bits = some demo_wifi_consts.WIFI_CONNECTED_BIT ∧
      (wifi_init_sta demo_wifi_consts 1000 (demo_wifi_init_env demo_wifi_connects)
        demo_wifi_boot).ret = some ESP_OK) ∧
    ((wifi_init_sta demo_wifi_consts 1000 (demo_wifi_init_env demo_wifi_times_out)
        demo_wifi_boot).wait_bits = some demo_wifi_consts.WIFI_FAIL_BIT ∧
      (wifi_init_sta demo_wifi_consts 1000 (demo_wifi_init_env demo_wifi_times_out)
        demo_wifi_boot).ret = some ESP_FAIL) :=
  have t := wifi_init_sta_wait_result demo_wifi_consts 1000
    (demo_wifi_init_env demo_wifi_connects) demo_wifi_boot (by decide) (by decide) (by decide)
    rfl rfl rfl rfl
  have t0 := wifi_init_sta_wait_result demo_wifi_consts 1000
    (demo_wifi_init_env demo_wifi_silent) demo_wifi_boot (by decide) (by decide) (by decide)
    rfl rfl rfl rfl
  have t2 := wifi_init_sta_wait_result demo_wifi_consts 1000
    (demo_wifi_init_env demo_wifi_times_out) demo_wifi_boot (by decide) (by decide) (by decide)
    rfl rfl rfl rfl
  ⟨by decide, ⟨rfl, rfl, rfl, rfl⟩, t.1,
    t0.2.2.1 (by decide) (by decide),
    t.2.2.2.1 [.event demo_wifi_event_env .WIFI_EVENT WIFI_EVENT_STA_START]
      demo_wifi_event_env [] rfl (by decide) (by decide),
    t2.2.2.2.2.1 [.event (demo_wifi_event_at 31000) .WIFI_EVENT WIFI_EVENT_STA_START,
      .event (demo_wifi_event_at 32000) .WIFI_EVENT WIFI_EVENT_STA_DISCONNECTED] [] rfl rfl
      (by decide) (by decide)⟩

/-! ## `wifi_task`: the Supervisor across cycles -/

/-- `wifi_init_sta` does not look at the Supervisor state it finds: it constructs the
Supervisor anew before anything else. -/
theorem wifi_init_sta_forgets_supervisor (K : wifi_consts) (rate : Nat) (env : wifi_init_env)
    (s : wifi_statics_t) (h : error_handler_t) :
    wifi_init_sta K rate env { s with s_wifi_error_handler := h } =
      wifi_init_sta K rate env s := by
  rfl

/-- C12 on the code: in a first cycle of `wifi_task` the connection comes up, is found lost
at tick 20000 and the retry loop is licensed at tick 25000; the Supervisor then holds
`failure_count = 2`, `retry_interval = 4000`, `last_attempt_time = 25000`. The second cycle
starts with `wifi_init_sta`, which times out, and on its return the Supervisor is exactly
the freshly constructed one (`failure_count = 0`, `retry_interval = 1000`,
`last_attempt_time = 0`): the state accumulated by the earlier `record_status` calls is
gone, and at the end of the second cycle one failure is on record, not three. -/
theorem wifi_task_reinitialises_supervisor :
    (wifi_task_cycle demo_wifi_consts 1000 demo_wifi_cycle1 demo_wifi_boot).phase
      = .cycle_complete ∧
    (wifi_task_cycle demo_wifi_consts 1000 demo_wifi_cycle1
      demo_wifi_boot).statics.s_wifi_error_handler.failure_count = 2 ∧
    (wifi_task_cycle demo_wifi_consts 1000 demo_wifi_cycle1
      demo_wifi_boot).statics.s_wifi_error_handler.retry_interval = 4000 ∧
    (wifi_task_cycle demo_wifi_consts 1000 demo_wifi_cycle1
      demo_wifi_boot).statics.s_wifi_error_handler.last_attempt_time = 25000 ∧
    (wifi_init_sta demo_wifi_consts 1000 demo_wifi_cycle2.init
      (wifi_task_cycle demo_wifi_consts 1000 demo_wifi_cycle1 demo_wifi_boot).statics).ret
      = some ESP_FAIL ∧
    (wifi_init_sta demo_wifi_consts 1000 demo_wifi_cycle2.init
      (wifi_task_cycle demo_wifi_consts 1000 demo_wifi_cycle1
        demo_wifi_boot).statics).statics.s_wifi_error_handler = wifi_error_handler 1000 ∧
    (wifi_error_handler 1000).failure_count = 0 ∧
    (wifi_error_handler 1000).retry_interval = 1000 ∧
    (wifi_error_handler 1000).last_attempt_time = 0 ∧
    (wifi_task demo_wifi_consts 1000 demo_wifi_boot [demo_wifi_cycle1, demo_wifi_cycle2]).phase
      = .cycle_complete ∧
    (wifi_task demo_wifi_consts 1000 demo_wifi_boot
      [demo_wifi_cycle1, demo_wifi_cycle2]).statics.s_wifi_error_handler.failure_count = 1 ∧
    (wifi_task demo_wifi_consts 1000 demo_wifi_boot
      [demo_wifi_cycle1, demo_wifi_cycle2]).statics.s_wifi_error_handler.retry_interval
      = 2000 ∧
    ((wifi_task demo_wifi_consts 1000 demo_wifi_boot
      [demo_wifi_cycle1, demo_wifi_cycle2]).calls.count .error_handler_init) = 2 := by
  decide

/-! ## Connectivity monitor -/

theorem wifi_check_connection_calls (env : wifi_check_env) (s : wifi_statics_t) :
    ∀ c ∈ (wifi_check_connection env s).2, c.is_reset_step = false := by
  unfold wifi_check_connection
  split_ifs <;> simp [wifi_call.is_reset_step]

/-- No pass of the monitor loop makes a call of the full reset, and what `esp_wifi_connect`
returns has no influence on the pass. -/
theorem wifi_task_monitor_pass_no_reset (rate : Nat) (env : wifi_monitor_env)
    (s : wifi_statics_t) (connect_ret : esp_err_t) :
    (∀ c ∈ (wifi_task_monitor_pass rate env s).calls, c.is_reset_step = false) ∧
    (wifi_task_monitor_pass rate env s).statics.reset_in_progress = s.reset_in_progress ∧
    (wifi_task_monitor_pass rate env s).statics.s_wifi_event_group = s.s_wifi_event_group ∧
    wifi_task_monitor_pass rate { env with connect_ret := connect_ret } s =
      wifi_task_monitor_pass rate env s := by
  have hc := wifi_check_connection_calls env.check s
  refine ⟨?_, ?_, ?_, rfl⟩
  · unfold wifi_task_monitor_pass
    simp only
    by_cases h1 : (wifi_check_connection env.check s).1 ≠ ESP_OK
    · rw [if_pos h1]
      by_cases h2 : (error_handler_record_status s.s_wifi_error_handler
          ESP_ERR_WIFI_NOT_CONNECT env.now).2.code = ESP_OK
      · rw [if_pos h2]
        intro c hmem
        simp only [List.mem_append, List.mem_cons, List.mem_singleton, List.not_mem_nil,
          or_false] at hmem
        rcases hmem with (h | h) | h | h
        · subst h; rfl
        · exact hc c h
        · subst h; rfl
        · subst h; rfl
      · rw [if_neg h2]
        intro c hmem
        simp only [List.mem_append, List.mem_cons, List.mem_singleton, List.not_mem_nil,
          or_false] at hmem
        rcases hmem with (h | h) | h | h
        · subst h; rfl
        · exact hc c h
        · subst h; rfl
        · subst h; rfl
    · rw [if_neg h1]
      intro c hmem
      simp only [List.mem_append, List.mem_cons, List.mem_singleton, List.not_mem_nil,
        or_false] at hmem
      rcases hmem with h | h
      · subst h; rfl
      · exact hc c h
  · unfold wifi_task_monitor_pass
    simp only
    split_ifs <;> rfl
  · unfold wifi_task_monitor_pass
    simp only
    split_ifs <;> rfl

theorem wifi_task_retry_pass_no_reset (rate : Nat) (env : wifi_retry_env)
    (s : wifi_statics_t) :
    ∀ c ∈ (wifi_task_retry_pass rate env s).calls, c.is_reset_step = false := by
  unfold wifi_task_retry_pass
  simp only
  split_ifs <;> simp [wifi_call.is_reset_step]

/-- C17 on the code: after a successful `wifi_init_sta`, a monitor pass at tick 20000 finds
the link lost, `record_status` answers "proceed", and the direct `esp_wifi_connect` fails.
The pass makes exactly the calls delay, mode and access-point query, `record_status`,
`esp_wifi_connect`, and leaves the monitor loop; what follows in the cycle is the 5 s delay
and the retry loop with one more `record_status` and `esp_wifi_connect`: no stop, clear-bits
or start call, so no full reset follows the failed direct attempt. With "wait" instead, the pass makes no connect call, sleeps 5 s
and stays in the loop. -/
theorem wifi_monitor_no_reset_fallback :
    (wifi_init_sta demo_wifi_consts 1000 demo_wifi_cycle1.init demo_wifi_boot).ret
      = some ESP_OK ∧
    (wifi_check_connection (demo_wifi_link_lost 20000).check
      (wifi_init_sta demo_wifi_consts 1000 demo_wifi_cycle1.init demo_wifi_boot).statics).1
      ≠ ESP_OK ∧
    (error_handler_record_status
      (wifi_init_sta demo_wifi_consts 1000 demo_wifi_cycle1.init
        demo_wifi_boot).statics.s_wifi_error_handler ESP_ERR_WIFI_NOT_CONNECT 20000).2
      = .proceed ∧
    (demo_wifi_link_lost 20000).connect_ret ≠ ESP_OK ∧
    (wifi_task_monitor_pass 1000 (demo_wifi_link_lost 20000)
      (wifi_init_sta demo_wifi_consts 1000 demo_wifi_cycle1.init demo_wifi_boot).statics).calls
      = [.vTaskDelay 10000, .esp_wifi_get_mode, .esp_wifi_sta_get_ap_info,
          .error_handler_record_status ESP_ERR_WIFI_NOT_CONNECT, .esp_wifi_connect] ∧
    (wifi_task_monitor_pass 1000 (demo_wifi_link_lost 20000)
      (wifi_init_sta demo_wifi_consts 1000 demo_wifi_cycle1.init
        demo_wifi_boot).statics).left_loop = true ∧
    (wifi_task_cycle demo_wifi_consts 1000 demo_wifi_cycle1 demo_wifi_boot).phase
      = .cycle_complete ∧
    (wifi_task_cycle demo_wifi_consts 1000 demo_wifi_cycle1 demo_wifi_boot).calls =
      (wifi_init_sta demo_wifi_consts 1000 demo_wifi_cycle1.init demo_wifi_boot).calls ++
        [.time_manager_init,
          .vTaskDelay 10000, .esp_wifi_get_mode, .esp_wifi_sta_get_ap_info,
          .error_handler_record_status ESP_ERR_WIFI_NOT_CONNECT, .esp_wifi_connect,
          .vTaskDelay 5000,
          .error_handler_record_status ESP_ERR_WIFI_NOT_CONNECT, .esp_wifi_connect] ∧
    (wifi_task_monitor_pass 1000 (demo_wifi_link_lost 20500)
      (wifi_task_monitor_pass 1000 (demo_wifi_link_lost 20000)
        (wifi_init_sta demo_wifi_consts 1000 demo_wifi_cycle1.init
          demo_wifi_boot).statics).statics).calls
      = [.vTaskDelay 10000, .esp_wifi_get_mode, .esp_wifi_sta_get_ap_info,
          .error_handler_record_status ESP_ERR_WIFI_NOT_CONNECT, .vTaskDelay 5000] ∧
    (wifi_task_monitor_pass 1000 (demo_wifi_link_lost 20500)
      (wifi_task_monitor_pass 1000 (demo_wifi_link_lost 20000)
        (wifi_init_sta demo_wifi_consts 1000 demo_wifi_cycle1.init
          demo_wifi_boot).statics).statics).left_loop = false := by
  decide

/-! ## Persistence queue: rejections and stored text -/

/-- C18 (amended): each of the four rejection causes of `file_write_enqueue` yields a status
different from `ESP_OK`: a disabled writer yields `ESP_FAIL` whatever the arguments, a null
path or data on an enabled writer yields `ESP_ERR_INVALID_ARG`, and a queue that was never
created and a full queue both yield `ESP_FAIL`; so the status tells invalid arguments
apart from the other three causes, which share `ESP_FAIL`. -/
theorem file_write_enqueue_rejection_status (K : file_write_consts)
    (s1 s2 s3 s4 : file_write_manager_t) (timestamp : CStr)
    (fp1 d1 fp2 d2 : Option CStr) (p3 d3 p4 d4 : CStr)
    (q : QueueHandle_t file_write_request_t) :
    (s1.s_file_writer_config.enabled = false →
      (file_write_enqueue K s1 timestamp fp1 d1).ret = ESP_FAIL) ∧
    (s2.s_file_writer_config.enabled = true → (fp2 = none ∨ d2 = none) →
      (file_write_enqueue K s2 timestamp fp2 d2).ret = ESP_ERR_INVALID_ARG) ∧
    (s3.s_file_writer_config.enabled = true → s3.s_file_write_queue = none →
      (file_write_enqueue K s3 timestamp (some p3) (some d3)).ret = ESP_FAIL) ∧
    (s4.s_file_writer_config.enabled = true → s4.s_file_write_queue = some q →
      q.uxLength ≤ q.items.length →
      (file_write_enqueue K s4 timestamp (some p4) (some d4)).ret = ESP_FAIL) ∧
    ESP_FAIL ≠ ESP_OK ∧ ESP_ERR_INVALID_ARG ≠ ESP_OK ∧ ESP_ERR_INVALID_ARG ≠ ESP_FAIL := by
  refine ⟨?_, ?_, ?_, ?_, by decide, by decide, by decide⟩
  · intro h
    simp [file_write_enqueue, h]
  · intro h hnull
    rcases hnull with rfl | rfl
    · simp [file_write_enqueue, h]
    · cases fp2 <;> simp [file_write_enqueue, h]
  · intro h hq
    simp [file_write_enqueue, h, hq]
  · intro h hq hfull
    rw [file_write_enqueue_unfold K s4 timestamp p4 d4 q h hq]
    have : ¬ q.items.length < q.uxLength := by omega
    simp [this]

theorem file_write_enqueue_rejection_status_witness :
    (file_write_manager_statics.s_file_writer_config.enabled = false ∧
      (file_write_enqueue demo_consts file_write_manager_statics demo_timestamp
        (some "bh1750.txt".toList) (some "a".toList)).ret = ESP_FAIL) ∧
    ((demo_writer []).s_file_writer_config.enabled = true ∧
      ((none : Option CStr) = none ∨ some "a".toList = none) ∧
      (file_write_enqueue demo_consts (demo_writer []) demo_timestamp none
        (some "a".toList)).ret = ESP_ERR_INVALID_ARG) ∧
    (demo_enabled_statics.s_file_writer_config.enabled = true ∧
      demo_enabled_statics.s_file_write_queue = none ∧
      (file_write_enqueue demo_consts demo_enabled_statics demo_timestamp
        (some "bh1750.txt".toList) (some "a".toList)).ret = ESP_FAIL) ∧
    ((demo_writer demo_full_queue.items).s_file_writer_config.enabled = true ∧
      (demo_writer demo_full_queue.items).s_file_write_queue = some demo_full_queue ∧
      demo_full_queue.uxLength ≤ demo_full_queue.items.length ∧
      (file_write_enqueue demo_consts (demo_writer demo_full_queue.items) demo_timestamp
        (some "bh1750.txt".toList) (some "a".toList)).ret = ESP_FAIL) ∧
    ESP_FAIL ≠ ESP_OK ∧ ESP_ERR_INVALID_ARG ≠ ESP_OK ∧ ESP_ERR_INVALID_ARG ≠ ESP_FAIL :=
  have t := file_write_enqueue_rejection_status demo_consts file_write_manager_statics
    (demo_writer []) demo_enabled_statics (demo_writer demo_full_queue.items) demo_timestamp
    (some "bh1750.txt".toList) (some "a".toList) none (some "a".toList)
    "bh1750.txt".toList "a".toList "bh1750.txt".toList "a".toList demo_full_queue
  ⟨⟨rfl, t.1 rfl⟩, ⟨rfl, Or.inl rfl, t.2.1 rfl (Or.inl rfl)⟩, ⟨rfl, rfl, t.2.2.1 rfl rfl⟩,
    ⟨rfl, rfl, by decide, t.2.2.2.1 rfl rfl (by decide)⟩, t.2.2.2.2⟩

/-- C18, as stated, fails: a disabled writer, an enabled writer whose queue was never
created and an enabled writer whose queue is full all return the same status `ESP_FAIL` for
the same valid arguments, so the return value does not tell these three causes apart. -/
theorem file_write_enqueue_shared_status_counterexample :
    (file_write_enqueue demo_consts file_write_manager_statics demo_timestamp
      (some "bh1750.txt".toList) (some "a".toList)).ret = ESP_FAIL ∧
    (file_write_enqueue demo_consts demo_enabled_statics demo_timestamp
      (some "bh1750.txt".toList) (some "a".toList)).ret = ESP_FAIL ∧
    (file_write_enqueue demo_consts (demo_writer demo_full_queue.items) demo_timestamp
      (some "bh1750.txt".toList) (some "a".toList)).ret = ESP_FAIL ∧
    ¬ ((file_write_enqueue demo_consts file_write_manager_statics demo_timestamp
        (some "bh1750.txt".toList) (some "a".toList)).ret ≠
      (file_write_enqueue demo_consts (demo_writer demo_full_queue.items) demo_timestamp
        (some "bh1750.txt".toList) (some "a".toList)).ret) := by
  decide

/-- C19 (amended): in every state in which the queue was never created,
`file_write_enqueue` returns a failure and enqueues nothing (the statics are unchanged and
nothing is pending). The state left by `file_write_manager_init` on an enabled writer when
queue creation succeeded and task creation failed is not such a state: the initialiser
returns `ESP_FAIL` and stores no task handle, but the queue exists, and
`file_write_enqueue` with non-null arguments returns `ESP_OK` and queues the request. -/
theorem file_write_enqueue_without_consumer (K : file_write_consts)
    (s s0 : file_write_manager_t) (timestamp : CStr) (file_path data : Option CStr)
    (p0 d0 : CStr) (sd_card_ret : esp_err_t) :
    (s.s_file_write_queue = none →
      (file_write_enqueue K s timestamp file_path data).ret ≠ ESP_OK ∧
      (file_write_enqueue K s timestamp file_path data).state = s ∧
      pending_requests (file_write_enqueue K s timestamp file_path data).state = []) ∧
    (s0.s_file_writer_config.enabled = true →
      (file_write_manager_init s0 true false sd_card_ret).ret = ESP_FAIL ∧
      (file_write_manager_init s0 true false sd_card_ret).state.s_file_write_task_handle
        = s0.s_file_write_task_handle ∧
      (file_write_manager_init s0 true false sd_card_ret).state.s_file_write_queue
        = some (xQueueCreate max_pending_writes) ∧
      (file_write_enqueue K (file_write_manager_init s0 true false sd_card_ret).state
        timestamp (some p0) (some d0)).ret = ESP_OK ∧
      pending_requests (file_write_enqueue K
        (file_write_manager_init s0 true false sd_card_ret).state
        timestamp (some p0) (some d0)).state = [file_write_request K timestamp p0 d0]) := by
  have hFO : ESP_FAIL ≠ ESP_OK := by decide
  have hAO : ESP_ERR_INVALID_ARG ≠ ESP_OK := by decide
  constructor
  · intro hq
    have hp : pending_requests s = [] := by simp [pending_requests, hq]
    by_cases hen : s.s_file_writer_config.enabled = true
    · cases file_path <;> cases data <;> simp [file_write_enqueue, hen, hq, hFO, hAO, hp]
    · simp [file_write_enqueue, hen, hFO, hp]
  · intro hen
    have hinit : file_write_manager_init s0 true false sd_card_ret =
        { ret := ESP_FAIL,
          state := { s0 with s_file_write_queue := some (xQueueCreate max_pending_writes) } } := by
      simp [file_write_manager_init, hen]
    have hunf := file_write_enqueue_unfold K
      { s0 with s_file_write_queue := some (xQueueCreate max_pending_writes) }
      timestamp p0 d0 (xQueueCreate max_pending_writes) hen rfl
    rw [hinit]
    refine ⟨rfl, rfl, rfl, ?_, ?_⟩
    · show (file_write_enqueue K
        { s0 with s_file_write_queue := some (xQueueCreate max_pending_writes) }
        timestamp (some p0) (some d0)).ret = ESP_OK
      rw [hunf]
      simp [xQueueCreate, max_pending_writes]
    · show pending_requests (file_write_enqueue K
        { s0 with s_file_write_queue := some (xQueueCreate max_pending_writes) }
        timestamp (some p0) (some d0)).state = _
      rw [hunf]
      simp [xQueueCreate, max_pending_writes, xQueueSend, pending_requests]

theorem file_write_enqueue_without_consumer_witness :
    (file_write_manager_statics.s_file_write_queue = none ∧
      (file_write_enqueue demo_consts file_write_manager_statics demo_timestamp
        (some "bh1750.txt".toList) (some "a".toList)).ret ≠ ESP_OK ∧
      (file_write_enqueue demo_consts file_write_manager_statics demo_timestamp
        (some "bh1750.txt".toList) (some "a".toList)).state = file_write_manager_statics ∧
      pending_requests (file_write_enqueue demo_consts file_write_manager_statics
        demo_timestamp (some "bh1750.txt".toList) (some "a".toList)).state = []) ∧
    (demo_enabled_statics.s_file_writer_config.enabled = true ∧
      (file_write_manager_init demo_enabled_statics true false ESP_OK).ret = ESP_FAIL ∧
      (file_write_manager_init demo_enabled_statics true false
        ESP_OK).state.s_file_write_task_handle = demo_enabled_statics.s_file_write_task_handle ∧
      (file_write_manager_init demo_enabled_statics true false ESP_OK).state.s_file_write_queue
        = some (xQueueCreate max_pending_writes) ∧
      (file_write_enqueue demo_consts
        (file_write_manager_init demo_enabled_statics true false ESP_OK).state
        demo_timestamp (some "bh1750.txt".toList) (some "a".toList)).ret = ESP_OK ∧
      pending_requests (file_write_enqueue demo_consts
        (file_write_manager_init demo_enabled_statics true false ESP_OK).state
        demo_timestamp (some "bh1750.txt".toList) (some "a".toList)).state =
        [file_write_request demo_consts demo_timestamp "bh1750.txt".toList "a".toList]) :=
  have t := file_write_enqueue_without_consumer demo_consts file_write_manager_statics
    demo_enabled_statics demo_timestamp (some "bh1750.txt".toList) (some "a".toList)
    "bh1750.txt".toList "a".toList ESP_OK
  ⟨⟨rfl, t.1 rfl⟩, ⟨rfl, t.2 rfl⟩⟩

/-- C19, as stated, fails: on an enabled writer `file_write_manager_init` with the queue
created and the task creation failing returns `ESP_FAIL` and leaves no task handle, so the
consumer task was never started; `file_write_enqueue` then returns `ESP_OK` and one request
is pending. -/
theorem file_write_enqueue_task_never_started_counterexample :
    (file_write_manager_init demo_enabled_statics true false ESP_OK).ret = ESP_FAIL ∧
    (file_write_manager_init demo_enabled_statics true false
      ESP_OK).state.s_file_write_task_handle = none ∧
    (file_write_enqueue demo_consts
      (file_write_manager_init demo_enabled_statics true false ESP_OK).state
      demo_timestamp (some "bh1750.txt".toList) (some "a".toList)).ret = ESP_OK ∧
    (pending_requests (file_write_enqueue demo_consts
      (file_write_manager_init demo_enabled_statics true false ESP_OK).state
      demo_timestamp (some "bh1750.txt".toList) (some "a".toList)).state).length = 1 := by
  decide

/-- C20 (amended): for every request accepted by `file_write_enqueue` with path `p` and
payload `d`, the stored destination is the first `MAX_FILE_PATH_LENGTH - 1` characters of
mount root, slash, `p`, and the stored data is the first `MAX_DATA_LENGTH - 1` characters of
timestamp, space, `d`, newline. When these texts are shorter than their buffers they are
stored whole, and then, if neither the timestamp nor `d` contains a newline, the stored
data is one line: its only newline is its last character. -/
theorem file_write_enqueue_stored_text (K : file_write_consts) (s : file_write_manager_t)
    (timestamp p d : CStr)
    (hok : (file_write_enqueue K s timestamp (some p) (some d)).ret = ESP_OK) :
    pending_requests (file_write_enqueue K s timestamp (some p) (some d)).state =
      pending_requests s ++ [file_write_request K timestamp p d] ∧
    (file_write_request K timestamp p d).file_path =
      (K.sd_card_mount_path ++ ['/'] ++ p).take (K.MAX_FILE_PATH_LENGTH - 1) ∧
    (file_write_request K timestamp p d).data =
      (timestamp ++ [' '] ++ d ++ ['\n']).take (K.MAX_DATA_LENGTH - 1) ∧
    ((K.sd_card_mount_path ++ ['/'] ++ p).length < K.MAX_FILE_PATH_LENGTH →
      (file_write_request K timestamp p d).file_path = K.sd_card_mount_path ++ ['/'] ++ p) ∧
    ((timestamp ++ [' '] ++ d ++ ['\n']).length < K.MAX_DATA_LENGTH →
      (file_write_request K timestamp p d).data = timestamp ++ [' '] ++ d ++ ['\n'] ∧
      ('\n' ∉ timestamp → '\n' ∉ d →
        (file_write_request K timestamp p d).data.count '\n' = 1 ∧
        (file_write_request K timestamp p d).data.getLast? = some '\n')) := by
  refine ⟨?_, rfl, rfl, ?_, ?_⟩
  · rcases file_write_enqueue_cases K s timestamp (some p) (some d) with
      ⟨_, p', d', hp, hd, hpend⟩ | ⟨hno, _⟩
    · cases hp
      cases hd
      exact hpend
    · exact absurd hok hno
  · intro hlen
    simp only [file_write_request, snprintf]
    exact List.take_of_length_le (by omega)
  · intro hlen
    have hd : (file_write_request K timestamp p d).data = timestamp ++ [' '] ++ d ++ ['\n'] := by
      simp only [file_write_request, snprintf]
      exact List.take_of_length_le (by omega)
    refine ⟨hd, ?_⟩
    intro ht hdn
    rw [hd]
    refine ⟨?_, List.getLast?_concat _⟩
    simp [List.count_append, List.count_eq_zero_of_not_mem ht,
      List.count_eq_zero_of_not_mem hdn]

theorem file_write_enqueue_stored_text_witness :
    (file_write_enqueue demo_consts (demo_writer []) demo_timestamp
      (some "bh1750.txt".toList) (some "A".toList)).ret = ESP_OK ∧
    pending_requests (file_write_enqueue demo_consts (demo_writer []) demo_timestamp
      (some "bh1750.txt".toList) (some "A".toList)).state =
      pending_requests (demo_writer []) ++
        [file_write_request demo_consts demo_timestamp "bh1750.txt".toList "A".toList] ∧
    (file_write_request demo_consts demo_timestamp "bh1750.txt".toList "A".toList).file_path =
      (demo_consts.sd_card_mount_path ++ ['/'] ++ "bh1750.txt".toList).take
        (demo_consts.MAX_FILE_PATH_LENGTH - 1) ∧
    (file_write_request demo_consts demo_timestamp "bh1750.txt".toList "A".toList).data =
      (demo_timestamp ++ [' '] ++ "A".toList ++ ['\n']).take (demo_consts.MAX_DATA_LENGTH - 1) ∧
    ((demo_consts.sd_card_mount_path ++ ['/'] ++ "bh1750.txt".toList).length
        < demo_consts.MAX_FILE_PATH_LENGTH ∧
      (file_write_request demo_consts demo_timestamp "bh1750.txt".toList "A".toList).file_path
        = demo_consts.sd_card_mount_path ++ ['/'] ++ "bh1750.txt".toList) ∧
    ((demo_timestamp ++ [' '] ++ "A".toList ++ ['\n']).length < demo_consts.MAX_DATA_LENGTH ∧
      (file_write_request demo_consts demo_timestamp "bh1750.txt".toList "A".toList).data
        = demo_timestamp ++ [' '] ++ "A".toList ++ ['\n'] ∧
      '\n' ∉ demo_timestamp ∧ '\n' ∉ "A".toList ∧
      (file_write_request demo_consts demo_timestamp "bh1750.txt".toList
        "A".toList).data.count '\n' = 1 ∧
      (file_write_request demo_consts demo_timestamp "bh1750.txt".toList
        "A".toList).data.getLast? = some '\n') :=
  have t := file_write_enqueue_stored_text demo_consts (demo_writer []) demo_timestamp
    "bh1750.txt".toList "A".toList (by decide)
  ⟨by decide, t.1, t.2.1, t.2.2.1, ⟨by decide, t.2.2.2.1 (by decide)⟩,
    ⟨by decide, (t.2.2.2.2 (by decide)).1, by decide, by decide,
      ((t.2.2.2.2 (by decide)).2 (by decide) (by decide)).1,
      ((t.2.2.2.2 (by decide)).2 (by decide) (by decide)).2⟩⟩

set_option maxRecDepth 20000 in
/-- C20, as stated, fails: with 256-byte data and 64-byte path buffers, an accepted request
with a 300-character payload is stored as 255 characters that are not the timestamp, a
space, the payload and a newline (the stored text has no newline at all), and an accepted
request with a 100-character path is stored under a 63-character destination that is not
mount root, slash, path. -/
theorem file_write_enqueue_truncation_counterexample :
    (file_write_enqueue demo_consts (demo_writer []) demo_timestamp
      (some "bh1750.txt".toList) (some (List.replicate 300 'x'))).ret = ESP_OK ∧
    pending_requests (file_write_enqueue demo_consts (demo_writer []) demo_timestamp
      (some "bh1750.txt".toList) (some (List.replicate 300 'x'))).state =
      [file_write_request demo_consts demo_timestamp "bh1750.txt".toList
        (List.replicate 300 'x')] ∧
    (file_write_request demo_consts demo_timestamp "bh1750.txt".toList
      (List.replicate 300 'x')).data.length = 255 ∧
    (file_write_request demo_consts demo_timestamp "bh1750.txt".toList
      (List.replicate 300 'x')).data ≠
      demo_timestamp ++ [' '] ++ List.replicate 300 'x' ++ ['\n'] ∧
    (file_write_request demo_consts demo_timestamp "bh1750.txt".toList
      (List.replicate 300 'x')).data.count '\n' = 0 ∧
    (file_write_enqueue demo_consts (demo_writer []) demo_timestamp
      (some (List.replicate 100 'p')) (some "A".toList)).ret = ESP_OK ∧
    pending_requests (file_write_enqueue demo_consts (demo_writer []) demo_timestamp
      (some (List.replicate 100 'p')) (some "A".toList)).state =
      [file_write_request demo_consts demo_timestamp (List.replicate 100 'p') "A".toList] ∧
    (file_write_request demo_consts demo_timestamp (List.replicate 100 'p')
      "A".toList).file_path.length = 63 ∧
    (file_write_request demo_consts demo_timestamp (List.replicate 100 'p')
      "A".toList).file_path ≠
      demo_consts.sd_card_mount_path ++ ['/'] ++ List.replicate 100 'p' := by
  decide

/-! ## Persistence consumer: failed open and short write -/

/-- C21: with a request `req` at the head of the queue and `nxt` behind it, a consumer pass
whose `fopen` fails writes nothing (every file is as before), reports the failed open and
leaves exactly the requests behind `req` pending: `req` is neither kept nor queued again, and
the state is the one in which the queue holds only the requests behind it. The next pass
writes `nxt` in full to its destination. A pass whose `fwrite` comes up short appends the
bytes that were written, reports the incomplete write, removes `req` all the same, and the
next pass writes `nxt` in full. -/
theorem priv_file_write_task_failure_skips (s : storage_t)
    (q : QueueHandle_t file_write_request_t) (req nxt : file_write_request_t)
    (rest : List file_write_request_t) (short : Nat)
    (hq : s.writer.s_file_write_queue = some q) (hitems : q.items = req :: nxt :: rest)
    (hshort : req.data.length - short ≠ req.data.length) :
    (priv_file_write_task_pass false short s).1.files = s.files ∧
    (priv_file_write_task_pass false short s).2 = some (.open_failed req.file_path) ∧
    pending_requests (priv_file_write_task_pass false short s).1.writer = nxt :: rest ∧
    (priv_file_write_task_pass false short s).1 =
      { s with writer := { s.writer with
          s_file_write_queue := some { q with items := nxt :: rest } } } ∧
    (∀ f, (priv_file_write_task_pass true 0
        (priv_file_write_task_pass false short s).1).1.files f =
      s.files f ++ payload_for f [nxt]) ∧
    pending_requests (priv_file_write_task_pass true 0
      (priv_file_write_task_pass false short s).1).1.writer = rest ∧
    (priv_file_write_task_pass true short s).2 =
      some (.write_incomplete (req.data.length - short) req.data.length req.file_path) ∧
    (∀ f, (priv_file_write_task_pass true short s).1.files f =
      s.files f ++
        (if f = req.file_path then req.data.take (req.data.length - short) else [])) ∧
    pending_requests (priv_file_write_task_pass true short s).1.writer = nxt :: rest ∧
    (∀ f, (priv_file_write_task_pass true 0
        (priv_file_write_task_pass true short s).1).1.files f =
      (priv_file_write_task_pass true short s).1.files f ++ payload_for f [nxt]) ∧
    pending_requests (priv_file_write_task_pass true 0
      (priv_file_write_task_pass true short s).1).1.writer = rest := by
  have hfail : (priv_file_write_task_pass false short s) =
      ({ s with writer := { s.writer with
          s_file_write_queue := some { q with items := nxt :: rest } } },
        some (.open_failed req.file_path)) := by
    unfold priv_file_write_task_pass
    simp [hq, hitems]
  have hshortw : (priv_file_write_task_pass true short s) =
      ({ writer := { s.writer with
          s_file_write_queue := some { q with items := nxt :: rest } },
         files := fun p => if p = req.file_path then
            s.files p ++ req.data.take (req.data.length - short) else s.files p },
        some (.write_incomplete (req.data.length - short) req.data.length req.file_path)) := by
    unfold priv_file_write_task_pass
    simp [hq, hitems, hshort]
  have hnext : ∀ (files : CStr → CStr),
      priv_file_write_task_pass true 0
        { writer := { s.writer with
            s_file_write_queue := some { q with items := nxt :: rest } }, files := files } =
      ({ writer := { s.writer with s_file_write_queue := some { q with items := rest } },
         files := fun p => if p = nxt.file_path then files p ++ nxt.data else files p },
        some (.write_successful nxt.data.length nxt.file_path)) := by
    intro files
    unfold priv_file_write_task_pass
    simp
  rw [hfail, hshortw]
  simp only [hnext]
  refine ⟨trivial, trivial, rfl, trivial, ?_, rfl, trivial, ?_, rfl, ?_, rfl⟩
  · intro f
    rw [payload_for_single]
    by_cases hf : f = nxt.file_path <;> simp [hf]
  · intro f
    by_cases hf : f = req.file_path <;> simp [hf]
  · intro f
    rw [payload_for_single]
    by_cases hf : f = nxt.file_path <;> simp [hf]

theorem priv_file_write_task_failure_skips_witness :
    demo_two_pending.writer.s_file_write_queue =
      some (QueueHandle_t.mk max_pending_writes [demo_request 5, demo_request 3]) ∧
    (demo_request 5).data.length - 2 ≠ (demo_request 5).data.length ∧
    pending_requests (priv_file_write_task_pass false 2 demo_two_pending).1.writer =
      [demo_request 3] ∧
    pending_requests (priv_file_write_task_pass true 0
      (priv_file_write_task_pass false 2 demo_two_pending).1).1.writer = [] ∧
    pending_requests (priv_file_write_task_pass true 0
      (priv_file_write_task_pass true 2 demo_two_pending).1).1.writer = [] :=
  ⟨rfl, by decide,
    (priv_file_write_task_failure_skips demo_two_pending
      (QueueHandle_t.mk max_pending_writes [demo_request 5, demo_request 3])
      (demo_request 5) (demo_request 3) [] 2 rfl rfl (by decide)).2.2.1,
    (priv_file_write_task_failure_skips demo_two_pending
      (QueueHandle_t.mk max_pending_writes [demo_request 5, demo_request 3])
      (demo_request 5) (demo_request 3) [] 2 rfl rfl (by decide)).2.2.2.2.2.1,
    (priv_file_write_task_failure_skips demo_two_pending
      (QueueHandle_t.mk max_pending_writes [demo_request 5, demo_request 3])
      (demo_request 5) (demo_request 3) [] 2 rfl rfl (by decide)).2.2.2.2.2.2.2.2.2.2⟩

/-! ## MPU6050: interrupt handler -/

/-- Invoking the handler once more adds its calls to the trace. -/
theorem mpu6050_interrupts_snoc (wakes : List Bool) (w : Bool) (d : mpu6050_data_t) :
    mpu6050_interrupts (wakes ++ [w]) d =
      ((priv_mpu6050_interrupt_handler w (mpu6050_interrupts wakes d).1).1,
        (mpu6050_interrupts wakes d).2 ++
          (priv_mpu6050_interrupt_handler w (mpu6050_interrupts wakes d).1).2) := by
  simp [mpu6050_interrupts, List.foldl_append]

/-- C22: one invocation of `priv_mpu6050_interrupt_handler` leaves the sensor record
(readings, state, handle) as it was, gives the semaphore exactly once and first, yields
exactly when the give woke a higher-priority task, and makes no other call: no logging, no
allocation, no take or delay. Over any number of interrupts the record is unchanged, the
semaphore was given once per interrupt and every call was a give or a yield. -/
theorem priv_mpu6050_interrupt_handler_semaphore_only (woken : Bool) (d : mpu6050_data_t)
    (wakes : List Bool) :
    (priv_mpu6050_interrupt_handler woken d).1 = d ∧
    (priv_mpu6050_interrupt_handler woken d).2.count .xSemaphoreGiveFromISR = 1 ∧
    (priv_mpu6050_interrupt_handler woken d).2.head? = some .xSemaphoreGiveFromISR ∧
    ((priv_mpu6050_interrupt_handler woken d).2.count .portYIELD_FROM_ISR =
      if woken = true then 1 else 0) ∧
    (∀ c ∈ (priv_mpu6050_interrupt_handler woken d).2, c.is_semaphore_op = true) ∧
    (mpu6050_interrupts wakes d).1 = d ∧
    (mpu6050_interrupts wakes d).2.count .xSemaphoreGiveFromISR = wakes.length ∧
    (∀ c ∈ (mpu6050_interrupts wakes d).2, c.is_semaphore_op = true) := by
  have h1 : ∀ (w : Bool) (x : mpu6050_data_t),
      (priv_mpu6050_interrupt_handler w x).1 = x ∧
      (priv_mpu6050_interrupt_handler w x).2.count .xSemaphoreGiveFromISR = 1 ∧
      (priv_mpu6050_interrupt_handler w x).2.head? = some .xSemaphoreGiveFromISR ∧
      ((priv_mpu6050_interrupt_handler w x).2.count .portYIELD_FROM_ISR =
        if w = true then 1 else 0) ∧
      (∀ c ∈ (priv_mpu6050_interrupt_handler w x).2, c.is_semaphore_op = true) := by
    intro w x
    cases w <;> simp [priv_mpu6050_interrupt_handler, isr_call.is_semaphore_op]
  have hrun : ∀ ws : List Bool, (mpu6050_interrupts ws d).1 = d ∧
      (mpu6050_interrupts ws d).2.count .xSemaphoreGiveFromISR = ws.length ∧
      (∀ c ∈ (mpu6050_interrupts ws d).2, c.is_semaphore_op = true) := by
    intro ws
    induction ws using List.reverseRecOn with
    | nil => simp [mpu6050_interrupts]
    | append_singleton l w ih =>
      rw [mpu6050_interrupts_snoc]
      obtain ⟨i1, i2, i3⟩ := ih
      obtain ⟨a1, a2, _, _, a5⟩ := h1 w (mpu6050_interrupts l d).1
      refine ⟨by rw [a1, i1], ?_, ?_⟩
      · simp only [List.count_append, i2, a2, List.length_append, List.length_singleton]
      · intro c hc
        rcases List.mem_append.mp hc with h | h
        · exact i3 c h
        · exact a5 c h
  obtain ⟨a1, a2, a3, a4, a5⟩ := h1 woken d
  exact ⟨a1, a2, a3, a4, a5, hrun wakes⟩

/-! ## Persistence queue: the compiled configuration -/

/-- Every function of `file_write_manager.c` leaves `s_file_writer_config` as it found it. -/
theorem s_file_writer_config_never_modified (K : file_write_consts) (s : file_write_manager_t)
    (queue_created task_created : Bool) (sd_card_ret : esp_err_t) (timestamp : CStr)
    (file_path data : Option CStr) (files : CStr → CStr) (ok : Bool) (short : Nat) :
    (file_write_manager_init s queue_created task_created sd_card_ret).state.s_file_writer_config
      = s.s_file_writer_config ∧
    (file_write_enqueue K s timestamp file_path data).state.s_file_writer_config
      = s.s_file_writer_config ∧
    (priv_file_write_task_pass ok short
      { writer := s, files := files }).1.writer.s_file_writer_config
      = s.s_file_writer_config := by
  refine ⟨?_, ?_, ?_⟩
  · unfold file_write_manager_init
    simp only
    split_ifs <;> rfl
  · unfold file_write_enqueue
    split_ifs
    · rfl
    · cases file_path <;> cases data <;> simp only
      cases s.s_file_write_queue <;> simp only
      split_ifs <;> rfl
  · unfold priv_file_write_task_pass
    cases hq : s.s_file_write_queue with
    | none => simp [hq]
    | some q =>
      simp only [hq]
      cases hi : q.items with
      | nil => simp
      | cons a l =>
        simp only
        split_ifs <;> rfl

/-- C23: from the statics as compiled (`s_file_writer_config = { 3, 4096, false }`),
`file_write_manager_init` returns `ESP_OK` whatever `xQueueCreate`, `xTaskCreate` and
`sd_card_init` would have answered, and leaves the queue and task handles `NULL`;
`file_write_enqueue` then returns `ESP_FAIL` for every path and data, null ones included
(not the `ESP_ERR_INVALID_ARG` of the argument check), with nothing pending afterwards; and
over any sequence of producer calls and consumer passes the configuration stays as
compiled, no request is accepted, the queue stays `NULL` and no file changes. -/
theorem file_writer_compiled_disabled (K : file_write_consts)
    (queue_created task_created : Bool) (sd_card_ret : esp_err_t) (timestamp : CStr)
    (file_path data : Option CStr) (files : CStr → CStr) (acts : List storage_action) :
    file_write_manager_statics.s_file_writer_config =
      { priority := 3, stack_depth := 4096, enabled := false } ∧
    (file_write_manager_init file_write_manager_statics queue_created task_created
      sd_card_ret).ret = ESP_OK ∧
    (file_write_manager_init file_write_manager_statics queue_created task_created
      sd_card_ret).state.s_file_write_queue = none ∧
    (file_write_manager_init file_write_manager_statics queue_created task_created
      sd_card_ret).state.s_file_write_task_handle = none ∧
    (file_write_enqueue K (file_write_manager_init file_write_manager_statics queue_created
      task_created sd_card_ret).state timestamp file_path data).ret = ESP_FAIL ∧
    (file_write_enqueue K (file_write_manager_init file_write_manager_statics queue_created
      task_created sd_card_ret).state timestamp none none).ret = ESP_FAIL ∧
    ESP_FAIL ≠ ESP_ERR_INVALID_ARG ∧
    pending_requests (file_write_enqueue K (file_write_manager_init file_write_manager_statics
      queue_created task_created sd_card_ret).state timestamp file_path data).state = [] ∧
    (storage_run K (storage_run_t.mk (storage_t.mk (file_write_manager_init
      file_write_manager_statics queue_created task_created sd_card_ret).state files) [] [])
      acts).accepted = [] ∧
    (storage_run K (storage_run_t.mk (storage_t.mk (file_write_manager_init
      file_write_manager_statics queue_created task_created sd_card_ret).state files) [] [])
      acts).storage.writer.s_file_write_queue = none ∧
    (storage_run K (storage_run_t.mk (storage_t.mk (file_write_manager_init
      file_write_manager_statics queue_created task_created sd_card_ret).state files) [] [])
      acts).storage.writer.s_file_writer_config =
        { priority := 3, stack_depth := 4096, enabled := false } ∧
    (∀ f, (storage_run K (storage_run_t.mk (storage_t.mk (file_write_manager_init
      file_write_manager_statics queue_created task_created sd_card_ret).state files) [] [])
      acts).storage.files f = files f) := by
  have hinit : (file_write_manager_init file_write_manager_statics queue_created task_created
      sd_card_ret) = { ret := ESP_OK, state := file_write_manager_statics } := by
    simp [file_write_manager_init, file_write_manager_statics]
  have henq : ∀ ts p d, file_write_enqueue K file_write_manager_statics ts p d =
      { ret := ESP_FAIL, state := file_write_manager_statics, ticks_blocked := 0 } := by
    intro ts p d
    simp [file_write_enqueue, file_write_manager_statics]
  have hne : ESP_FAIL ≠ ESP_OK := by decide
  have hne2 : ESP_FAIL ≠ ESP_ERR_INVALID_ARG := by decide
  have hstep : ∀ (a : storage_action) (ev : List file_write_event),
      storage_step K (storage_run_t.mk (storage_t.mk file_write_manager_statics files) [] ev) a =
        storage_run_t.mk (storage_t.mk file_write_manager_statics files) [] ev := by
    intro a ev
    cases a with
    | enqueue ts p d =>
      simp only [storage_step, henq, if_neg hne]
    | consume ok short =>
      simp [storage_step, priv_file_write_task_pass, file_write_manager_statics]
  have hrun : ∀ (l : List storage_action),
      storage_run K (storage_run_t.mk (storage_t.mk file_write_manager_statics files) [] []) l =
        storage_run_t.mk (storage_t.mk file_write_manager_statics files) [] [] := by
    intro l
    induction l with
    | nil => rfl
    | cons a l ih =>
      unfold storage_run at ih ⊢
      rw [List.foldl_cons, hstep, ih]
  rw [hinit]
  simp only [henq, hrun]
  simp [file_write_manager_statics, pending_requests, hne2]

/-! ## MPU6050: range checks of `mpu6050_read` -/

/-- Two bytes combined high byte first: `(hi << 8) | lo` is `256 * hi + lo`. -/
theorem shift_or_bytes (hi lo : Nat) :
    (((hi % 256) <<< 8) ||| (lo % 256)) % 65536 = 256 * (hi % 256) + lo % 256 := by
  have hlo : lo % 256 < 2 ^ 8 := by norm_num; exact Nat.mod_lt _ (by norm_num)
  have h := Nat.mul_add_lt_is_or hlo (hi % 256)
  rw [Nat.shiftLeft_eq, Nat.mul_comm, ← h]
  have : hi % 256 < 256 := Nat.mod_lt _ (by norm_num)
  have : lo % 256 < 256 := Nat.mod_lt _ (by norm_num)
  norm_num
  omega

/-- The value of `int16_of_bytes` is the two's-complement reading of the big-endian pair. -/
theorem int16_of_bytes_eq (hi lo : Nat) :
    int16_of_bytes hi lo =
      if 256 * (hi % 256) + lo % 256 < 32768 then ((256 * (hi % 256) + lo % 256 : Nat) : Int)
      else ((256 * (hi % 256) + lo % 256 : Nat) : Int) - 65536 := by
  unfold int16_of_bytes
  simp only [shift_or_bytes]

theorem int16_of_bytes_range (hi lo : Nat) :
    -32768 ≤ int16_of_bytes hi lo ∧ int16_of_bytes hi lo ≤ 32767 := by
  rw [int16_of_bytes_eq]
  have : hi % 256 < 256 := Nat.mod_lt _ (by norm_num)
  have : lo % 256 < 256 := Nat.mod_lt _ (by norm_num)
  split_ifs <;> omega

/-- The accelerometer range check never fires on a 16-bit raw value. -/
theorem accel_check_never (r : Int) (h1 : -32768 ≤ r) (h2 : r ≤ 32767) :
    ¬ |(r : ℚ) / 8192| > 4 := by
  have a1 : (-32768 : ℚ) ≤ (r : ℚ) := by exact_mod_cast h1
  have a2 : (r : ℚ) ≤ 32767 := by exact_mod_cast h2
  rw [not_lt, abs_le]
  constructor
  · rw [le_div_iff₀ (by norm_num)]; linarith
  · rw [div_le_iff₀ (by norm_num)]; linarith

/-- The gyroscope range check fires exactly outside `[-32750, 32750]`. -/
theorem gyro_check_iff (r : Int) :
    |(r : ℚ) / (131 / 2)| > 500 ↔ ¬ (-32750 ≤ r ∧ r ≤ 32750) := by
  rw [gt_iff_lt, lt_abs, not_and_or, not_le, not_le]
  constructor
  · rintro (h | h)
    · right
      rw [lt_div_iff₀ (by norm_num)] at h
      have : (32750 : ℚ) < (r : ℚ) := by linarith
      exact_mod_cast this
    · left
      rw [lt_neg, div_lt_iff₀ (by norm_num)] at h
      have : (r : ℚ) < (-32750 : ℚ) := by linarith
      exact_mod_cast this
  · rintro (h | h)
    · right
      have : (r : ℚ) < (-32750 : ℚ) := by exact_mod_cast h
      rw [lt_neg, div_lt_iff₀ (by norm_num)]
      linarith
    · left
      have : (32750 : ℚ) < (r : ℚ) := by exact_mod_cast h
      rw [lt_div_iff₀ (by norm_num)]
      linarith

/-- The table rows selected by the two configuration indices: 8192 LSB/g and 65.5 LSB per
degree/s. -/
theorem mpu6050_scales_selected :
    mpu6050_accel_scales.getD mpu6050_accel_config_idx 0 = 8192 ∧
    mpu6050_gyro_scales.getD mpu6050_gyro_config_idx 0 = 131 / 2 := by
  simp [mpu6050_accel_scales, mpu6050_gyro_scales, mpu6050_accel_config_idx,
    mpu6050_gyro_config_idx]

/-- With both bus reads successful the status of `mpu6050_read_record` is decided by the
gyroscope check alone. -/
theorem mpu6050_read_record_bus_ok (C : mpu6050_enum_t) (env : mpu6050_read_env)
    (d : mpu6050_data_t) (ha : env.accel_ret = ESP_OK) (hg : env.gyro_ret = ESP_OK) :
    mpu6050_read_record C env d =
      if (-32750 ≤ int16_of_bytes (env.gyro_data.getD 0 0) (env.gyro_data.getD 1 0) ∧
            int16_of_bytes (env.gyro_data.getD 0 0) (env.gyro_data.getD 1 0) ≤ 32750) ∧
          (-32750 ≤ int16_of_bytes (env.gyro_data.getD 2 0) (env.gyro_data.getD 3 0) ∧
            int16_of_bytes (env.gyro_data.getD 2 0) (env.gyro_data.getD 3 0) ≤ 32750) ∧
          (-32750 ≤ int16_of_bytes (env.gyro_data.getD 4 0) (env.gyro_data.getD 5 0) ∧
            int16_of_bytes (env.gyro_data.getD 4 0) (env.gyro_data.getD 5 0) ≤ 32750) then
        (ESP_OK, { d with
          accel_x := int16_of_bytes (env.accel_data.getD 0 0) (env.accel_data.getD 1 0) / 8192
          accel_y := int16_of_bytes (env.accel_data.getD 2 0) (env.accel_data.getD 3 0) / 8192
          accel_z := int16_of_bytes (env.accel_data.getD 4 0) (env.accel_data.getD 5 0) / 8192
          gyro_x := int16_of_bytes (env.gyro_data.getD 0 0) (env.gyro_data.getD 1 0) / (131 / 2)
          gyro_y := int16_of_bytes (env.gyro_data.getD 2 0) (env.gyro_data.getD 3 0) / (131 / 2)
          gyro_z := int16_of_bytes (env.gyro_data.getD 4 0) (env.gyro_data.getD 5 0) / (131 / 2)
          state := C.k_mpu6050_data_updated % 256 })
      else (ESP_FAIL, { d with state := C.k_mpu6050_error % 256 }) := by
  unfold mpu6050_read_record
  have hacc : ∀ hi lo, ¬ |((int16_of_bytes hi lo : Int) : ℚ) / 8192| > 4 := fun hi lo =>
    accel_check_never _ (int16_of_bytes_range hi lo).1 (int16_of_bytes_range hi lo).2
  simp only [ha, hg, ne_eq, not_true_eq_false, if_false, mpu6050_scales_selected.1,
    mpu6050_scales_selected.2, hacc, false_or, gyro_check_iff]
  generalize int16_of_bytes (env.gyro_data.getD 0 0) (env.gyro_data.getD 1 0) = gx
  generalize int16_of_bytes (env.gyro_data.getD 2 0) (env.gyro_data.getD 3 0) = gy
  generalize int16_of_bytes (env.gyro_data.getD 4 0) (env.gyro_data.getD 5 0) = gz
  by_cases h1 : (-32750 ≤ gx ∧ gx ≤ 32750) <;>
  by_cases h2 : (-32750 ≤ gy ∧ gy ≤ 32750) <;>
  by_cases h3 : (-32750 ≤ gz ∧ gz ≤ 32750) <;>
  simp only [h1, h2, h3, not_true_eq_false, not_false_eq_true, or_self, or_true, true_or,
    if_true, if_false, and_self, and_true, true_and, and_false, false_and]

/-- C24: when both bus reads succeed, `mpu6050_read` returns `ESP_OK` exactly when each of
the three gyroscope raw values lies in `[-32750, 32750]`, whatever the six accelerometer
bytes are. The raw value of a byte pair is its big-endian two's-complement reading; the
gyroscope check (raw / 65.5 beyond 500 in magnitude) fires exactly outside that interval,
and the accelerometer check (raw / 8192 beyond 4 in magnitude) fires for no byte pair. -/
theorem mpu6050_read_ok_iff_gyro_in_range (C : mpu6050_enum_t) (env : mpu6050_read_env)
    (d : mpu6050_data_t) (ha : env.accel_ret = ESP_OK) (hg : env.gyro_ret = ESP_OK) :
    ((mpu6050_read C env (some d)).1 = ESP_OK ↔
      (-32750 ≤ int16_of_bytes (env.gyro_data.getD 0 0) (env.gyro_data.getD 1 0) ∧
        int16_of_bytes (env.gyro_data.getD 0 0) (env.gyro_data.getD 1 0) ≤ 32750) ∧
      (-32750 ≤ int16_of_bytes (env.gyro_data.getD 2 0) (env.gyro_data.getD 3 0) ∧
        int16_of_bytes (env.gyro_data.getD 2 0) (env.gyro_data.getD 3 0) ≤ 32750) ∧
      (-32750 ≤ int16_of_bytes (env.gyro_data.getD 4 0) (env.gyro_data.getD 5 0) ∧
        int16_of_bytes (env.gyro_data.getD 4 0) (env.gyro_data.getD 5 0) ≤ 32750)) ∧
    (∀ hi lo : Nat, ¬ |((int16_of_bytes hi lo : Int) : ℚ) /
        mpu6050_accel_scales.getD mpu6050_accel_config_idx 0| > 4) ∧
    (∀ hi lo : Nat, |((int16_of_bytes hi lo : Int) : ℚ) /
        mpu6050_gyro_scales.getD mpu6050_gyro_config_idx 0| > 500 ↔
      ¬ (-32750 ≤ int16_of_bytes hi lo ∧ int16_of_bytes hi lo ≤ 32750)) ∧
    mpu6050_accel_scales.getD mpu6050_accel_config_idx 0 = 8192 ∧
    mpu6050_gyro_scales.getD mpu6050_gyro_config_idx 0 = 131 / 2 ∧
    (∀ hi lo : Nat, hi < 256 → lo < 256 →
      int16_of_bytes hi lo =
        if 256 * hi + lo < 32768 then ((256 * hi + lo : Nat) : Int)
        else ((256 * hi + lo : Nat) : Int) - 65536) := by
  have hne : ESP_FAIL ≠ ESP_OK := by decide
  refine ⟨?_, ?_, ?_, mpu6050_scales_selected.1, mpu6050_scales_selected.2, ?_⟩
  · show (mpu6050_read_record C env d).1 = ESP_OK ↔ _
    rw [mpu6050_read_record_bus_ok C env d ha hg]
    split_ifs with h
    · exact ⟨fun _ => h, fun _ => rfl⟩
    · exact ⟨fun e => absurd e hne, fun e => absurd e h⟩
  · intro hi lo
    rw [mpu6050_scales_selected.1]
    exact accel_check_never _ (int16_of_bytes_range hi lo).1 (int16_of_bytes_range hi lo).2
  · intro hi lo
    rw [mpu6050_scales_selected.2]
    exact gyro_check_iff _
  · intro hi lo h1 h2
    rw [int16_of_bytes_eq, Nat.mod_eq_of_lt h1, Nat.mod_eq_of_lt h2]

theorem mpu6050_read_ok_iff_gyro_in_range_witness :
    demo_mpu6050_env_ok.read.accel_ret = ESP_OK ∧
    demo_mpu6050_env_ok.read.gyro_ret = ESP_OK ∧
    ((mpu6050_read demo_mpu6050_enum demo_mpu6050_env_ok.read (some demo_mpu6050_data)).1
        = ESP_OK ↔
      (-32750 ≤ int16_of_bytes (demo_mpu6050_env_ok.read.gyro_data.getD 0 0)
          (demo_mpu6050_env_ok.read.gyro_data.getD 1 0) ∧
        int16_of_bytes (demo_mpu6050_env_ok.read.gyro_data.getD 0 0)
          (demo_mpu6050_env_ok.read.gyro_data.getD 1 0) ≤ 32750) ∧
      (-32750 ≤ int16_of_bytes (demo_mpu6050_env_ok.read.gyro_data.getD 2 0)
          (demo_mpu6050_env_ok.read.gyro_data.getD 3 0) ∧
        int16_of_bytes (demo_mpu6050_env_ok.read.gyro_data.getD 2 0)
          (demo_mpu6050_env_ok.read.gyro_data.getD 3 0) ≤ 32750) ∧
      (-32750 ≤ int16_of_bytes (demo_mpu6050_env_ok.read.gyro_data.getD 4 0)
          (demo_mpu6050_env_ok.read.gyro_data.getD 5 0) ∧
        int16_of_bytes (demo_mpu6050_env_ok.read.gyro_data.getD 4 0)
          (demo_mpu6050_env_ok.read.gyro_data.getD 5 0) ≤ 32750)) :=
  ⟨rfl, rfl,
    (mpu6050_read_ok_iff_gyro_in_range demo_mpu6050_enum demo_mpu6050_env_ok.read
      demo_mpu6050_data rfl rfl).1⟩

/-! ## MPU6050: `mpu6050_init` -/

/-- A chip that answers the identity read with anything but the expected value makes
`mpu6050_init` return the status of the read, `ESP_OK`, from the verification branch: the
state is still `k_mpu6050_uninitialized`, no semaphore was created and no handler added. -/
theorem mpu6050_init_identity_mismatch (C : mpu6050_enum_t) (R : mpu6050_reg_t) (rate : Nat)
    (env : mpu6050_init_env) (d : mpu6050_data_t)
    (h1 : env.i2c_init_ret = ESP_OK) (h2 : env.power_on_ret = ESP_OK)
    (h3 : env.reset_ret = ESP_OK) (h4 : env.wake_ret = ESP_OK)
    (h5 : env.smplrt_div_ret = ESP_OK) (h6 : env.config_ret = ESP_OK)
    (h7 : env.gyro_config_ret = ESP_OK) (h8 : env.accel_config_ret = ESP_OK)
    (h9 : env.who_am_i_ret = ESP_OK)
    (hid : env.who_am_i % 256 ≠ R.k_mpu6050_who_am_i_response) :
    (mpu6050_init C R rate env d).1 = ESP_OK ∧
    (mpu6050_init C R rate env d).2.1.state = C.k_mpu6050_uninitialized % 256 ∧
    (mpu6050_init C R rate env d).2.1.data_ready_sem = d.data_ready_sem ∧
    .xSemaphoreCreateBinary ∉ (mpu6050_init C R rate env d).2.2 ∧
    .gpio_isr_handler_add mpu6050_int_io ∉ (mpu6050_init C R rate env d).2.2 := by
  unfold mpu6050_init
  simp [h1, h2, h3, h4, h5, h6, h7, h8, h9, hid]

/-- C25 on the code: every bus write succeeds and the identity read succeeds with the
response `0x00` instead of `0x68`. `mpu6050_init` returns `ESP_OK`; the state is
`k_mpu6050_uninitialized`, not `k_mpu6050_ready`, the semaphore handle is still `NULL`, and
neither `xSemaphoreCreateBinary` nor `gpio_isr_handler_add` was called. With the response
`0x68` the same calls end in `ESP_OK` with state `k_mpu6050_ready`, a semaphore and the
handler added. -/
theorem mpu6050_init_wrong_identity_returns_ok :
    (demo_mpu6050_init_env 0x00).who_am_i_ret = ESP_OK ∧
    (demo_mpu6050_init_env 0x00).who_am_i % 256 ≠ demo_mpu6050_reg.k_mpu6050_who_am_i_response ∧
    (mpu6050_init demo_mpu6050_enum demo_mpu6050_reg 1000 (demo_mpu6050_init_env 0x00)
      demo_mpu6050_blank).1 = ESP_OK ∧
    (mpu6050_init demo_mpu6050_enum demo_mpu6050_reg 1000 (demo_mpu6050_init_env 0x00)
      demo_mpu6050_blank).2.1.state = demo_mpu6050_enum.k_mpu6050_uninitialized ∧
    (mpu6050_init demo_mpu6050_enum demo_mpu6050_reg 1000 (demo_mpu6050_init_env 0x00)
      demo_mpu6050_blank).2.1.state ≠ demo_mpu6050_enum.k_mpu6050_ready ∧
    (mpu6050_init demo_mpu6050_enum demo_mpu6050_reg 1000 (demo_mpu6050_init_env 0x00)
      demo_mpu6050_blank).2.1.data_ready_sem = none ∧
    .xSemaphoreCreateBinary ∉ (mpu6050_init demo_mpu6050_enum demo_mpu6050_reg 1000
      (demo_mpu6050_init_env 0x00) demo_mpu6050_blank).2.2 ∧
    .gpio_isr_handler_add mpu6050_int_io ∉ (mpu6050_init demo_mpu6050_enum demo_mpu6050_reg 1000
      (demo_mpu6050_init_env 0x00) demo_mpu6050_blank).2.2 ∧
    (mpu6050_init demo_mpu6050_enum demo_mpu6050_reg 1000 (demo_mpu6050_init_env 0x68)
      demo_mpu6050_blank).1 = ESP_OK ∧
    (mpu6050_init demo_mpu6050_enum demo_mpu6050_reg 1000 (demo_mpu6050_init_env 0x68)
      demo_mpu6050_blank).2.1.state = demo_mpu6050_enum.k_mpu6050_ready ∧
    (mpu6050_init demo_mpu6050_enum demo_mpu6050_reg 1000 (demo_mpu6050_init_env 0x68)
      demo_mpu6050_blank).2.1.data_ready_sem = some () ∧
    .gpio_isr_handler_add mpu6050_int_io ∈ (mpu6050_init demo_mpu6050_enum demo_mpu6050_reg 1000
      (demo_mpu6050_init_env 0x68) demo_mpu6050_blank).2.2 := by
  decide

/-! ## MPU6050: state and frame of `mpu6050_read` -/

/-- C26: with the state values fitting the `uint8_t` field, a call of `mpu6050_read` on a
non-null record that returns `ESP_FAIL` leaves the record as it was except for the state,
which is `k_mpu6050_error` (the six readings are unchanged); a call that returns `ESP_OK`
leaves the state `k_mpu6050_data_updated`; every call returns one of the two; and a call
with a null record returns `ESP_FAIL`. -/
theorem mpu6050_read_state_and_frame (C : mpu6050_enum_t) (env : mpu6050_read_env)
    (d : mpu6050_data_t) (herr : C.k_mpu6050_error < 256)
    (hupd : C.k_mpu6050_data_updated < 256) :
    ((mpu6050_read C env (some d)).1 = ESP_FAIL →
      (mpu6050_read C env (some d)).2 = some { d with state := C.k_mpu6050_error }) ∧
    ((mpu6050_read C env (some d)).1 = ESP_OK →
      ∃ d2, (mpu6050_read C env (some d)).2 = some d2 ∧
        d2.state = C.k_mpu6050_data_updated) ∧
    ((mpu6050_read C env (some d)).1 = ESP_OK ∨
      (mpu6050_read C env (some d)).1 = ESP_FAIL) ∧
    mpu6050_read C env none = (ESP_FAIL, none) := by
  have hne : ESP_FAIL ≠ ESP_OK := by decide
  have hne2 : ESP_OK ≠ ESP_FAIL := by decide
  refine ⟨?_, ?_, ?_, rfl⟩
  · show (mpu6050_read_record C env d).1 = ESP_FAIL →
      some (mpu6050_read_record C env d).2 = some { d with state := C.k_mpu6050_error }
    unfold mpu6050_read_record
    simp only
    split_ifs <;> intro h <;>
      first
        | exact absurd h hne2
        | simp only [Nat.mod_eq_of_lt herr]
  · show (mpu6050_read_record C env d).1 = ESP_OK →
      ∃ d2, some (mpu6050_read_record C env d).2 = some d2 ∧
        d2.state = C.k_mpu6050_data_updated
    unfold mpu6050_read_record
    simp only
    split_ifs <;> intro h <;>
      first
        | exact absurd h hne
        | exact ⟨_, rfl, Nat.mod_eq_of_lt hupd⟩
  · show (mpu6050_read_record C env d).1 = ESP_OK ∨ (mpu6050_read_record C env d).1 = ESP_FAIL
    unfold mpu6050_read_record
    simp only
    split_ifs <;> simp

theorem mpu6050_read_state_and_frame_witness :
    demo_mpu6050_enum.k_mpu6050_error < 256 ∧
    demo_mpu6050_enum.k_mpu6050_data_updated < 256 ∧
    (mpu6050_read demo_mpu6050_enum demo_mpu6050_env_range.read (some demo_mpu6050_data)).1
        = ESP_FAIL ∧
    (mpu6050_read demo_mpu6050_enum demo_mpu6050_env_range.read (some demo_mpu6050_data)).2
        = some { demo_mpu6050_data with state := demo_mpu6050_enum.k_mpu6050_error } ∧
    (mpu6050_read demo_mpu6050_enum demo_mpu6050_env_ok.read (some demo_mpu6050_data)).1
        = ESP_OK ∧
    (∃ d2, (mpu6050_read demo_mpu6050_enum demo_mpu6050_env_ok.read
          (some demo_mpu6050_data)).2 = some d2 ∧
        d2.state = demo_mpu6050_enum.k_mpu6050_data_updated) :=
  ⟨by decide, by decide, demo_mpu6050_range_read.1,
    (mpu6050_read_state_and_frame demo_mpu6050_enum demo_mpu6050_env_range.read
      demo_mpu6050_data (by decide) (by decide)).1 demo_mpu6050_range_read.1,
    demo_mpu6050_ok_read,
    (mpu6050_read_state_and_frame demo_mpu6050_enum demo_mpu6050_env_ok.read
      demo_mpu6050_data (by decide) (by decide)).2.1 demo_mpu6050_ok_read⟩

/-! ## BH1750: reset callback and read -/

/-- C27: with the state values fitting the `uint8_t` field, `priv_bh1750_reset` returns
`ESP_OK` exactly when all three bus writes succeed and otherwise the status of the first
write that failed; the bytes it writes are, in order, the power-on, reset and
continuous-low-resolution commands up to and including the first failing write, none after
it; and the state it leaves is `k_bh1750_ready` when all succeeded and otherwise the error
of the failing step (`k_bh1750_power_on_error`, `k_bh1750_reset_error`,
`k_bh1750_cont_low_res_error`), the rest of the record unchanged. -/
theorem priv_bh1750_reset_sequence (C : bh1750_enum_t) (rate : Nat) (env : bh1750_reset_env)
    (d : bh1750_data_t) (hready : C.k_bh1750_ready < 256)
    (hpow : C.k_bh1750_power_on_error < 256) (hres : C.k_bh1750_reset_error < 256)
    (hmode : C.k_bh1750_cont_low_res_error < 256) :
    ((priv_bh1750_reset C rate env d).1 = ESP_OK ↔
      env.power_on_ret = ESP_OK ∧ env.reset_ret = ESP_OK ∧ env.cont_low_res_ret = ESP_OK) ∧
    (priv_bh1750_reset C rate env d).1 =
      (if env.power_on_ret ≠ ESP_OK then env.power_on_ret
       else if env.reset_ret ≠ ESP_OK then env.reset_ret
       else env.cont_low_res_ret) ∧
    (priv_bh1750_reset C rate env d).2.1 =
      { d with state :=
        if env.power_on_ret ≠ ESP_OK then C.k_bh1750_power_on_error
        else if env.reset_ret ≠ ESP_OK then C.k_bh1750_reset_error
        else if env.cont_low_res_ret ≠ ESP_OK then C.k_bh1750_cont_low_res_error
        else C.k_bh1750_ready } ∧
    (priv_bh1750_reset C rate env d).2.2.filterMap task_call.written_byte =
      (if env.power_on_ret ≠ ESP_OK then [C.k_bh1750_power_on_cmd]
       else if env.reset_ret ≠ ESP_OK then [C.k_bh1750_power_on_cmd, C.k_bh1750_reset_cmd]
       else [C.k_bh1750_power_on_cmd, C.k_bh1750_reset_cmd,
         C.k_bh1750_cont_low_res_mode_cmd]) := by
  unfold priv_bh1750_reset
  by_cases h1 : env.power_on_ret = ESP_OK
  · by_cases h2 : env.reset_ret = ESP_OK
    · by_cases h3 : env.cont_low_res_ret = ESP_OK
      · simp [h1, h2, h3, task_call.written_byte, Nat.mod_eq_of_lt hready]
      · simp [h1, h2, h3, task_call.written_byte, Nat.mod_eq_of_lt hmode]
    · simp [h1, h2, task_call.written_byte, Nat.mod_eq_of_lt hres]
  · simp [h1, task_call.written_byte, Nat.mod_eq_of_lt hpow]

theorem priv_bh1750_reset_sequence_witness :
    (demo_bh1750_enum.k_bh1750_ready < 256 ∧ demo_bh1750_enum.k_bh1750_power_on_error < 256 ∧
      demo_bh1750_enum.k_bh1750_reset_error < 256 ∧
      demo_bh1750_enum.k_bh1750_cont_low_res_error < 256) ∧
    ((priv_bh1750_reset demo_bh1750_enum 1000 demo_reset_second_write_fails
        demo_bh1750_data).1 = ESP_OK ↔
      demo_reset_second_write_fails.power_on_ret = ESP_OK ∧
        demo_reset_second_write_fails.reset_ret = ESP_OK ∧
        demo_reset_second_write_fails.cont_low_res_ret = ESP_OK) ∧
    ((priv_bh1750_reset demo_bh1750_enum 1000 demo_bh1750_env_ok.reset
        demo_bh1750_data).1 = ESP_OK ↔
      demo_bh1750_env_ok.reset.power_on_ret = ESP_OK ∧
        demo_bh1750_env_ok.reset.reset_ret = ESP_OK ∧
        demo_bh1750_env_ok.reset.cont_low_res_ret = ESP_OK) :=
  ⟨by decide,
    (priv_bh1750_reset_sequence demo_bh1750_enum 1000 demo_reset_second_write_fails
      demo_bh1750_data (by decide) (by decide) (by decide) (by decide)).1,
    (priv_bh1750_reset_sequence demo_bh1750_enum 1000 demo_bh1750_env_ok.reset
      demo_bh1750_data (by decide) (by decide) (by decide) (by decide)).1⟩

/-! ## C `float` arithmetic: accuracy of a division -/

/-- No digits in zero, whatever the fuel. -/
theorem bit_length_aux_zero (fuel : Nat) : bit_length_aux fuel 0 = 0 := by
  cases fuel <;> simp [bit_length_aux]

/-- With enough fuel the digit count `b` of a positive `n` satisfies `2^(b-1) ≤ n < 2^b`. -/
theorem bit_length_aux_bounds (fuel : Nat) : ∀ n, n ≤ fuel → 0 < n →
    2 ^ (bit_length_aux fuel n - 1) ≤ n ∧ n < 2 ^ bit_length_aux fuel n := by
  induction fuel with
  | zero => intro n h1 h2; omega
  | succ fuel ih =>
    intro n h1 h2
    have hn : n ≠ 0 := by omega
    simp only [bit_length_aux, hn, if_false, Nat.add_sub_cancel]
    by_cases h : n / 2 = 0
    · rw [h, bit_length_aux_zero]
      have : n = 1 := by omega
      subst this
      simp
    · have hpos : 0 < n / 2 := Nat.pos_of_ne_zero h
      obtain ⟨i1, i2⟩ := ih (n / 2) (by omega) hpos
      have hb : 1 ≤ bit_length_aux fuel (n / 2) := by
        by_contra hc
        have h0 : bit_length_aux fuel (n / 2) = 0 := by omega
        rw [h0] at i2
        simp at i2
        omega
      have hp : 2 ^ bit_length_aux fuel (n / 2) = 2 * 2 ^ (bit_length_aux fuel (n / 2) - 1) := by
        rw [← pow_succ']
        congr 1
        omega
      rw [pow_succ]
      constructor <;> omega

/-- The digit count `b` of a positive `n` satisfies `2^(b-1) ≤ n < 2^b`. -/
theorem bit_length_bounds (n : Nat) (h : 0 < n) :
    2 ^ (bit_length n - 1) ≤ n ∧ n < 2 ^ bit_length n ∧ 1 ≤ bit_length n := by
  obtain ⟨h1, h2⟩ := bit_length_aux_bounds n n (le_refl n) h
  refine ⟨h1, h2, ?_⟩
  by_contra hc
  have h0 : bit_length_aux n n = 0 := by unfold bit_length at hc; omega
  rw [h0] at h2
  simp at h2
  omega

/-- A power of two with an integer exponent as a quotient of two natural powers. -/
theorem two_zpow_eq (e : Int) : (2 : ℚ) ^ e = (2 : ℚ) ^ e.toNat / (2 : ℚ) ^ (-e).toNat := by
  rcases le_or_lt 0 e with h | h
  · have h2 : (-e).toNat = 0 := by omega
    rw [h2, pow_zero, div_one]
    conv_lhs => rw [← Int.toNat_of_nonneg h]
    rw [zpow_natCast]
  · have h2 : e.toNat = 0 := by omega
    rw [h2, pow_zero, one_div]
    have h3 : e = -((-e).toNat : Int) := by omega
    conv_lhs => rw [h3]
    rw [zpow_neg, zpow_natCast]

/-- The exponent found is not above the quotient. -/
theorem binary32_exponent_le (num den : Nat) (hn : 0 < num) (hd : 0 < den) :
    (2 : ℚ) ^ binary32_exponent num den ≤ (num : ℚ) / den := by
  obtain ⟨a1, a2, a3⟩ := bit_length_bounds num hn
  obtain ⟨b1, b2, b3⟩ := bit_length_bounds den hd
  have hdq : (0 : ℚ) < den := by exact_mod_cast hd
  have key : ∀ e : Int, den * 2 ^ e.toNat ≤ num * 2 ^ (-e).toNat →
      (2 : ℚ) ^ e ≤ (num : ℚ) / den := by
    intro e he
    rw [two_zpow_eq, div_le_div_iff₀ (by positivity) hdq]
    have : ((den * 2 ^ e.toNat : Nat) : ℚ) ≤ ((num * 2 ^ (-e).toNat : Nat) : ℚ) := by
      exact_mod_cast he
    push_cast at this
    linarith
  unfold binary32_exponent
  simp only
  split_ifs with ht
  · exact key _ ht
  · apply key
    rcases le_or_lt (bit_length den + 1) (bit_length num) with h | h
    · have e1 : ((bit_length num : Int) - (bit_length den : Int) - 1).toNat
          = bit_length num - 1 - bit_length den := by omega
      have e2 : (-((bit_length num : Int) - (bit_length den : Int) - 1)).toNat = 0 := by omega
      rw [e1, e2, pow_zero, Nat.mul_one]
      calc den * 2 ^ (bit_length num - 1 - bit_length den)
          ≤ 2 ^ bit_length den * 2 ^ (bit_length num - 1 - bit_length den) :=
            Nat.mul_le_mul_right _ (le_of_lt b2)
        _ = 2 ^ (bit_length num - 1) := by rw [← pow_add]; congr 1; omega
        _ ≤ num := a1
    · have e1 : ((bit_length num : Int) - (bit_length den : Int) - 1).toNat = 0 := by omega
      have e2 : (-((bit_length num : Int) - (bit_length den : Int) - 1)).toNat
          = bit_length den - (bit_length num - 1) := by omega
      rw [e1, e2, pow_zero, Nat.mul_one]
      calc den ≤ 2 ^ bit_length den := le_of_lt b2
        _ = 2 ^ (bit_length num - 1) * 2 ^ (bit_length den - (bit_length num - 1)) := by
            rw [← pow_add]; congr 1; omega
        _ ≤ num * 2 ^ (bit_length den - (bit_length num - 1)) := Nat.mul_le_mul_right _ a1

/-- Rounding to the nearest integer is off by at most one half. -/
theorem round_nearest_error (n m : Nat) (hm : 0 < m) :
    |(((if 2 * (n % m) < m then n / m
        else if m < 2 * (n % m) then n / m + 1
        else if (n / m) % 2 = 0 then n / m
        else n / m + 1 : Nat) : ℚ)) - (n : ℚ) / m| ≤ 1 / 2 := by
  have hmq : (0 : ℚ) < m := by exact_mod_cast hm
  have hdm : (n : ℚ) = (m : ℚ) * ((n / m : Nat) : ℚ) + ((n % m : Nat) : ℚ) := by
    exact_mod_cast (Nat.div_add_mod n m).symm
  have hr : ((n % m : Nat) : ℚ) < m := by exact_mod_cast Nat.mod_lt n hm
  have hr0 : (0 : ℚ) ≤ ((n % m : Nat) : ℚ) := by positivity
  have hq : (n : ℚ) / m = ((n / m : Nat) : ℚ) + ((n % m : Nat) : ℚ) / m := by
    rw [hdm]; field_simp; ring
  rw [hq, abs_le]
  have c1 : 2 * (n % m) < m → ((n % m : Nat) : ℚ) / m ≤ 1 / 2 := by
    intro h
    have : (2 : ℚ) * ((n % m : Nat) : ℚ) < m := by exact_mod_cast h
    rw [div_le_iff₀ hmq]; linarith
  have c2 : ¬ 2 * (n % m) < m → 1 / 2 ≤ ((n % m : Nat) : ℚ) / m := by
    intro h
    have : (m : ℚ) ≤ (2 : ℚ) * ((n % m : Nat) : ℚ) := by exact_mod_cast Nat.le_of_not_lt h
    rw [le_div_iff₀ hmq]; linarith
  have c3 : ¬ m < 2 * (n % m) → ((n % m : Nat) : ℚ) / m ≤ 1 / 2 := by
    intro h
    have : (2 : ℚ) * ((n % m : Nat) : ℚ) ≤ m := by exact_mod_cast Nat.le_of_not_lt h
    rw [div_le_iff₀ hmq]; linarith
  have hfrac0 : 0 ≤ ((n % m : Nat) : ℚ) / m := div_nonneg hr0 (le_of_lt hmq)
  have hfrac1 : ((n % m : Nat) : ℚ) / m < 1 := by rw [div_lt_one hmq]; exact hr
  split_ifs with h1 h2 h3
  · have := c1 h1
    constructor <;> linarith
  · have := c2 h1
    push_cast
    constructor <;> linarith
  · have := c3 h2
    constructor <;> linarith
  · have := c2 h1
    push_cast
    constructor <;> linarith

/-- The binary32 quotient is within a relative `2^-24` of the exact quotient. -/
theorem binary32_div_error (num den : Nat) (hd : 0 < den) :
    |binary32_div num den - (num : ℚ) / den| ≤ (num : ℚ) / den / 2 ^ 24 := by
  unfold binary32_div
  by_cases hn : num = 0
  · simp [hn]
  · have hnpos : 0 < num := Nat.pos_of_ne_zero hn
    simp only [hn, if_false]
    have hexp := binary32_exponent_le num den hnpos hd
    generalize he : binary32_exponent num den = e at hexp
    have hm : 0 < den * 2 ^ (-(23 - e)).toNat := Nat.mul_pos hd (by positivity)
    have hround := round_nearest_error (num * 2 ^ (23 - e).toNat)
      (den * 2 ^ (-(23 - e)).toNat) hm
    have hsig : binary32_significand num den =
        (if 2 * ((num * 2 ^ (23 - e).toNat) % (den * 2 ^ (-(23 - e)).toNat)) <
            den * 2 ^ (-(23 - e)).toNat then
          (num * 2 ^ (23 - e).toNat) / (den * 2 ^ (-(23 - e)).toNat)
        else if den * 2 ^ (-(23 - e)).toNat <
            2 * ((num * 2 ^ (23 - e).toNat) % (den * 2 ^ (-(23 - e)).toNat)) then
          (num * 2 ^ (23 - e).toNat) / (den * 2 ^ (-(23 - e)).toNat) + 1
        else if ((num * 2 ^ (23 - e).toNat) / (den * 2 ^ (-(23 - e)).toNat)) % 2 = 0 then
          (num * 2 ^ (23 - e).toNat) / (den * 2 ^ (-(23 - e)).toNat)
        else (num * 2 ^ (23 - e).toNat) / (den * 2 ^ (-(23 - e)).toNat) + 1) := by
      unfold binary32_significand
      simp only [he]
    rw [hsig]
    generalize (if 2 * ((num * 2 ^ (23 - e).toNat) % (den * 2 ^ (-(23 - e)).toNat)) <
            den * 2 ^ (-(23 - e)).toNat then
          (num * 2 ^ (23 - e).toNat) / (den * 2 ^ (-(23 - e)).toNat)
        else if den * 2 ^ (-(23 - e)).toNat <
            2 * ((num * 2 ^ (23 - e).toNat) % (den * 2 ^ (-(23 - e)).toNat)) then
          (num * 2 ^ (23 - e).toNat) / (den * 2 ^ (-(23 - e)).toNat) + 1
        else if ((num * 2 ^ (23 - e).toNat) / (den * 2 ^ (-(23 - e)).toNat)) % 2 = 0 then
          (num * 2 ^ (23 - e).toNat) / (den * 2 ^ (-(23 - e)).toNat)
        else (num * 2 ^ (23 - e).toNat) / (den * 2 ^ (-(23 - e)).toNat) + 1) = sig at hround
    have hdq : (0 : ℚ) < den := by exact_mod_cast hd
    have hscaled : (((num * 2 ^ (23 - e).toNat : Nat) : ℚ)) /
        ((den * 2 ^ (-(23 - e)).toNat : Nat) : ℚ) = (num : ℚ) / den * (2 : ℚ) ^ (23 - e) := by
      rw [two_zpow_eq (23 - e)]
      push_cast
      field_simp
    rw [hscaled] at hround
    have h2pos : (0 : ℚ) < (2 : ℚ) ^ (e - 23) := by positivity
    have hinv : (2 : ℚ) ^ (23 - e) * (2 : ℚ) ^ (e - 23) = 1 := by
      rw [← zpow_add₀ (by norm_num : (2 : ℚ) ≠ 0)]
      have : (23 - e) + (e - 23) = 0 := by ring
      rw [this, zpow_zero]
    have hval : (sig : ℚ) * (2 : ℚ) ^ (e - 23) - (num : ℚ) / den =
        ((sig : ℚ) - (num : ℚ) / den * (2 : ℚ) ^ (23 - e)) * (2 : ℚ) ^ (e - 23) := by
      rw [sub_mul, mul_assoc, hinv, mul_one]
    rw [hval, abs_mul, abs_of_pos h2pos]
    have hsplit : (2 : ℚ) ^ (e - 23) = (2 : ℚ) ^ e / 2 ^ 23 := by
      rw [zpow_sub₀ (by norm_num : (2 : ℚ) ≠ 0)]
      norm_num
    calc |(sig : ℚ) - (num : ℚ) / den * (2 : ℚ) ^ (23 - e)| * (2 : ℚ) ^ (e - 23)
        ≤ 1 / 2 * (2 : ℚ) ^ (e - 23) := mul_le_mul_of_nonneg_right hround (le_of_lt h2pos)
      _ = (2 : ℚ) ^ e / 2 ^ 24 := by rw [hsplit]; ring
      _ ≤ (num : ℚ) / den / 2 ^ 24 := by
          apply div_le_div_of_nonneg_right hexp
          positivity

/-- The constant `1.2f` is the binary32 rounding of `6 / 5`. -/
theorem bh1750_raw_to_lux_factor_rounds :
    binary32_div 6 5 = bh1750_raw_to_lux_factor ∧
    bh1750_raw_to_lux_factor ≠ 6 / 5 := by
  have h1 : binary32_exponent 6 5 = 0 := by decide
  have h2 : binary32_significand 6 5 = 10066330 := by decide
  unfold binary32_div bh1750_raw_to_lux_factor bh1750_raw_to_lux_factor_num
    bh1750_raw_to_lux_factor_den
  rw [h1, h2]
  norm_num

/-- The `float` quotient of a raw value by `1.2f` lies within a relative `2^-24` of the
exact quotient by `1.2f` and within a relative `2^-23` of the raw value divided by 1.2. -/
theorem bh1750_lux_accuracy (raw : Nat) :
    (raw * bh1750_raw_to_lux_factor_den : Nat) / (bh1750_raw_to_lux_factor_num : ℚ) =
      (raw : ℚ) / bh1750_raw_to_lux_factor ∧
    |binary32_div (raw * bh1750_raw_to_lux_factor_den) bh1750_raw_to_lux_factor_num -
        (raw : ℚ) / bh1750_raw_to_lux_factor| ≤ (raw : ℚ) / bh1750_raw_to_lux_factor / 2 ^ 24 ∧
    |binary32_div (raw * bh1750_raw_to_lux_factor_den) bh1750_raw_to_lux_factor_num -
        (raw : ℚ) / (6 / 5)| ≤ (raw : ℚ) / (6 / 5) / 2 ^ 23 := by
  have hq : ((raw * bh1750_raw_to_lux_factor_den : Nat) : ℚ) /
      (bh1750_raw_to_lux_factor_num : ℚ) = (raw : ℚ) / bh1750_raw_to_lux_factor := by
    unfold bh1750_raw_to_lux_factor bh1750_raw_to_lux_factor_num bh1750_raw_to_lux_factor_den
    push_cast
    field_simp
  have herr := binary32_div_error (raw * bh1750_raw_to_lux_factor_den)
    bh1750_raw_to_lux_factor_num (by decide)
  rw [hq] at herr
  refine ⟨hq, herr, ?_⟩
  have hr : (0 : ℚ) ≤ (raw : ℚ) := by positivity
  have hx : (raw : ℚ) / bh1750_raw_to_lux_factor = (raw : ℚ) * (8388608 / 10066330) := by
    unfold bh1750_raw_to_lux_factor bh1750_raw_to_lux_factor_num bh1750_raw_to_lux_factor_den
    push_cast
    field_simp
  rw [hx] at herr
  obtain ⟨e1, e2⟩ := abs_le.mp herr
  rw [abs_le]
  constructor <;> linarith

/-! ## BH1750: the value `bh1750_read` stores -/

/-- C28 (amended): with the two bytes read and the state values fitting a byte,
`bh1750_read` returns `ESP_FAIL` with `lux = -1` and state `k_bh1750_error` when the bus
read fails, and otherwise `ESP_OK` with state `k_bh1750_data_updated` and `lux` the `float`
quotient of the raw value by `1.2f`, the raw value being `256 * data[0] + data[1]`, at most
65535; the rest of the record is unchanged. That quotient is the binary32 number nearest to
raw / 1.2f; it lies within raw / 1.2 times `2^-23` of raw / 1.2. -/
theorem bh1750_read_outcome (C : bh1750_enum_t) (read_ret : esp_err_t) (data0 data1 : Nat)
    (d : bh1750_data_t) (hb0 : data0 < 256) (hb1 : data1 < 256)
    (herr : C.k_bh1750_error < 256) (hupd : C.k_bh1750_data_updated < 256) :
    bh1750_read C read_ret data0 data1 d =
      (if read_ret ≠ ESP_OK then
        (ESP_FAIL, { d with lux := -1, state := C.k_bh1750_error })
      else
        (ESP_OK, { d with
          lux := binary32_div ((256 * data0 + data1) * bh1750_raw_to_lux_factor_den)
            bh1750_raw_to_lux_factor_num
          state := C.k_bh1750_data_updated })) ∧
    256 * data0 + data1 ≤ 65535 ∧
    ((256 * data0 + data1) * bh1750_raw_to_lux_factor_den : Nat) /
        (bh1750_raw_to_lux_factor_num : ℚ) =
      ((256 * data0 + data1 : Nat) : ℚ) / bh1750_raw_to_lux_factor ∧
    binary32_div 6 5 = bh1750_raw_to_lux_factor ∧
    |binary32_div ((256 * data0 + data1) * bh1750_raw_to_lux_factor_den)
        bh1750_raw_to_lux_factor_num -
      ((256 * data0 + data1 : Nat) : ℚ) / bh1750_raw_to_lux_factor| ≤
        ((256 * data0 + data1 : Nat) : ℚ) / bh1750_raw_to_lux_factor / 2 ^ 24 ∧
    |binary32_div ((256 * data0 + data1) * bh1750_raw_to_lux_factor_den)
        bh1750_raw_to_lux_factor_num -
      ((256 * data0 + data1 : Nat) : ℚ) / (6 / 5)| ≤
        ((256 * data0 + data1 : Nat) : ℚ) / (6 / 5) / 2 ^ 23 := by
  have h := shift_or_bytes data0 data1
  rw [Nat.mod_eq_of_lt hb0, Nat.mod_eq_of_lt hb1] at h
  obtain ⟨a1, a2, a3⟩ := bh1750_lux_accuracy (256 * data0 + data1)
  refine ⟨?_, by omega, a1, bh1750_raw_to_lux_factor_rounds.1, a2, a3⟩
  unfold bh1750_read
  by_cases hr : read_ret = ESP_OK
  · simp only [hr, ne_eq, not_true_eq_false, if_false, bh1750_high_byte_shift,
      Nat.mod_eq_of_lt hb0, Nat.mod_eq_of_lt hb1, h, Nat.mod_eq_of_lt hupd]
  · simp only [hr, ne_eq, not_false_eq_true, if_true, Nat.mod_eq_of_lt herr]

/-- The `float` quotient of the raw value 300 by `1.2f`. -/
theorem binary32_div_300 :
    binary32_div (300 * bh1750_raw_to_lux_factor_den) bh1750_raw_to_lux_factor_num =
      16383999 / 65536 := by
  have h1 : binary32_exponent (300 * bh1750_raw_to_lux_factor_den)
      bh1750_raw_to_lux_factor_num = 7 := by decide
  have h2 : binary32_significand (300 * bh1750_raw_to_lux_factor_den)
      bh1750_raw_to_lux_factor_num = 16383999 := by decide
  unfold binary32_div
  rw [h1, h2]
  norm_num [bh1750_raw_to_lux_factor_den]

theorem bh1750_read_outcome_witness :
    (demo_bh1750_env_ok.data0 < 256 ∧ demo_bh1750_env_ok.data1 < 256 ∧
      demo_bh1750_enum.k_bh1750_error < 256 ∧ demo_bh1750_enum.k_bh1750_data_updated < 256) ∧
    bh1750_read demo_bh1750_enum ESP_OK demo_bh1750_env_ok.data0 demo_bh1750_env_ok.data1
        demo_bh1750_data =
      (ESP_OK, { demo_bh1750_data with lux := 16383999 / 65536, state := 0x01 }) ∧
    bh1750_read demo_bh1750_enum ESP_FAIL demo_bh1750_env_ok.data0 demo_bh1750_env_ok.data1
        demo_bh1750_data =
      (ESP_FAIL, { demo_bh1750_data with lux := -1, state := 0xF0 }) := by
  refine ⟨by decide, ?_, ?_⟩
  · rw [(bh1750_read_outcome demo_bh1750_enum ESP_OK demo_bh1750_env_ok.data0
      demo_bh1750_env_ok.data1 demo_bh1750_data (by decide) (by decide) (by decide)
      (by decide)).1]
    have h300 : 256 * demo_bh1750_env_ok.data0 + demo_bh1750_env_ok.data1 = 300 := by decide
    rw [h300, binary32_div_300]
    simp [demo_bh1750_enum]
  · rw [(bh1750_read_outcome demo_bh1750_enum ESP_FAIL demo_bh1750_env_ok.data0
      demo_bh1750_env_ok.data1 demo_bh1750_data (by decide) (by decide) (by decide)
      (by decide)).1]
    simp [demo_bh1750_enum, ESP_FAIL, ESP_OK]

/-- C28, as stated, fails: with the bytes `0x01 0x2C` (raw value 300) a successful
`bh1750_read` stores `lux = 16383999 / 65536` (249.99998474...), the binary32 number nearest
to 300 / 1.2f, and not 300 / 1.2 = 250. -/
theorem bh1750_read_exact_quotient_counterexample :
    256 * 0x01 + 0x2C = 300 ∧
    (bh1750_read demo_bh1750_enum ESP_OK 0x01 0x2C demo_bh1750_data).1 = ESP_OK ∧
    (bh1750_read demo_bh1750_enum ESP_OK 0x01 0x2C demo_bh1750_data).2.lux
      = 16383999 / 65536 ∧
    (bh1750_read demo_bh1750_enum ESP_OK 0x01 0x2C demo_bh1750_data).2.lux
      ≠ (300 : ℚ) / (6 / 5) ∧
    (300 : ℚ) / (6 / 5) = 250 := by
  have hlux : (bh1750_read demo_bh1750_enum ESP_OK 0x01 0x2C demo_bh1750_data).2.lux
      = 16383999 / 65536 := by
    have hraw : (((0x01 % 256) <<< bh1750_high_byte_shift) ||| (0x2C % 256)) % 65536 = 300 := by
      decide
    simp only [bh1750_read, ne_eq, not_true_eq_false, if_false, hraw]
    exact binary32_div_300
  refine ⟨by decide, by decide, hlux, ?_, by norm_num⟩
  rw [hlux]
  norm_num

/-! ## Connectivity: reset callback and connection check -/

/-- C29: a call of `priv_wifi_reset` made while no reset is in progress leaves the guard
false, returns what `esp_wifi_start` returned (so `ESP_OK` exactly when the start
succeeded), stops and starts the driver once each, and calls `esp_wifi_connect` once when
the start succeeded and not at all otherwise; what `esp_wifi_connect` returns has no
influence on the result. A call made while a reset is in progress returns
`ESP_ERR_INVALID_STATE`, makes no call and leaves the statics, event flags included, as they
were. -/
theorem priv_wifi_reset_outcome (K : wifi_consts) (rate : Nat) (env : wifi_reset_env)
    (s t : wifi_statics_t) (connect_ret : esp_err_t)
    (hs : s.reset_in_progress = false) (ht : t.reset_in_progress = true) :
    (priv_wifi_reset K rate env s).2.1.reset_in_progress = false ∧
    ((priv_wifi_reset K rate env s).1 = ESP_OK ↔ env.start_ret = ESP_OK) ∧
    (priv_wifi_reset K rate env s).1 = env.start_ret ∧
    ((priv_wifi_reset K rate env s).2.2.count .esp_wifi_connect =
      if env.start_ret = ESP_OK then 1 else 0) ∧
    (priv_wifi_reset K rate env s).2.2.count .esp_wifi_stop = 1 ∧
    (priv_wifi_reset K rate env s).2.2.count .esp_wifi_start = 1 ∧
    (priv_wifi_reset K rate { env with connect_ret := connect_ret } s).1 =
      (priv_wifi_reset K rate env s).1 ∧
    priv_wifi_reset K rate env t = (ESP_ERR_INVALID_STATE, t, []) := by
  unfold priv_wifi_reset
  by_cases h : env.start_ret = ESP_OK <;> cases hg : s.s_wifi_event_group <;>
    simp [hs, ht, h]

theorem priv_wifi_reset_outcome_witness :
    demo_wifi_connecting.reset_in_progress = false ∧
    demo_wifi_resetting.reset_in_progress = true ∧
    demo_wifi_connect_fails.connect_ret ≠ ESP_OK ∧
    (priv_wifi_reset demo_wifi_consts 1000 demo_wifi_connect_fails
      demo_wifi_connecting).1 = demo_wifi_connect_fails.start_ret ∧
    priv_wifi_reset demo_wifi_consts 1000 demo_wifi_connect_fails demo_wifi_resetting =
      (ESP_ERR_INVALID_STATE, demo_wifi_resetting, []) :=
  ⟨rfl, rfl, by decide,
    (priv_wifi_reset_outcome demo_wifi_consts 1000 demo_wifi_connect_fails
      demo_wifi_connecting demo_wifi_resetting ESP_OK rfl rfl).2.2.1,
    (priv_wifi_reset_outcome demo_wifi_consts 1000 demo_wifi_connect_fails
      demo_wifi_connecting demo_wifi_resetting ESP_OK rfl rfl).2.2.2.2.2.2.2⟩

/-- C30: `wifi_check_connection` returns `ESP_ERR_INVALID_STATE` when the event group is
`NULL`; otherwise `ESP_OK` when the mode read succeeds, the mode is station mode and the
access-point record can be read, and `ESP_FAIL` in every other case. The only calls it
makes are the two driver queries `esp_wifi_get_mode` and `esp_wifi_sta_get_ap_info`: no
delay or wait, no change of an event flag, no Supervisor call (the function assigns no
static, so its embedding returns none). -/
theorem wifi_check_connection_outcome (env : wifi_check_env) (s : wifi_statics_t) :
    (wifi_check_connection env s).1 =
      (if s.s_wifi_event_group = none then ESP_ERR_INVALID_STATE
       else if env.get_mode_ret = ESP_OK ∧ env.mode = WIFI_MODE_STA ∧ env.ap_info_ret = ESP_OK
         then ESP_OK
       else ESP_FAIL) ∧
    ((wifi_check_connection env s).1 = ESP_OK ↔
      s.s_wifi_event_group ≠ none ∧ env.get_mode_ret = ESP_OK ∧ env.mode = WIFI_MODE_STA ∧
        env.ap_info_ret = ESP_OK) ∧
    (∀ c ∈ (wifi_check_connection env s).2,
      c = .esp_wifi_get_mode ∨ c = .esp_wifi_sta_get_ap_info) ∧
    (∀ c ∈ (wifi_check_connection env s).2, ∀ bits ticks,
      c ≠ .vTaskDelay ticks ∧ c ≠ .xEventGroupWaitBits bits ticks ∧
      c ≠ .xEventGroupSetBits bits ∧ c ≠ .xEventGroupClearBits bits ∧
      c ≠ .error_handler_record_status ticks ∧ c ≠ .error_handler_record_error ticks) := by
  have hne : ESP_FAIL ≠ ESP_OK := by decide
  have hne2 : ESP_ERR_INVALID_STATE ≠ ESP_OK := by decide
  unfold wifi_check_connection
  cases hg : s.s_wifi_event_group with
  | none => simp [hne2]
  | some b =>
    by_cases h1 : env.get_mode_ret = ESP_OK
    · by_cases h2 : env.mode = WIFI_MODE_STA
      · by_cases h3 : env.ap_info_ret = ESP_OK
        · simp [h1, h2, h3]
        · simp [h1, h2, h3, hne]
      · simp [h1, h2, hne]
    · simp [h1, hne]

end ProjectStar
